import Mathlib

/-! GPU camera stream (`gcs2.c`): latest-frame exchange

A shallow embedding of the stream controller of `src/gcs2.c`.  One value of
`GCS` is one heap-allocated `struct GCS`; every C function that takes a
`GCS *` becomes a function on that value.  Pointers are `Option`s (`none` is
`NULL`), the two VCOS mutexes are booleans (`true` = held), the two VCOS timers
are `Option Nat` (`some ms` = running with that timeout).

A call can end in three ways, see `Outcome`: it returns, it waits for ever in
`vcos_mutex_lock` because the mutex is held and nothing in the call releases
it, or it dereferences a null pointer.
-/

namespace Vc4cv

/-! ## Data model -/

/-- Which of the two pools of a `struct GCS` owns a buffer header
(`bufferPool` or `bufferPool1`). -/
inductive PoolId where
  | pool0
  | pool1
deriving DecidableEq, Repr

/-- The fields of `MMAL_BUFFER_HEADER_T` the stream reads: the header's
address `hdr`, `length`, and the payload pointer `data` (`0` is `NULL`);
`owner` is the pool the header was allocated from. -/
structure Buffer where
  hdr : Nat
  length : Nat
  data : Nat
  owner : PoolId
deriving DecidableEq, Repr

/-- The part of `MMAL_PORT_T` the stream acts on: whether the port is enabled
and the buffers the driver accepted through `mmal_port_send_buffer`, oldest
first. -/
structure Port where
  enabled : Bool
  sent : List Buffer
deriving DecidableEq, Repr

/-- The `struct GCS` of `gcs2.c` (lines 39-62).  `released` is not a C field:
it records, oldest first, every buffer passed to `mmal_buffer_header_release`,
so that "released exactly once" can be stated. -/
structure GCS where
  started : Nat
  error : Nat
  cameraOutput : Option Port
  cameraOutput1 : Option Port
  bufferPool : Option (List Buffer)
  bufferPool1 : Option (List Buffer)
  curFrameBuffer : Option Buffer
  curFrameBuffer1 : Option Buffer
  processingFrameBuffer : Option Buffer
  processingFrameBuffer1 : Option Buffer
  watchdogTimer : Option Nat
  watchdogTimer1 : Option Nat
  frameReadyMutex : Bool
  frameReadyMutex1 : Bool
  released : List Buffer
deriving DecidableEq, Repr

/-- The answers of the camera driver during one call: whether
`mmal_port_enable` succeeds, and which buffers `mmal_port_send_buffer`
accepts. -/
structure Driver where
  enable : Bool
  accept : Buffer → Bool

/-- How a call on a stream ends: `done ret g` it returned `ret` leaving the
structure as `g`; `blocked g` it is waiting in `vcos_mutex_lock` on a held
mutex, the structure being `g` at that point; `fault` it dereferenced a null
pointer. -/
inductive Outcome (α : Type) where
  | done (ret : α) (g : GCS)
  | blocked (g : GCS)
  | fault
deriving DecidableEq, Repr

/-- The constant `GCS_WATCHDOG_TIMEOUT_MS` (line 25). -/
def GCS_WATCHDOG_TIMEOUT_MS : Nat := 4000

/-- The constant `GCS_SIMUL_BUFFERS` (line 30). -/
def GCS_SIMUL_BUFFERS : Nat := 4

/-! ## MMAL primitives used by the stream -/

/-- Modelled from the spec: the MMAL library routine
`mmal_buffer_header_release` applied to a non-null header, which is not part
of the sources.  "Returns a Buffer to the free set": the header is appended to
the free queue of the pool that owns it, and the call is recorded in
`released`. -/
def mmal_buffer_header_release (g : GCS) (b : Buffer) : GCS :=
  match b.owner with
  | PoolId.pool0 =>
    { g with bufferPool := g.bufferPool.map (fun q => q ++ [b]),
             released := g.released ++ [b] }
  | PoolId.pool1 =>
    { g with bufferPool1 := g.bufferPool1.map (fun q => q ++ [b]),
             released := g.released ++ [b] }

/-- Modelled from the spec: the MMAL library routine `mmal_port_send_buffer`
on a non-null port ("submit_buffer(buffer) -> Result"): a buffer the driver
accepts is now held by the port, a refused one is only logged. -/
def mmal_port_send_buffer (drv : Driver) (p : Port) (b : Buffer) : Port :=
  if drv.accept b then { p with sent := p.sent ++ [b] } else p

/-- Modelled from the spec: the MMAL library routine `mmal_port_disable`
("disable_output() -> ()"); on a null port it only reports an error. -/
def mmal_port_disable (p : Option Port) : Option Port :=
  p.map (fun q => { q with enabled := false })

/-! ## Stream creation: the structure a successful constructor returns -/

/-- The structure `gcs_create` returns on its success path (lines 85-166):
`vcos_calloc` zeroes every field, the mutex `frameReadyMutex` and the timer
`watchdogTimer` are created idle, `cameraOutput` is the (not yet enabled)
preview port and `bufferPool` is the pool `pool` that `mmal_port_pool_create`
allocated.  The camera-1 fields stay null. -/
def gcs_create_ok (pool : List Buffer) : GCS :=
  { started := 0, error := 0,
    cameraOutput := some { enabled := false, sent := [] },
    cameraOutput1 := none,
    bufferPool := some pool,
    bufferPool1 := none,
    curFrameBuffer := none, curFrameBuffer1 := none,
    processingFrameBuffer := none, processingFrameBuffer1 := none,
    watchdogTimer := none, watchdogTimer1 := none,
    frameReadyMutex := false, frameReadyMutex1 := false,
    released := [] }

/-- The structure `gcs_create1` returns on its success path (lines 194-309):
as `gcs_create_ok`, with the camera-1 fields set and the camera-0 fields
null. -/
def gcs_create1_ok (pool : List Buffer) : GCS :=
  { started := 0, error := 0,
    cameraOutput := none,
    cameraOutput1 := some { enabled := false, sent := [] },
    bufferPool := none,
    bufferPool1 := some pool,
    curFrameBuffer := none, curFrameBuffer1 := none,
    processingFrameBuffer := none, processingFrameBuffer1 := none,
    watchdogTimer := none, watchdogTimer1 := none,
    frameReadyMutex := false, frameReadyMutex1 := false,
    released := [] }

/-! ## Stop and start -/

/-- The function `gcs_stop` (lines 434-462).  The flag is cleared first and
tested afterwards, exactly as in the source. -/
def gcs_stop (g : GCS) : GCS :=
  let g := { g with started := 0 }
  -- vcos_timer_cancel(&gcs->watchdogTimer)
  let g := { g with watchdogTimer := none }
  if g.started ≠ 0 then
    let g := { g with cameraOutput := mmal_port_disable g.cameraOutput }
    let g := if g.frameReadyMutex then { g with frameReadyMutex := false } else g
    let g :=
      match g.processingFrameBuffer with
      | some b => { mmal_buffer_header_release g b with processingFrameBuffer := none }
      | none => g
    let g :=
      match g.curFrameBuffer with
      | some b => { mmal_buffer_header_release g b with curFrameBuffer := none }
      | none => g
    g
  else g

/-- The function `gcs_stop1` (lines 466-494). -/
def gcs_stop1 (g : GCS) : GCS :=
  let g := { g with started := 0 }
  -- vcos_timer_cancel(&gcs1->watchdogTimer1)
  let g := { g with watchdogTimer1 := none }
  if g.started ≠ 0 then
    let g := { g with cameraOutput1 := mmal_port_disable g.cameraOutput1 }
    let g := if g.frameReadyMutex1 then { g with frameReadyMutex1 := false } else g
    let g :=
      match g.processingFrameBuffer1 with
      | some b => { mmal_buffer_header_release g b with processingFrameBuffer1 := none }
      | none => g
    let g :=
      match g.curFrameBuffer1 with
      | some b => { mmal_buffer_header_release g b with curFrameBuffer1 := none }
      | none => g
    g
  else g

/-- The loop `while ((buffer = mmal_queue_get(queue)) != NULL)
mmal_port_send_buffer(port, buffer)` of `gcs_start`, `gcs_start1` and
`gcs_onCameraOutput1`, run on the queue content: the queue is emptied from its
head and every buffer is submitted to the port. -/
def sendQueue (drv : Driver) (p : Port) : List Buffer → Port
  | [] => p
  | b :: q => sendQueue drv (mmal_port_send_buffer drv p b) q

/-- The function `gcs_start` (lines 365-396).  The return type is `uint8_t`,
so `return -1` gives `255`. -/
def gcs_start (drv : Driver) (g : GCS) : Outcome Nat :=
  let g := gcs_stop g
  let g := { g with error := 0 }
  let g := { g with started := 1 }
  -- vcos_mutex_lock(&gcs->frameReadyMutex)
  if g.frameReadyMutex then Outcome.blocked g
  else
    let g := { g with frameReadyMutex := true }
    -- gcs->cameraOutput->userdata = gcs; mmal_port_enable(gcs->cameraOutput, ...)
    match g.cameraOutput with
    | none => Outcome.fault
    | some port =>
      if drv.enable then
        let port := { port with enabled := true }
        -- while ((buffer = mmal_queue_get(gcs->bufferPool->queue)) != NULL)
        match g.bufferPool with
        | none => Outcome.fault
        | some q =>
          let g := { g with cameraOutput := some (sendQueue drv port q), bufferPool := some [] }
          let g := { g with watchdogTimer := some GCS_WATCHDOG_TIMEOUT_MS }
          Outcome.done 0 g
      else Outcome.done 255 g

/-- The function `gcs_start1` (lines 400-431). -/
def gcs_start1 (drv : Driver) (g : GCS) : Outcome Nat :=
  let g := gcs_stop1 g
  let g := { g with error := 0 }
  let g := { g with started := 1 }
  -- vcos_mutex_lock(&gcs1->frameReadyMutex1)
  if g.frameReadyMutex1 then Outcome.blocked g
  else
    let g := { g with frameReadyMutex1 := true }
    match g.cameraOutput1 with
    | none => Outcome.fault
    | some port =>
      if drv.enable then
        let port := { port with enabled := true }
        match g.bufferPool1 with
        | none => Outcome.fault
        | some q =>
          let g := { g with cameraOutput1 := some (sendQueue drv port q), bufferPool1 := some [] }
          let g := { g with watchdogTimer1 := some GCS_WATCHDOG_TIMEOUT_MS }
          Outcome.done 0 g
      else Outcome.done 255 g

/-! ## The consumer side: request, data access, return -/

/-- The function `gcs_hasFrameBuffer` (lines 497-500). -/
def gcs_hasFrameBuffer (g : GCS) : Bool := g.curFrameBuffer.isSome

/-- The function `gcs_hasFrameBuffer1` (lines 503-506). -/
def gcs_hasFrameBuffer1 (g : GCS) : Bool := g.curFrameBuffer1.isSome

/-- The function `gcs_requestFrameBuffer` (lines 510-526); the result is the
returned header pointer, `none` for `NULL`. -/
def gcs_requestFrameBuffer (g : GCS) : Outcome (Option Buffer) :=
  -- vcos_mutex_lock(&gcs->frameReadyMutex)
  if g.frameReadyMutex then Outcome.blocked g
  else
    let g := { g with frameReadyMutex := true }
    if g.processingFrameBuffer.isSome then Outcome.done none g
    else
      let g := { g with processingFrameBuffer := g.curFrameBuffer }
      let g := { g with curFrameBuffer := none }
      if g.processingFrameBuffer.isNone then Outcome.done none g
      else Outcome.done g.processingFrameBuffer g

/-- The function `gcs_requestFrameBuffer1` (lines 530-546). -/
def gcs_requestFrameBuffer1 (g : GCS) : Outcome (Option Buffer) :=
  if g.frameReadyMutex1 then Outcome.blocked g
  else
    let g := { g with frameReadyMutex1 := true }
    if g.processingFrameBuffer1.isSome then Outcome.done none g
    else
      let g := { g with processingFrameBuffer1 := g.curFrameBuffer1 }
      let g := { g with curFrameBuffer1 := none }
      if g.processingFrameBuffer1.isNone then Outcome.done none g
      else Outcome.done g.processingFrameBuffer1 g

/-- The function `gcs_getFrameBufferData` (lines 549-552), on a non-null
handle. -/
def gcs_getFrameBufferData (framebuffer : Buffer) : Nat := framebuffer.data

/-- The function `gcs_getFrameBufferData1` (lines 555-558), on a non-null
handle. -/
def gcs_getFrameBufferData1 (framebuffer1 : Buffer) : Nat := framebuffer1.data

/-- The function `gcs_returnFrameBuffer` (lines 562-569). -/
def gcs_returnFrameBuffer (g : GCS) : GCS :=
  match g.processingFrameBuffer with
  | some b => { mmal_buffer_header_release g b with processingFrameBuffer := none }
  | none => g

/-- The function `gcs_returnFrameBuffer1` (lines 573-580). -/
def gcs_returnFrameBuffer1 (g : GCS) : GCS :=
  match g.processingFrameBuffer1 with
  | some b => { mmal_buffer_header_release g b with processingFrameBuffer1 := none }
  | none => g

/-! ## The producer side: the output callbacks -/

/-- The inner loop of `gcs_onCameraOutput` (lines 650-658) run on the content
of `bufferPool1`'s queue: every buffer is submitted to `cameraOutput` and then
to `cameraOutput1`.  A null port makes the submission fail and the error
report then reads the port's `name`, a null dereference (`none`). -/
def resendBoth (drv : Driver) :
    Option Port → Option Port → List Buffer → Option (Option Port × Option Port)
  | p, p1, [] => some (p, p1)
  | some port, some port1, b :: q =>
    resendBoth drv (some (mmal_port_send_buffer drv port b))
      (some (mmal_port_send_buffer drv port1 b)) q
  | _, _, _ :: _ => none

/-- The outer loop of `gcs_onCameraOutput` (lines 648-659) run on the content
of `bufferPool`'s queue: each buffer taken there is overwritten by the inner
loop's assignment; the inner loop reads `gcs->bufferPool1->queue`, a null
dereference when `bufferPool1` is null. -/
def replenish (drv : Driver) (g : GCS) : List Buffer → Option GCS
  | [] => some { g with bufferPool := some [] }
  | _ :: q =>
    match g.bufferPool1 with
    | none => none
    | some q1 =>
      match resendBoth drv g.cameraOutput g.cameraOutput1 q1 with
      | none => none
      | some (p, p1) =>
        replenish drv { g with bufferPool1 := some [], cameraOutput := p, cameraOutput1 := p1 } q

/-- The closing lines 662-666 of `gcs_onCameraOutput`: signal that a frame is
ready. -/
def signalReady (g : GCS) : GCS :=
  if g.frameReadyMutex then { g with frameReadyMutex := false }
  else if g.frameReadyMutex1 then { g with frameReadyMutex1 := false }
  else g

/-- The function `gcs_onCameraOutput` (lines 601-667), the output callback of
camera 0; `buffer` is the header the driver delivers. -/
def gcs_onCameraOutput (drv : Driver) (g : GCS) (buffer : Buffer) : Outcome Unit :=
  if buffer.length = 0 then
    Outcome.done () (signalReady (mmal_buffer_header_release g buffer))
  else if buffer.data = 0 then
    Outcome.done () (signalReady (mmal_buffer_header_release g buffer))
  else if g.started = 0 then
    Outcome.done () (signalReady (mmal_buffer_header_release g buffer))
  else
    let g := { g with watchdogTimer := some GCS_WATCHDOG_TIMEOUT_MS }
    -- vcos_mutex_trylock(&gcs->frameReadyMutex)
    let g := { g with frameReadyMutex := true }
    let dropped : Option GCS :=
      match g.curFrameBuffer with
      | some cur =>
        let g := mmal_buffer_header_release g cur
        let g := { g with curFrameBuffer := none }
        -- mmal_buffer_header_release(gcs->curFrameBuffer1)
        match g.curFrameBuffer1 with
        | none => none
        | some cur1 =>
          let g := mmal_buffer_header_release g cur1
          some { g with curFrameBuffer1 := none }
      | none => some g
    match dropped with
    | none => Outcome.fault
    | some g =>
      let g := { g with curFrameBuffer := some buffer }
      let g := { g with curFrameBuffer1 := some buffer }
      match g.bufferPool with
      | none => Outcome.fault
      | some q =>
        match replenish drv g q with
        | none => Outcome.fault
        | some g => Outcome.done () (signalReady g)

/-- The closing lines 715-717 of `gcs_onCameraOutput1`. -/
def signalReady1 (g : GCS) : GCS :=
  if g.frameReadyMutex1 then { g with frameReadyMutex1 := false } else g

/-- The function `gcs_onCameraOutput1` (lines 670-718), the output callback of
camera 1.  A null `cameraOutput1` makes a submission fail and the error report
then reads the port's `name`, a null dereference. -/
def gcs_onCameraOutput1 (drv : Driver) (g : GCS) (buffer : Buffer) : Outcome Unit :=
  if buffer.length = 0 then
    Outcome.done () (signalReady1 (mmal_buffer_header_release g buffer))
  else if buffer.data = 0 then
    Outcome.done () (signalReady1 (mmal_buffer_header_release g buffer))
  else if g.started = 0 then
    Outcome.done () (signalReady1 (mmal_buffer_header_release g buffer))
  else
    let g := { g with watchdogTimer1 := some GCS_WATCHDOG_TIMEOUT_MS }
    -- vcos_mutex_trylock(&gcs1->frameReadyMutex1)
    let g := { g with frameReadyMutex1 := true }
    let g :=
      match g.curFrameBuffer1 with
      | some cur => { mmal_buffer_header_release g cur with curFrameBuffer1 := none }
      | none => g
    let g := { g with curFrameBuffer1 := some buffer }
    match g.bufferPool1 with
    | none => Outcome.fault
    | some [] => Outcome.done () (signalReady1 g)
    | some (b :: q) =>
      match g.cameraOutput1 with
      | none => Outcome.fault
      | some port =>
        let g := { g with cameraOutput1 := some (sendQueue drv port (b :: q)),
                          bufferPool1 := some [] }
        Outcome.done () (signalReady1 g)

/-- A run of the camera-0 output callback over successive deliveries, stopping
at the first call that does not return. -/
def deliverAll (drv : Driver) (g : GCS) : List Buffer → Outcome Unit
  | [] => Outcome.done () g
  | b :: bs =>
    match gcs_onCameraOutput drv g b with
    | Outcome.done _ g1 => deliverAll drv g1 bs
    | Outcome.blocked g1 => Outcome.blocked g1
    | Outcome.fault => Outcome.fault

/-- A run of the camera-1 output callback over successive deliveries, stopping
at the first call that does not return. -/
def deliverAll1 (drv : Driver) (g : GCS) : List Buffer → Outcome Unit
  | [] => Outcome.done () g
  | b :: bs =>
    match gcs_onCameraOutput1 drv g b with
    | Outcome.done _ g1 => deliverAll1 drv g1 bs
    | Outcome.blocked g1 => Outcome.blocked g1
    | Outcome.fault => Outcome.fault

/-! ## Concrete inputs used by the examples -/

/-- A driver that enables the port and accepts every buffer. -/
def acceptAll : Driver := { enable := true, accept := fun _ => true }

/-- A driver that refuses to enable the port. -/
def refuseEnable : Driver := { enable := false, accept := fun _ => true }

/-- The free header number `i` of camera 0's pool, as allocated. -/
def poolHeader (i : Nat) : Buffer :=
  { hdr := i, length := 0, data := 4096 * i, owner := PoolId.pool0 }

/-- The header number `i` of camera 0's pool as the driver delivers it, filled
with a frame of 640 bytes. -/
def frame (i : Nat) : Buffer :=
  { hdr := i, length := 640, data := 4096 * i, owner := PoolId.pool0 }

/-- The header number `i` of camera 1's pool as the driver delivers it. -/
def frame1 (i : Nat) : Buffer :=
  { hdr := i, length := 640, data := 4096 * i, owner := PoolId.pool1 }

/-- A pool of `GCS_SIMUL_BUFFERS` = 4 headers for camera 0. -/
def pool4 : List Buffer := [poolHeader 1, poolHeader 2, poolHeader 3, poolHeader 4]

/-- The camera-0 stream after `gcs_create`, `gcs_start` with an accepting
driver: started, all four buffers with the driver, the frame-ready mutex
held. -/
def startedStream : GCS :=
  { started := 1, error := 0,
    cameraOutput := some { enabled := true, sent := pool4 },
    cameraOutput1 := none,
    bufferPool := some [],
    bufferPool1 := none,
    curFrameBuffer := none, curFrameBuffer1 := none,
    processingFrameBuffer := none, processingFrameBuffer1 := none,
    watchdogTimer := some 4000, watchdogTimer1 := none,
    frameReadyMutex := true, frameReadyMutex1 := false,
    released := [] }

/-- The stream `startedStream` after the delivery of `frame 1`: that frame is
current (in both `curFrameBuffer` and `curFrameBuffer1`) and the mutex is
free. -/
def oneFrameStream : GCS :=
  { startedStream with
    curFrameBuffer := some (frame 1), curFrameBuffer1 := some (frame 1),
    frameReadyMutex := false }

/-- The stream `oneFrameStream` after a successful `gcs_requestFrameBuffer`:
`frame 1` is checked out and the mutex is held. -/
def checkedOutStream : GCS :=
  { oneFrameStream with
    curFrameBuffer := none, processingFrameBuffer := some (frame 1),
    frameReadyMutex := true }

/-- The stream `checkedOutStream` after the delivery of `frame 2`: `frame 1`
is still checked out, `frame 2` is current and the mutex is free again. -/
def checkedOutSignalled : GCS :=
  { checkedOutStream with
    curFrameBuffer := some (frame 2), curFrameBuffer1 := some (frame 2),
    frameReadyMutex := false }

/-- A pool of `GCS_SIMUL_BUFFERS` = 4 headers for camera 1. -/
def pool41 : List Buffer :=
  [{ hdr := 1, length := 0, data := 4096, owner := PoolId.pool1 },
   { hdr := 2, length := 0, data := 8192, owner := PoolId.pool1 },
   { hdr := 3, length := 0, data := 12288, owner := PoolId.pool1 },
   { hdr := 4, length := 0, data := 16384, owner := PoolId.pool1 }]

/-- The camera-1 stream after `gcs_create1` with the pool `pool41` and
`gcs_start1` with an accepting driver: started, all four buffers with the
driver, the frame-ready mutex held. -/
def startedStream1 : GCS :=
  { started := 1, error := 0,
    cameraOutput := none,
    cameraOutput1 := some { enabled := true, sent := pool41 },
    bufferPool := none,
    bufferPool1 := some [],
    curFrameBuffer := none, curFrameBuffer1 := none,
    processingFrameBuffer := none, processingFrameBuffer1 := none,
    watchdogTimer := none, watchdogTimer1 := some 4000,
    frameReadyMutex := false, frameReadyMutex1 := true,
    released := [] }

/-- The stream `startedStream1` after the deliveries of `frame1 1`, `frame1 2`
and `frame1 3` with no request in between. -/
def threeFramesStream1 : GCS :=
  { startedStream1 with
    curFrameBuffer1 := some (frame1 3),
    cameraOutput1 := some { enabled := true, sent := pool41 ++ [frame1 1, frame1 2] },
    frameReadyMutex1 := false,
    released := [frame1 1, frame1 2] }

/-! ## The watchdog and control callbacks -/

/-- The function `gcs_onWatchdogTrigger` (lines 721-730).  Each `LOG_ERROR`
reads the `name` of a port before the corresponding stop: through a null
`cameraOutput` or `cameraOutput1` that is a null dereference.  Both stops act
on the one structure passed as `context`. -/
def gcs_onWatchdogTrigger (g : GCS) : Outcome Unit :=
  -- LOG_ERROR("...", gcs->cameraOutput->name, ...)
  match g.cameraOutput with
  | none => Outcome.fault
  | some _ =>
    let g := gcs_stop g
    -- LOG_ERROR("...", gcs->cameraOutput1->name, ...)
    match g.cameraOutput1 with
    | none => Outcome.fault
    | some _ => Outcome.done () (gcs_stop1 g)

/-- The function `gcs_onWatchdogTrigger1` (lines 733-742); its body is the
same as that of `gcs_onWatchdogTrigger`. -/
def gcs_onWatchdogTrigger1 (g : GCS) : Outcome Unit :=
  match g.cameraOutput with
  | none => Outcome.fault
  | some _ =>
    let g := gcs_stop g
    match g.cameraOutput1 with
    | none => Outcome.fault
    | some _ => Outcome.done () (gcs_stop1 g)

/-- Modelled from the spec: the MMAL constant `MMAL_EVENT_ERROR`, the four
character code 'ERRO' that marks a "fatal driver-reported error" event. -/
def MMAL_EVENT_ERROR : Nat := 0x4F525245

/-- The event header the control port passes to `gcs_onCameraControl`: its
`cmd` and, for an error event, the status its payload holds.  It belongs to
the port's own event pool, not to a pool of the stream. -/
structure EventBuffer where
  cmd : Nat
  status : Nat
deriving DecidableEq, Repr

/-- The function `gcs_onCameraControl` (lines 583-598).  `gcs` and `gcs1` are
both the port's `userdata`, so both stops act on the same structure.  The
second component lists the event headers passed to
`mmal_buffer_header_release`, which returns them to the port's event pool. -/
def gcs_onCameraControl (g : GCS) (buf : EventBuffer) : GCS × List EventBuffer :=
  let g := if buf.cmd = MMAL_EVENT_ERROR then gcs_stop1 (gcs_stop g) else g
  (g, [buf])

/-- Lines 633-642 of `gcs_onCameraOutput` on their own: when a frame is still
current it is released through `curFrameBuffer` and then the header in
`curFrameBuffer1` is released too (`none` when that pointer is null). -/
def dropOutdated (g : GCS) : Option GCS :=
  match g.curFrameBuffer with
  | some cur =>
    let g := mmal_buffer_header_release g cur
    let g := { g with curFrameBuffer := none }
    match g.curFrameBuffer1 with
    | none => none
    | some cur1 =>
      let g := mmal_buffer_header_release g cur1
      some { g with curFrameBuffer1 := none }
  | none => some g

/-- What the consumer and the driver can do on a stopped stream: a request or
a delivery. -/
inductive ConsumerEvent where
  | request
  | deliver (b : Buffer)
deriving DecidableEq, Repr

/-- The frames that the requests of a run on a camera-0 stream return, in
order.  A request that waits leaves the structure as it is and the run goes
on with the other events; the run ends at a call that faults. -/
def handedOut (drv : Driver) (g : GCS) : List ConsumerEvent → List Buffer
  | [] => []
  | ConsumerEvent.request :: es =>
    match gcs_requestFrameBuffer g with
    | Outcome.done (some b) g1 => b :: handedOut drv g1 es
    | Outcome.done none g1 => handedOut drv g1 es
    | Outcome.blocked g1 => handedOut drv g1 es
    | Outcome.fault => []
  | ConsumerEvent.deliver b :: es =>
    match gcs_onCameraOutput drv g b with
    | Outcome.done _ g1 => handedOut drv g1 es
    | Outcome.blocked g1 => handedOut drv g1 es
    | Outcome.fault => []

/-! ## Stream creation with a failing step -/

/-- The steps of `gcs_create` / `gcs_create1` guarded by a `CHECK_STATUS`
macro, in program order (lines 86, 91, 95, 99, 115, 130, 147, 151, 159). -/
inductive CreateStep where
  | allocate
  | mutex
  | timer
  | cameraCreate
  | cameraEnable
  | controlPortEnable
  | formatCommit
  | zeroCopy
  | pool
deriving DecidableEq, Repr

/-- The resources the constructor acquires before it has a pool. -/
inductive Resource where
  | context
  | mutex
  | timer
  | component
deriving DecidableEq, Repr

/-- The calls of the constructor that acquire, release or switch something,
as recorded in its trace. -/
inductive Action where
  | acquire (r : Resource)
  | release (r : Resource)
  | componentEnable
  | componentDisable
  | controlPortEnable
  | outputPortDisable
deriving DecidableEq, Repr

/-- The label `error_allocate` (line 180): nothing to undo. -/
def error_allocate : List Action := []

/-- The label `error_mutex` (line 178): `vcos_free(gcs)`, then falls
through. -/
def error_mutex : List Action := Action.release Resource.context :: error_allocate

/-- The label `error_timer` (line 176): `vcos_mutex_delete`. -/
def error_timer : List Action := Action.release Resource.mutex :: error_mutex

/-- The label `error_cameraCreate` (line 174): `vcos_timer_delete`. -/
def error_cameraCreate : List Action := Action.release Resource.timer :: error_timer

/-- The label `error_cameraEnable` (line 172): `mmal_component_destroy`. -/
def error_cameraEnable : List Action :=
  Action.release Resource.component :: error_cameraCreate

/-- The label `error_portEnable` (line 170): `mmal_component_disable`. -/
def error_portEnable : List Action := Action.componentDisable :: error_cameraEnable

/-- The label `error_pool` (line 168): `mmal_port_disable(gcs->cameraOutput)`. -/
def error_pool : List Action := Action.outputPortDisable :: error_portEnable

/-- The calls of the constructor up to the point where step `fail` fails
(every guarded step when `fail` is `none`), followed by the clean-up the
failing step jumps to. -/
def createTrace (fail : Option CreateStep) : List Action :=
  if fail = some CreateStep.allocate then error_allocate else
  let t := [Action.acquire Resource.context]
  if fail = some CreateStep.mutex then t ++ error_mutex else
  let t := t ++ [Action.acquire Resource.mutex]
  if fail = some CreateStep.timer then t ++ error_timer else
  let t := t ++ [Action.acquire Resource.timer]
  if fail = some CreateStep.cameraCreate then t ++ error_cameraCreate else
  let t := t ++ [Action.acquire Resource.component]
  if fail = some CreateStep.cameraEnable then t ++ error_cameraEnable else
  let t := t ++ [Action.componentEnable]
  if fail = some CreateStep.controlPortEnable then t ++ error_portEnable else
  let t := t ++ [Action.controlPortEnable]
  if fail = some CreateStep.formatCommit then t ++ error_portEnable else
  if fail = some CreateStep.zeroCopy then t ++ error_portEnable else
  if fail = some CreateStep.pool then t ++ error_pool else
  t

/-- The function `gcs_create` (lines 76-182): `fail` is the guarded step that
fails, if any, and `pool` the pool `mmal_port_pool_create` would allocate.
The result is the returned pointer (`none` for `NULL`) and the trace of
calls. -/
def gcs_create (fail : Option CreateStep) (pool : List Buffer) : Option GCS × List Action :=
  match fail with
  | none => (some (gcs_create_ok pool), createTrace none)
  | some step => (none, createTrace (some step))

/-- The function `gcs_create1` (lines 185-325): the same sequence of guarded
steps and the same labels as `gcs_create`, on the camera-1 fields. -/
def gcs_create1 (fail : Option CreateStep) (pool : List Buffer) : Option GCS × List Action :=
  match fail with
  | none => (some (gcs_create1_ok pool), createTrace none)
  | some step => (none, createTrace (some step))

/-! ## Runs of a camera-0 stream against a driver that accepts every buffer -/

/-- A driver that accepts every submitted buffer and answers `enable` to
`mmal_port_enable`. -/
def acceptingDriver (enable : Bool) : Driver := { enable := enable, accept := fun _ => true }

/-- The calls made on a camera-0 stream: `gcs_start` (with the driver's answer
to the port enable), `gcs_stop`, a delivery through `gcs_onCameraOutput`,
`gcs_requestFrameBuffer` and `gcs_returnFrameBuffer`. -/
inductive Event where
  | start (enable : Bool)
  | stop
  | deliver (b : Buffer)
  | request
  | giveBack
deriving DecidableEq, Repr

/-- A stream together with the headers its driver currently holds (in
transit). -/
structure Sys where
  g : GCS
  transit : List Nat
deriving DecidableEq, Repr

/-- The buffers the driver has accepted on `cameraOutput` so far. -/
def sentOf (g : GCS) : List Buffer :=
  match g.cameraOutput with
  | some p => p.sent
  | none => []

/-- The headers submitted to `cameraOutput` between the states `g` and
`g1`. -/
def submitted (g g1 : GCS) : List Nat :=
  ((sentOf g1).drop (sentOf g).length).map Buffer.hdr

/-- The headers in the free queue of `bufferPool`. -/
def freeHdrs (g : GCS) : List Nat :=
  match g.bufferPool with
  | some q => q.map Buffer.hdr
  | none => []

/-- The headers held through `curFrameBuffer` or `processingFrameBuffer`. -/
def heldHdrs (g : GCS) : List Nat :=
  (g.curFrameBuffer.toList ++ g.processingFrameBuffer.toList).map Buffer.hdr

/-- One call on the stream.  The driver receives what the call submits; it
can only deliver a header it holds, and delivers headers of camera 0's pool.
A call that waits in `vcos_mutex_lock` leaves the structure as the other
threads see it; a call that faults ends the run (`none`). -/
def step (s : Sys) : Event → Option Sys
  | Event.start enable =>
    match gcs_start (acceptingDriver enable) s.g with
    | Outcome.done _ g1 => some { g := g1, transit := s.transit ++ submitted s.g g1 }
    | Outcome.blocked g1 => some { g := g1, transit := s.transit ++ submitted s.g g1 }
    | Outcome.fault => none
  | Event.stop => some { g := gcs_stop s.g, transit := s.transit }
  | Event.deliver b =>
    if b.hdr ∈ s.transit ∧ b.owner = PoolId.pool0 then
      match gcs_onCameraOutput (acceptingDriver true) s.g b with
      | Outcome.done _ g1 =>
        some { g := g1, transit := s.transit.erase b.hdr ++ submitted s.g g1 }
      | Outcome.blocked _ => none
      | Outcome.fault => none
    else none
  | Event.request =>
    match gcs_requestFrameBuffer s.g with
    | Outcome.done _ g1 => some { g := g1, transit := s.transit }
    | Outcome.blocked g1 => some { g := g1, transit := s.transit }
    | Outcome.fault => none
  | Event.giveBack => some { g := gcs_returnFrameBuffer s.g, transit := s.transit }

/-- A sequence of calls, from left to right; `none` when a call of the
sequence cannot be made or faults. -/
def run (s : Sys) : List Event → Option Sys
  | [] => some s
  | e :: es =>
    match step s e with
    | some s1 => run s1 es
    | none => none

/-- The accounting invariant of a run on a stream built by `gcs_create`, for
the headers `init` of its pool: pool and port are present, the camera-1 pool
is null, the held buffers belong to camera 0's pool, and the free queue, the
headers in transit and the held headers together are a rearrangement of
`init`. -/
def Conserved (init : List Nat) (s : Sys) : Prop :=
  (∃ q, s.g.bufferPool = some q) ∧ (∃ p, s.g.cameraOutput = some p) ∧
  s.g.bufferPool1 = none ∧
  (∀ c, s.g.curFrameBuffer = some c → c.owner = PoolId.pool0) ∧
  (∀ c, s.g.processingFrameBuffer = some c → c.owner = PoolId.pool0) ∧
  (freeHdrs s.g ++ s.transit ++ heldHdrs s.g).Perm init

/-! ## Runs of a camera-1 stream against a driver that accepts every buffer -/

/-- The buffers the driver has accepted on `cameraOutput1` so far. -/
def sentOf1 (g : GCS) : List Buffer :=
  match g.cameraOutput1 with
  | some p => p.sent
  | none => []

/-- The headers submitted to `cameraOutput1` between the states `g` and
`g1`. -/
def submitted1 (g g1 : GCS) : List Nat :=
  ((sentOf1 g1).drop (sentOf1 g).length).map Buffer.hdr

/-- The headers in the free queue of `bufferPool1`. -/
def freeHdrs1 (g : GCS) : List Nat :=
  match g.bufferPool1 with
  | some q => q.map Buffer.hdr
  | none => []

/-- The headers held through `curFrameBuffer1` or `processingFrameBuffer1`. -/
def heldHdrs1 (g : GCS) : List Nat :=
  (g.curFrameBuffer1.toList ++ g.processingFrameBuffer1.toList).map Buffer.hdr

/-- One call on a camera-1 stream: as `step`, with the camera-1 functions and
a driver that delivers headers of camera 1's pool. -/
def step1 (s : Sys) : Event → Option Sys
  | Event.start enable =>
    match gcs_start1 (acceptingDriver enable) s.g with
    | Outcome.done _ g1 => some { g := g1, transit := s.transit ++ submitted1 s.g g1 }
    | Outcome.blocked g1 => some { g := g1, transit := s.transit ++ submitted1 s.g g1 }
    | Outcome.fault => none
  | Event.stop => some { g := gcs_stop1 s.g, transit := s.transit }
  | Event.deliver b =>
    if b.hdr ∈ s.transit ∧ b.owner = PoolId.pool1 then
      match gcs_onCameraOutput1 (acceptingDriver true) s.g b with
      | Outcome.done _ g1 =>
        some { g := g1, transit := s.transit.erase b.hdr ++ submitted1 s.g g1 }
      | Outcome.blocked _ => none
      | Outcome.fault => none
    else none
  | Event.request =>
    match gcs_requestFrameBuffer1 s.g with
    | Outcome.done _ g1 => some { g := g1, transit := s.transit }
    | Outcome.blocked g1 => some { g := g1, transit := s.transit }
    | Outcome.fault => none
  | Event.giveBack => some { g := gcs_returnFrameBuffer1 s.g, transit := s.transit }

/-- A sequence of calls on a camera-1 stream, from left to right. -/
def run1 (s : Sys) : List Event → Option Sys
  | [] => some s
  | e :: es =>
    match step1 s e with
    | some s1 => run1 s1 es
    | none => none

/-- The accounting invariant of a run on a stream built by `gcs_create1`, for
the headers `init` of its pool. -/
def Conserved1 (init : List Nat) (s : Sys) : Prop :=
  (∃ q, s.g.bufferPool1 = some q) ∧ (∃ p, s.g.cameraOutput1 = some p) ∧
  (∀ c, s.g.curFrameBuffer1 = some c → c.owner = PoolId.pool1) ∧
  (∀ c, s.g.processingFrameBuffer1 = some c → c.owner = PoolId.pool1) ∧
  (freeHdrs1 s.g ++ s.transit ++ heldHdrs1 s.g).Perm init

/-- A driver that enables the port and refuses every submitted buffer. -/
def refuseBuffers : Driver := { enable := true, accept := fun _ => false }

/-! ## Destruction -/

/-- The calls `gcs_destroy` makes after its `gcs_stop`, in order. -/
inductive DestroyCall where
  | componentDisable
  | componentDestroy
  | poolDestroy
  | mutexDelete
  | timerDelete
  | free
deriving DecidableEq, Repr

/-- The function `gcs_destroy` (lines 328-344).  For a null pointer it returns
at once (`none`); otherwise the result is the structure as it stands when
`mmal_pool_destroy(gcs->bufferPool)` is called (line 340), that is after
`gcs_stop`, together with the calls that follow the stop. -/
def gcs_destroy (gcs : Option GCS) : Option (GCS × List DestroyCall) :=
  match gcs with
  | none => none
  | some g =>
    let g := gcs_stop g
    some (g, [DestroyCall.componentDisable, DestroyCall.componentDestroy,
              DestroyCall.poolDestroy, DestroyCall.mutexDelete, DestroyCall.timerDelete,
              DestroyCall.free])

/-- The function `gcs_destroy1` (lines 346-362): as `gcs_destroy`, with
`gcs_stop1` and `mmal_pool_destroy(gcs1->bufferPool1)`. -/
def gcs_destroy1 (gcs1 : Option GCS) : Option (GCS × List DestroyCall) :=
  match gcs1 with
  | none => none
  | some g =>
    let g := gcs_stop1 g
    some (g, [DestroyCall.componentDisable, DestroyCall.componentDestroy,
              DestroyCall.poolDestroy, DestroyCall.mutexDelete, DestroyCall.timerDelete,
              DestroyCall.free])

/-- The camera-0 stream after create, start, delivery of `frame 1`, request
and return: `frame 1` is in the free queue, the other three headers are with
the driver. -/
def returnedStream : GCS :=
  { checkedOutStream with
    processingFrameBuffer := none, bufferPool := some [frame 1], released := [frame 1] }

/-! ## The tiling setup of `main_qpu.cpp` -/

/-- A value brought into the range of a 32-bit `int` (two's complement). -/
def wrap32 (x : Int) : Int := (x + 2 ^ 31) % 2 ^ 32 - 2 ^ 31

/-- The count `qpusUsed` (lines 151-153): the number of the 12 flags
`enableQPU[i]` that are set. -/
def qpusUsed (enableQPU : List Bool) : Int := ((enableQPU.take 12).count true : Nat)

/-- The value `numTileCols` (line 211): `lineWidth` is a `uint32_t` and
`padding` an `int`, so the difference is taken modulo 2^32; it is divided by
8.0 and rounded down, which for these magnitudes is the integer quotient. -/
def numTileCols (lineWidth : Nat) (padding : Int) : Int :=
  (((lineWidth : Int) - padding) % 2 ^ 32) / 8

/-- The value `numProgCols` (line 213): `floor(numTileCols / 16.0)`. -/
def numProgCols (tileCols : Int) : Int := tileCols / 16

/-- The loop of lines 215-219, `while (numProgCols * (splitCols+1) <= qpusUsed)
splitCols++;`, run for at most `fuel` tests of the condition from the current
value of `splitCols`: `some` final value when the loop is left, `none` when it
is still running. -/
def splitColsLoop (progCols used : Int) : Nat → Int → Option Int
  | 0, _ => none
  | fuel + 1, splitCols =>
    if wrap32 (progCols * wrap32 (splitCols + 1)) ≤ used then
      splitColsLoop progCols used fuel (wrap32 (splitCols + 1))
    else some splitCols

/-- The index `c*splitCols*6 + r*6 + k` of the uniform number `k` of the
program instance for column `c` and row part `r` (lines 268-273 and 414). -/
def uniformIndex (splitCols c r k : Nat) : Nat := c * splitCols * 6 + r * 6 + k

/-- The size `uniformsSize` allocated in tiled mode (line 238):
`numInstances * 6` with `numInstances = numProgCols * splitCols`
(line 220). -/
def tiledUniformsSize (progCols splitCols : Nat) : Nat := progCols * splitCols * 6

/-! ## The serial-port handling of `main_gl.cpp` -/

/-- The size of `char buff[64]` (line 245). -/
def BUFF_SIZE : Int := 64

/-- What `read(fd, buff, sizeof(buff))` can return: -1, or the number of
bytes read, from 0 to 64. -/
def readResult (rc : Int) : Prop := rc = -1 ∨ (0 ≤ rc ∧ rc ≤ BUFF_SIZE)

/-- The index written by `buff[rc] = 0` (line 247). -/
def terminatorIndex (rc : Int) : Int := rc

/-- Whether an index is inside `buff`. -/
def inBuff (i : Int) : Prop := 0 ≤ i ∧ i < BUFF_SIZE

/-- The loop of lines 255-259 on the characters not yet read, `cur` being the
characters of the field under way (last first): each `getline` with the
comma as delimiter takes the characters up to the next comma or the end of the
text, and the field is pushed onto `result`; the loop ends when the end of the
text has been reached. -/
def splitAux (cur : List Char) : List Char → List (List Char)
  | [] => [cur.reverse]
  | c :: rest =>
    if c = Char.ofNat 44 then cur.reverse :: splitAux [] rest
    else splitAux (c :: cur) rest

/-- The vector `result` that lines 250-259 build from the text `str`. -/
def splitFields (str : List Char) : List (List Char) := splitAux [] str

/-- The indices of `result` read by lines 261-265: 0, 1 and 2 when
`result.size() > 1`, none otherwise. -/
def fieldAccesses (result : List (List Char)) : List Nat :=
  if result.length > 1 then [0, 1, 2] else []

/-! ## Basic facts about the embedding -/

/-- The body of `gcs_stop` guarded by `if (gcs->started)` never runs: the call
only clears the flag and cancels the timer. -/
theorem gcs_stop_eq (g : GCS) :
    gcs_stop g = { g with started := 0, watchdogTimer := none } := by
  simp [gcs_stop]

/-- The body of `gcs_stop1` guarded by `if (gcs1->started)` never runs. -/
theorem gcs_stop1_eq (g : GCS) :
    gcs_stop1 g = { g with started := 0, watchdogTimer1 := none } := by
  simp [gcs_stop1]

/-- The concrete stream `startedStream` is what `gcs_start` makes of a freshly
created stream. -/
theorem start_created :
    gcs_start acceptAll (gcs_create_ok pool4) = Outcome.done 0 startedStream := by
  rfl

/-- The concrete stream `oneFrameStream` is `startedStream` after one
delivery. -/
theorem deliver_first :
    gcs_onCameraOutput acceptAll startedStream (frame 1) = Outcome.done () oneFrameStream := by
  rfl

/-- The concrete stream `checkedOutStream` is `oneFrameStream` after a
request, which returns `frame 1`. -/
theorem request_first :
    gcs_requestFrameBuffer oneFrameStream = Outcome.done (some (frame 1)) checkedOutStream := by
  rfl

/-- The concrete stream `checkedOutSignalled` is `checkedOutStream` after the
delivery of `frame 2`. -/
theorem deliver_while_checked_out :
    gcs_onCameraOutput acceptAll checkedOutStream (frame 2)
      = Outcome.done () checkedOutSignalled := by
  rfl

/-- When the mutex is free and nothing is checked out, `gcs_requestFrameBuffer`
returns the current frame pointer (possibly null) and moves it to
`processingFrameBuffer`. -/
theorem request_free (g : GCS) (hm : g.frameReadyMutex = false)
    (hp : g.processingFrameBuffer = none) :
    gcs_requestFrameBuffer g = Outcome.done g.curFrameBuffer
      { g with frameReadyMutex := true, processingFrameBuffer := g.curFrameBuffer,
               curFrameBuffer := none } := by
  cases hc : g.curFrameBuffer <;> simp [gcs_requestFrameBuffer, hm, hp, hc]

/-- The camera-1 twin of `request_free`. -/
theorem request1_free (g : GCS) (hm : g.frameReadyMutex1 = false)
    (hp : g.processingFrameBuffer1 = none) :
    gcs_requestFrameBuffer1 g = Outcome.done g.curFrameBuffer1
      { g with frameReadyMutex1 := true, processingFrameBuffer1 := g.curFrameBuffer1,
               curFrameBuffer1 := none } := by
  cases hc : g.curFrameBuffer1 <;> simp [gcs_requestFrameBuffer1, hm, hp, hc]

/-- A request made while the frame-ready mutex is held waits in
`vcos_mutex_lock`, whatever the rest of the state. -/
theorem request_held (g : GCS) (hm : g.frameReadyMutex = true) :
    gcs_requestFrameBuffer g = Outcome.blocked g := by
  simp [gcs_requestFrameBuffer, hm]

/-- The camera-1 twin of `request_held`. -/
theorem request1_held (g : GCS) (hm : g.frameReadyMutex1 = true) :
    gcs_requestFrameBuffer1 g = Outcome.blocked g := by
  simp [gcs_requestFrameBuffer1, hm]

/-! ## C1: freshness -/

/-- An accepted delivery on camera 1 (valid buffer, stream started, pool and
port present) returns, makes the delivered buffer the current frame, frees the
frame-ready mutex and keeps the flag, the checked-out reference and the
presence of pool and port. -/
theorem onCameraOutput1_accepted (drv : Driver) (g : GCS) (b : Buffer)
    (hlen : b.length ≠ 0) (hdata : b.data ≠ 0) (hst : g.started ≠ 0)
    (hpool : g.bufferPool1.isSome = true) (hport : g.cameraOutput1.isSome = true) :
    ∃ g1, gcs_onCameraOutput1 drv g b = Outcome.done () g1 ∧
      g1.started = g.started ∧ g1.processingFrameBuffer1 = g.processingFrameBuffer1 ∧
      g1.curFrameBuffer1 = some b ∧ g1.frameReadyMutex1 = false ∧
      g1.bufferPool1.isSome = true ∧ g1.cameraOutput1.isSome = true := by
  obtain ⟨q, hq⟩ := Option.isSome_iff_exists.mp hpool
  obtain ⟨port, hp⟩ := Option.isSome_iff_exists.mp hport
  cases hc : g.curFrameBuffer1 with
  | none =>
    cases q with
    | nil => simp [gcs_onCameraOutput1, hlen, hdata, hst, hq, hp, hc, signalReady1]
    | cons c q => simp [gcs_onCameraOutput1, hlen, hdata, hst, hq, hp, hc, signalReady1]
  | some cur =>
    cases ho : cur.owner with
    | pool0 =>
      cases q with
      | nil =>
        simp [gcs_onCameraOutput1, hlen, hdata, hst, hq, hp, hc, signalReady1,
          mmal_buffer_header_release, ho]
      | cons c q =>
        simp [gcs_onCameraOutput1, hlen, hdata, hst, hq, hp, hc, signalReady1,
          mmal_buffer_header_release, ho]
    | pool1 =>
      cases q with
      | nil =>
        simp [gcs_onCameraOutput1, hlen, hdata, hst, hq, hp, hc, signalReady1,
          mmal_buffer_header_release, ho]
      | cons c q =>
        simp [gcs_onCameraOutput1, hlen, hdata, hst, hq, hp, hc, signalReady1,
          mmal_buffer_header_release, ho]

/-- Freshness on camera 1: on every started stream with pool and port present
and nothing checked out, after any non-empty run of valid deliveries with no
request in between, `gcs_requestFrameBuffer1` returns the buffer delivered
last, and `gcs_getFrameBufferData1` of that handle is its data pointer. -/
theorem freshness_camera1 (drv : Driver) (frames : List Buffer) (last : Buffer) :
    ∀ g : GCS, g.started ≠ 0 → g.processingFrameBuffer1 = none →
      g.bufferPool1.isSome = true → g.cameraOutput1.isSome = true →
      (∀ b ∈ frames ++ [last], b.length ≠ 0 ∧ b.data ≠ 0) →
      ∃ g1 g2, deliverAll1 drv g (frames ++ [last]) = Outcome.done () g1 ∧
        gcs_requestFrameBuffer1 g1 = Outcome.done (some last) g2 ∧
        gcs_getFrameBufferData1 last = last.data := by
  induction frames with
  | nil =>
    intro g hst hproc hpool hport hvalid
    have hv := hvalid last (by simp)
    obtain ⟨g1, hrun, -, hproc1, hcur1, hmutex1, -, -⟩ :=
      onCameraOutput1_accepted drv g last hv.1 hv.2 hst hpool hport
    refine ⟨g1, { g1 with frameReadyMutex1 := true, processingFrameBuffer1 := some last,
                          curFrameBuffer1 := none }, ?_, ?_, rfl⟩
    · simp [deliverAll1, hrun]
    · rw [request1_free g1 hmutex1 (hproc1.trans hproc), hcur1]
  | cons b frames ih =>
    intro g hst hproc hpool hport hvalid
    have hv := hvalid b (by simp)
    obtain ⟨g1, hrun, hst1, hproc1, -, -, hpool1, hport1⟩ :=
      onCameraOutput1_accepted drv g b hv.1 hv.2 hst hpool hport
    have hvalid1 : ∀ c ∈ frames ++ [last], c.length ≠ 0 ∧ c.data ≠ 0 :=
      fun c hc => hvalid c (by simp at hc ⊢; tauto)
    obtain ⟨g2, g3, hrun2, hreq, hdata⟩ :=
      ih g1 (hst1 ▸ hst) (hproc1.trans hproc) hpool1 hport1 hvalid1
    refine ⟨g2, g3, ?_, hreq, hdata⟩
    simp [deliverAll1, hrun, hrun2]

/-- Freshness on camera 0 for a single delivery: on a started stream with the
frame-ready mutex held, no current frame, nothing checked out and an empty
free queue (the state `gcs_start` leaves), after one valid delivery
`gcs_requestFrameBuffer` returns the delivered buffer. -/
theorem freshness_camera0_single (drv : Driver) (g : GCS) (b : Buffer)
    (hlen : b.length ≠ 0) (hdata : b.data ≠ 0) (hst : g.started ≠ 0)
    (hproc : g.processingFrameBuffer = none) (hcur : g.curFrameBuffer = none)
    (hpool : g.bufferPool = some []) :
    ∃ g1 g2, gcs_onCameraOutput drv g b = Outcome.done () g1 ∧
      gcs_requestFrameBuffer g1 = Outcome.done (some b) g2 ∧
      gcs_getFrameBufferData b = b.data := by
  refine ⟨{ g with watchdogTimer := some 4000, frameReadyMutex := false,
                   curFrameBuffer := some b, curFrameBuffer1 := some b,
                   bufferPool := some [] },
          { g with watchdogTimer := some 4000, frameReadyMutex := true,
                   curFrameBuffer := none, curFrameBuffer1 := some b,
                   processingFrameBuffer := some b,
                   bufferPool := some [] }, ?_, ?_, rfl⟩
  · simp [gcs_onCameraOutput, hlen, hdata, hst, hcur, hpool, replenish, signalReady,
      GCS_WATCHDOG_TIMEOUT_MS]
  · simp [gcs_requestFrameBuffer, hproc]

/-- On a stream built by `gcs_create` (camera-1 pool null), a valid delivery
that arrives while a frame of camera 0's pool is still current never returns:
the dropped frame goes back to the free queue, so the refill loop runs and
reads `gcs->bufferPool1->queue` through the null `bufferPool1`. -/
theorem onCameraOutput_overwrite_faults (drv : Driver) (g : GCS) (b cur : Buffer)
    (q : List Buffer) (hlen : b.length ≠ 0) (hdata : b.data ≠ 0) (hst : g.started ≠ 0)
    (hcur : g.curFrameBuffer = some cur) (hown : cur.owner = PoolId.pool0)
    (hpool : g.bufferPool = some q) (hpool1 : g.bufferPool1 = none) :
    gcs_onCameraOutput drv g b = Outcome.fault := by
  cases hc1 : g.curFrameBuffer1 with
  | none =>
    simp [gcs_onCameraOutput, hlen, hdata, hst, hcur, hc1, mmal_buffer_header_release, hown]
  | some cur1 =>
    cases ho1 : cur1.owner with
    | pool0 =>
      cases q <;>
        simp [gcs_onCameraOutput, hlen, hdata, hst, hcur, hc1, mmal_buffer_header_release,
          hown, ho1, hpool, hpool1, replenish]
    | pool1 =>
      cases q <;>
        simp [gcs_onCameraOutput, hlen, hdata, hst, hcur, hc1, mmal_buffer_header_release,
          hown, ho1, hpool, hpool1, replenish]

/-- C1 (camera 0, the code at the failing input): on the stream made by
`gcs_create` and `gcs_start`, the delivery of `frame 1` is accepted, and the
delivery of `frame 2` with no request in between does not return: having
released the dropped frame through `curFrameBuffer` and again through
`curFrameBuffer1`, the callback reads `gcs->bufferPool1->queue` with
`bufferPool1` null.  No request can then return `frame 2`. -/
theorem freshness_camera0_second_delivery_faults :
    gcs_start acceptAll (gcs_create_ok pool4) = Outcome.done 0 startedStream ∧
    startedStream.started = 1 ∧ startedStream.processingFrameBuffer = none ∧
    (frame 1).length ≠ 0 ∧ (frame 1).data ≠ 0 ∧ (frame 2).length ≠ 0 ∧ (frame 2).data ≠ 0 ∧
    gcs_onCameraOutput acceptAll startedStream (frame 1) = Outcome.done () oneFrameStream ∧
    gcs_onCameraOutput acceptAll oneFrameStream (frame 2) = Outcome.fault ∧
    deliverAll acceptAll startedStream [frame 1, frame 2] = Outcome.fault := by
  refine ⟨rfl, rfl, rfl, by decide, by decide, by decide, by decide, rfl, rfl, rfl⟩

/-! ## C2: a second request before the return -/

/-- C2 (counterexample): after `gcs_create`, `gcs_start`, one delivery and one
successful request, `frame 1` is checked out; a second request with no delivery
in between does not return `NULL`: it waits in `vcos_mutex_lock`. -/
theorem double_request_blocks :
    gcs_start acceptAll (gcs_create_ok pool4) = Outcome.done 0 startedStream ∧
    gcs_onCameraOutput acceptAll startedStream (frame 1) = Outcome.done () oneFrameStream ∧
    gcs_requestFrameBuffer oneFrameStream = Outcome.done (some (frame 1)) checkedOutStream ∧
    checkedOutStream.processingFrameBuffer = some (frame 1) ∧
    gcs_requestFrameBuffer checkedOutStream = Outcome.blocked checkedOutStream ∧
    ¬ (∃ g, gcs_requestFrameBuffer checkedOutStream = Outcome.done none g) := by
  refine ⟨rfl, rfl, rfl, rfl, rfl, ?_⟩
  rintro ⟨g, hg⟩
  have hb : gcs_requestFrameBuffer checkedOutStream = Outcome.blocked checkedOutStream := rfl
  rw [hb] at hg
  cases hg

/-- C2 (amended): in every state in which a frame is checked out, a request
made before the return returns `NULL` when the frame-ready mutex is free (a
delivery has signalled since the last request) and waits in `vcos_mutex_lock`
when the mutex is held; in neither case is a frame handed out.  The same holds
for the camera-1 functions. -/
theorem request_when_checked_out (g : GCS) :
    (g.processingFrameBuffer.isSome = true →
      gcs_requestFrameBuffer g =
        if g.frameReadyMutex then Outcome.blocked g
        else Outcome.done none { g with frameReadyMutex := true }) ∧
    (g.processingFrameBuffer1.isSome = true →
      gcs_requestFrameBuffer1 g =
        if g.frameReadyMutex1 then Outcome.blocked g
        else Outcome.done none { g with frameReadyMutex1 := true }) := by
  constructor
  · intro h
    cases hm : g.frameReadyMutex <;> simp [gcs_requestFrameBuffer, hm, h]
  · intro h
    cases hm : g.frameReadyMutex1 <;> simp [gcs_requestFrameBuffer1, hm, h]

/-- C2 (witness): the amended statement at `checkedOutSignalled`, where
`frame 1` is checked out and the mutex is free: the request returns `NULL`. -/
theorem request_when_checked_out_witness :
    checkedOutSignalled.processingFrameBuffer.isSome = true ∧
    gcs_requestFrameBuffer checkedOutSignalled =
      Outcome.done none { checkedOutSignalled with frameReadyMutex := true } :=
  ⟨rfl, (request_when_checked_out checkedOutSignalled).1 rfl⟩

/-! ## C3: what a rejected request changes -/

/-- C3 (counterexample): at `checkedOutSignalled` (reached by create, start,
delivery of `frame 1`, request, delivery of `frame 2`) the request is rejected
because `frame 1` is checked out, and the frame-ready mutex, free before the
call, is held after it. -/
theorem rejected_request_takes_mutex :
    gcs_onCameraOutput acceptAll checkedOutStream (frame 2)
      = Outcome.done () checkedOutSignalled ∧
    checkedOutSignalled.processingFrameBuffer = some (frame 1) ∧
    checkedOutSignalled.frameReadyMutex = false ∧
    (∃ g, gcs_requestFrameBuffer checkedOutSignalled = Outcome.done none g ∧
      g.frameReadyMutex = true ∧ g.frameReadyMutex ≠ checkedOutSignalled.frameReadyMutex) := by
  refine ⟨rfl, rfl, rfl, ⟨_, rfl, rfl, by decide⟩⟩

/-- C3 (amended): a request that returns `NULL` because a frame is already
checked out leaves the current reference, the checked-out reference, the
started and error flags, both watchdogs, the pools, the ports and the release
record exactly as they were; its only effect is on the frame-ready mutex,
which was free and is now held.  The same holds for the camera-1 function. -/
theorem rejected_request_frame (g g1 : GCS) :
    (g.processingFrameBuffer.isSome = true →
      gcs_requestFrameBuffer g = Outcome.done none g1 →
      g.frameReadyMutex = false ∧ g1 = { g with frameReadyMutex := true }) ∧
    (g.processingFrameBuffer1.isSome = true →
      gcs_requestFrameBuffer1 g = Outcome.done none g1 →
      g.frameReadyMutex1 = false ∧ g1 = { g with frameReadyMutex1 := true }) := by
  constructor
  · intro h hr
    cases hm : g.frameReadyMutex
    · simp [gcs_requestFrameBuffer, hm, h] at hr
      exact ⟨rfl, hr.symm⟩
    · simp [gcs_requestFrameBuffer, hm] at hr
  · intro h hr
    cases hm : g.frameReadyMutex1
    · simp [gcs_requestFrameBuffer1, hm, h] at hr
      exact ⟨rfl, hr.symm⟩
    · simp [gcs_requestFrameBuffer1, hm] at hr

/-- C3 (witness): the amended statement at `checkedOutSignalled`. -/
theorem rejected_request_frame_witness :
    checkedOutSignalled.processingFrameBuffer.isSome = true ∧
    gcs_requestFrameBuffer checkedOutSignalled
      = Outcome.done none { checkedOutSignalled with frameReadyMutex := true } ∧
    checkedOutSignalled.frameReadyMutex = false ∧
    ({ checkedOutSignalled with frameReadyMutex := true } : GCS)
      = { checkedOutSignalled with frameReadyMutex := true } :=
  ⟨rfl, rfl,
    (rejected_request_frame checkedOutSignalled
      { checkedOutSignalled with frameReadyMutex := true }).1 rfl rfl⟩

/-! ## C4: a request before any frame was published -/

/-- C4 (counterexample): on the stream made by `gcs_create` and `gcs_start`,
with no delivery yet, `gcs_requestFrameBuffer` does not return `NULL`: it waits
in `vcos_mutex_lock`, because `gcs_start` holds the frame-ready mutex. -/
theorem request_after_start_blocks :
    gcs_start acceptAll (gcs_create_ok pool4) = Outcome.done 0 startedStream ∧
    startedStream.curFrameBuffer = none ∧ startedStream.released = [] ∧
    gcs_requestFrameBuffer startedStream = Outcome.blocked startedStream ∧
    ¬ (∃ g, gcs_requestFrameBuffer startedStream = Outcome.done none g) := by
  refine ⟨rfl, rfl, rfl, rfl, ?_⟩
  rintro ⟨g, hg⟩
  have hb : gcs_requestFrameBuffer startedStream = Outcome.blocked startedStream := rfl
  rw [hb] at hg
  cases hg

/-- C4 (amended): on a freshly created stream a request returns `NULL` and
leaves nothing checked out; on a stream that `gcs_start` has returned from
(whatever the driver answered) and that has seen no delivery, nothing is
current or checked out and a request waits in `vcos_mutex_lock` until a
delivery signals.  The same holds for the camera-1 functions. -/
theorem request_before_first_frame (drv : Driver) (pool : List Buffer) (ret : Nat) (g : GCS) :
    (gcs_requestFrameBuffer (gcs_create_ok pool)
        = Outcome.done none { gcs_create_ok pool with frameReadyMutex := true } ∧
      ({ gcs_create_ok pool with frameReadyMutex := true } : GCS).processingFrameBuffer = none) ∧
    (gcs_start drv (gcs_create_ok pool) = Outcome.done ret g →
      g.curFrameBuffer = none ∧ g.processingFrameBuffer = none ∧
      gcs_requestFrameBuffer g = Outcome.blocked g) ∧
    (gcs_requestFrameBuffer1 (gcs_create1_ok pool)
        = Outcome.done none { gcs_create1_ok pool with frameReadyMutex1 := true } ∧
      ({ gcs_create1_ok pool with frameReadyMutex1 := true } : GCS).processingFrameBuffer1 = none) ∧
    (gcs_start1 drv (gcs_create1_ok pool) = Outcome.done ret g →
      g.curFrameBuffer1 = none ∧ g.processingFrameBuffer1 = none ∧
      gcs_requestFrameBuffer1 g = Outcome.blocked g) := by
  refine ⟨⟨rfl, rfl⟩, ?_, ⟨rfl, rfl⟩, ?_⟩
  · intro h
    cases he : drv.enable <;>
      simp [gcs_start, gcs_stop, gcs_create_ok, he] at h <;>
      obtain ⟨-, rfl⟩ := h <;>
      simp [gcs_requestFrameBuffer]
  · intro h
    cases he : drv.enable <;>
      simp [gcs_start1, gcs_stop1, gcs_create1_ok, he] at h <;>
      obtain ⟨-, rfl⟩ := h <;>
      simp [gcs_requestFrameBuffer1]

/-- C4 (witness): the amended statement for the accepting driver and the pool
of four headers; the started stream is `startedStream`. -/
theorem request_before_first_frame_witness :
    gcs_start acceptAll (gcs_create_ok pool4) = Outcome.done 0 startedStream ∧
    startedStream.curFrameBuffer = none ∧ startedStream.processingFrameBuffer = none ∧
    gcs_requestFrameBuffer startedStream = Outcome.blocked startedStream :=
  ⟨rfl, (request_before_first_frame acceptAll pool4 0 startedStream).2.1 rfl⟩

/-! ## C5: a successful request -/

/-- C5: whenever `gcs_requestFrameBuffer` returns a frame `b`, that frame was
the current one, nothing was checked out, and afterwards `b` is the checked-out
reference and the current reference is null; the release record, both pools
and both ports are untouched, so `b` was neither released nor handed to the
driver.  The same holds for `gcs_requestFrameBuffer1`. -/
theorem request_moves_current (g g1 : GCS) (b : Buffer) :
    (gcs_requestFrameBuffer g = Outcome.done (some b) g1 →
      g.curFrameBuffer = some b ∧ g.processingFrameBuffer = none ∧
      g1.processingFrameBuffer = some b ∧ g1.curFrameBuffer = none ∧
      g1.released = g.released ∧
      g1.bufferPool = g.bufferPool ∧ g1.bufferPool1 = g.bufferPool1 ∧
      g1.cameraOutput = g.cameraOutput ∧ g1.cameraOutput1 = g.cameraOutput1) ∧
    (gcs_requestFrameBuffer1 g = Outcome.done (some b) g1 →
      g.curFrameBuffer1 = some b ∧ g.processingFrameBuffer1 = none ∧
      g1.processingFrameBuffer1 = some b ∧ g1.curFrameBuffer1 = none ∧
      g1.released = g.released ∧
      g1.bufferPool = g.bufferPool ∧ g1.bufferPool1 = g.bufferPool1 ∧
      g1.cameraOutput = g.cameraOutput ∧ g1.cameraOutput1 = g.cameraOutput1) := by
  constructor
  · intro h
    cases hm : g.frameReadyMutex
    · cases hp : g.processingFrameBuffer
      · rw [request_free g hm hp] at h
        simp only [Outcome.done.injEq] at h
        obtain ⟨hc, rfl⟩ := h
        simp [hc]
      · simp [gcs_requestFrameBuffer, hm, hp] at h
    · simp [gcs_requestFrameBuffer, hm] at h
  · intro h
    cases hm : g.frameReadyMutex1
    · cases hp : g.processingFrameBuffer1
      · rw [request1_free g hm hp] at h
        simp only [Outcome.done.injEq] at h
        obtain ⟨hc, rfl⟩ := h
        simp [hc]
      · simp [gcs_requestFrameBuffer1, hm, hp] at h
    · simp [gcs_requestFrameBuffer1, hm] at h

/-- C5 (witness): the request on `oneFrameStream` succeeds with `frame 1`. -/
theorem request_moves_current_witness :
    gcs_requestFrameBuffer oneFrameStream = Outcome.done (some (frame 1)) checkedOutStream ∧
    oneFrameStream.curFrameBuffer = some (frame 1) ∧
    oneFrameStream.processingFrameBuffer = none ∧
    checkedOutStream.processingFrameBuffer = some (frame 1) ∧
    checkedOutStream.curFrameBuffer = none ∧
    checkedOutStream.released = oneFrameStream.released ∧
    checkedOutStream.bufferPool = oneFrameStream.bufferPool ∧
    checkedOutStream.bufferPool1 = oneFrameStream.bufferPool1 ∧
    checkedOutStream.cameraOutput = oneFrameStream.cameraOutput ∧
    checkedOutStream.cameraOutput1 = oneFrameStream.cameraOutput1 :=
  ⟨rfl, (request_moves_current oneFrameStream checkedOutStream (frame 1)).1 rfl⟩

/-! ## C6: returning the frame -/

/-- C6: when a buffer `b` is checked out, `gcs_returnFrameBuffer` makes exactly
one release call, for `b`, which puts `b` at the end of its pool's free queue,
and clears the checked-out reference; when nothing is checked out it changes
nothing; hence returning twice gives the same state as returning once.  The
same holds for `gcs_returnFrameBuffer1`. -/
theorem return_frame_once (g : GCS) :
    (∀ b, g.processingFrameBuffer = some b →
      gcs_returnFrameBuffer g
        = { mmal_buffer_header_release g b with processingFrameBuffer := none } ∧
      (gcs_returnFrameBuffer g).released = g.released ++ [b] ∧
      (gcs_returnFrameBuffer g).processingFrameBuffer = none ∧
      (b.owner = PoolId.pool0 →
        (gcs_returnFrameBuffer g).bufferPool = g.bufferPool.map (fun q => q ++ [b])) ∧
      (b.owner = PoolId.pool1 →
        (gcs_returnFrameBuffer g).bufferPool1 = g.bufferPool1.map (fun q => q ++ [b]))) ∧
    (g.processingFrameBuffer = none → gcs_returnFrameBuffer g = g) ∧
    gcs_returnFrameBuffer (gcs_returnFrameBuffer g) = gcs_returnFrameBuffer g ∧
    (∀ b, g.processingFrameBuffer1 = some b →
      gcs_returnFrameBuffer1 g
        = { mmal_buffer_header_release g b with processingFrameBuffer1 := none } ∧
      (gcs_returnFrameBuffer1 g).released = g.released ++ [b] ∧
      (gcs_returnFrameBuffer1 g).processingFrameBuffer1 = none ∧
      (b.owner = PoolId.pool0 →
        (gcs_returnFrameBuffer1 g).bufferPool = g.bufferPool.map (fun q => q ++ [b])) ∧
      (b.owner = PoolId.pool1 →
        (gcs_returnFrameBuffer1 g).bufferPool1 = g.bufferPool1.map (fun q => q ++ [b]))) ∧
    (g.processingFrameBuffer1 = none → gcs_returnFrameBuffer1 g = g) ∧
    gcs_returnFrameBuffer1 (gcs_returnFrameBuffer1 g) = gcs_returnFrameBuffer1 g := by
  refine ⟨?_, ?_, ?_, ?_, ?_, ?_⟩
  · intro b hb
    cases ho : b.owner <;> simp [gcs_returnFrameBuffer, hb, mmal_buffer_header_release, ho]
  · intro hn
    simp [gcs_returnFrameBuffer, hn]
  · cases hp : g.processingFrameBuffer with
    | none => simp [gcs_returnFrameBuffer, hp]
    | some b =>
      cases ho : b.owner <;> simp [gcs_returnFrameBuffer, hp, mmal_buffer_header_release, ho]
  · intro b hb
    cases ho : b.owner <;> simp [gcs_returnFrameBuffer1, hb, mmal_buffer_header_release, ho]
  · intro hn
    simp [gcs_returnFrameBuffer1, hn]
  · cases hp : g.processingFrameBuffer1 with
    | none => simp [gcs_returnFrameBuffer1, hp]
    | some b =>
      cases ho : b.owner <;> simp [gcs_returnFrameBuffer1, hp, mmal_buffer_header_release, ho]

/-- C6 (witness): returning `frame 1` from `checkedOutStream` releases it once
into camera 0's pool. -/
theorem return_frame_once_witness :
    checkedOutStream.processingFrameBuffer = some (frame 1) ∧
    (gcs_returnFrameBuffer checkedOutStream).released = checkedOutStream.released ++ [frame 1] ∧
    (gcs_returnFrameBuffer checkedOutStream).processingFrameBuffer = none ∧
    (gcs_returnFrameBuffer checkedOutStream).bufferPool = some [frame 1] :=
  ⟨rfl, ((return_frame_once checkedOutStream).1 (frame 1) rfl).2.1,
    ((return_frame_once checkedOutStream).1 (frame 1) rfl).2.2.1,
    ((return_frame_once checkedOutStream).1 (frame 1) rfl).2.2.2.1 rfl⟩

/-! ## C7: stop -/

/-- C7 (the code at the failing input): `gcs_stop` on the started stream
`checkedOutSignalled`, which has `frame 2` current and `frame 1` checked out,
leaves the output port enabled, both references set and nothing released; it
only clears the flag and cancels the watchdog.  The same happens on
`oneFrameStream`, which has a current frame only. -/
theorem stop_keeps_port_and_frames :
    checkedOutSignalled.started = 1 ∧
    gcs_stop checkedOutSignalled
      = { checkedOutSignalled with started := 0, watchdogTimer := none } ∧
    (gcs_stop checkedOutSignalled).cameraOutput = some { enabled := true, sent := pool4 } ∧
    (gcs_stop checkedOutSignalled).curFrameBuffer = some (frame 2) ∧
    (gcs_stop checkedOutSignalled).processingFrameBuffer = some (frame 1) ∧
    (gcs_stop checkedOutSignalled).released = [] ∧
    (gcs_stop oneFrameStream).cameraOutput = some { enabled := true, sent := pool4 } ∧
    (gcs_stop oneFrameStream).curFrameBuffer = some (frame 1) ∧
    (gcs_stop oneFrameStream).released = [] := by
  refine ⟨rfl, rfl, rfl, rfl, rfl, rfl, rfl, rfl, rfl⟩

/-! ## C8: start when the driver refuses the port enable -/

/-- C8 (the code at the failing input): when the driver refuses to enable the
port, `gcs_start` on a freshly created stream returns 255 (the `uint8_t` value
of `-1`), has taken no buffer from the pool and has not armed the watchdog, but
leaves the started flag at 1 and the frame-ready mutex held. -/
theorem start_refused_leaves_started :
    gcs_start refuseEnable (gcs_create_ok pool4)
      = Outcome.done 255
          { gcs_create_ok pool4 with started := 1, frameReadyMutex := true } ∧
    ({ gcs_create_ok pool4 with started := 1, frameReadyMutex := true } : GCS).started = 1 ∧
    ({ gcs_create_ok pool4 with started := 1, frameReadyMutex := true } : GCS).bufferPool
      = some pool4 ∧
    ({ gcs_create_ok pool4 with started := 1, frameReadyMutex := true } : GCS).watchdogTimer
      = none := by
  refine ⟨rfl, rfl, rfl, rfl⟩

/-! ## C9: a successful start -/

/-- When the driver accepts every buffer of the queue, the submission loop
hands the whole queue to the port, in order. -/
theorem sendQueue_accepted (drv : Driver) (q : List Buffer) :
    ∀ p : Port, (∀ b ∈ q, drv.accept b = true) →
      sendQueue drv p q = { p with sent := p.sent ++ q } := by
  induction q with
  | nil => intro p _; simp [sendQueue]
  | cons b q ih =>
    intro p h
    have hb : drv.accept b = true := h b (List.mem_cons_self b q)
    have hq : ∀ c ∈ q, drv.accept c = true := fun c hc => h c (List.mem_cons_of_mem b hc)
    simp [sendQueue, mmal_port_send_buffer, hb, ih _ hq]

/-- C9 (counterexample): a request on the freshly created stream returns
`NULL` and leaves the stream stopped with the frame-ready mutex held; on that
stopped stream `gcs_start`, with a driver that accepts everything, does not
return 0: it waits in `vcos_mutex_lock`.  The stopped stream obtained by
create, start, stop behaves the same. -/
theorem start_on_stopped_blocks :
    gcs_requestFrameBuffer (gcs_create_ok pool4)
      = Outcome.done none { gcs_create_ok pool4 with frameReadyMutex := true } ∧
    ({ gcs_create_ok pool4 with frameReadyMutex := true } : GCS).started = 0 ∧
    gcs_start acceptAll { gcs_create_ok pool4 with frameReadyMutex := true }
      = Outcome.blocked { gcs_create_ok pool4 with frameReadyMutex := true, started := 1 } ∧
    (gcs_stop startedStream).started = 0 ∧
    gcs_start acceptAll (gcs_stop startedStream)
      = Outcome.blocked { startedStream with watchdogTimer := none } := by
  refine ⟨rfl, rfl, rfl, rfl, rfl⟩

/-- C9 (amended): when the frame-ready mutex is free (as on a freshly created
stream), the driver accepts the port enable and every buffer of the pool's
free queue `q`, `gcs_start` returns 0 and leaves the error flag clear, started
set, the free queue empty, the port enabled and holding what it held before
followed by `q` (so every previously free buffer was handed over as many times
as it was in the queue, once), the watchdog armed with 4000 ms and the mutex
held; nothing else changes.  The same holds for `gcs_start1`. -/
theorem start_accepted (drv : Driver) (g : GCS) (port : Port) (q : List Buffer)
    (hen : drv.enable = true) (hacc : ∀ b ∈ q, drv.accept b = true) :
    (g.frameReadyMutex = false → g.cameraOutput = some port → g.bufferPool = some q →
      gcs_start drv g = Outcome.done 0
        { g with started := 1, error := 0, frameReadyMutex := true,
                 cameraOutput := some { enabled := true, sent := port.sent ++ q },
                 bufferPool := some [],
                 watchdogTimer := some 4000 } ∧
      ∀ b, List.count b (port.sent ++ q) = List.count b port.sent + List.count b q) ∧
    (g.frameReadyMutex1 = false → g.cameraOutput1 = some port → g.bufferPool1 = some q →
      gcs_start1 drv g = Outcome.done 0
        { g with started := 1, error := 0, frameReadyMutex1 := true,
                 cameraOutput1 := some { enabled := true, sent := port.sent ++ q },
                 bufferPool1 := some [],
                 watchdogTimer1 := some 4000 } ∧
      ∀ b, List.count b (port.sent ++ q) = List.count b port.sent + List.count b q) := by
  constructor
  · intro hm hp hq
    refine ⟨?_, fun b => List.count_append b _ _⟩
    simp [gcs_start, gcs_stop, hm, hp, hq, hen, sendQueue_accepted drv q _ hacc,
      GCS_WATCHDOG_TIMEOUT_MS]
  · intro hm hp hq
    refine ⟨?_, fun b => List.count_append b _ _⟩
    simp [gcs_start1, gcs_stop1, hm, hp, hq, hen, sendQueue_accepted drv q _ hacc,
      GCS_WATCHDOG_TIMEOUT_MS]

/-- C9 (witness): the amended statement on the freshly created stream with the
pool of four headers and the accepting driver. -/
theorem start_accepted_witness :
    acceptAll.enable = true ∧ (∀ b ∈ pool4, acceptAll.accept b = true) ∧
    (gcs_create_ok pool4).frameReadyMutex = false ∧
    gcs_start acceptAll (gcs_create_ok pool4) = Outcome.done 0
      { gcs_create_ok pool4 with
        started := 1, error := 0, frameReadyMutex := true,
        cameraOutput := some { enabled := true, sent := [] ++ pool4 },
        bufferPool := some [],
        watchdogTimer := some 4000 } :=
  ⟨rfl, fun _ _ => rfl, rfl,
    ((start_accepted acceptAll (gcs_create_ok pool4) { enabled := false, sent := [] } pool4
      rfl (fun _ _ => rfl)).1 rfl rfl rfl).1⟩

/-! ## C10: start on a started stream -/

/-- C10 (the code at the failing input): `gcs_start` called again on
`startedStream`, the stream a first `gcs_start` has just returned from, does
not complete: its `gcs_stop` leaves the frame-ready mutex held and the call
waits in `vcos_mutex_lock`, the watchdog cancelled.  Called on the started
stream `oneFrameStream`, whose mutex is free, it returns but leaves `frame 1`
current and unreleased. -/
theorem restart_blocks :
    gcs_start acceptAll (gcs_create_ok pool4) = Outcome.done 0 startedStream ∧
    gcs_start acceptAll startedStream
      = Outcome.blocked { startedStream with watchdogTimer := none } ∧
    (∃ g, gcs_start acceptAll oneFrameStream = Outcome.done 0 g ∧
      g.curFrameBuffer = some (frame 1) ∧ g.released = []) := by
  refine ⟨rfl, rfl, ⟨_, rfl, rfl, rfl⟩⟩

/-! ## C11: rejected deliveries -/

/-- A buffer of zero length, or with a null payload, or arriving while the
stream is not started, takes one of the first three branches of
`gcs_onCameraOutput`: it is released and the frame-ready signal is given. -/
theorem onCameraOutput_rejected (drv : Driver) (g : GCS) (b : Buffer)
    (h : b.length = 0 ∨ b.data = 0 ∨ g.started = 0) :
    gcs_onCameraOutput drv g b
      = Outcome.done () (signalReady (mmal_buffer_header_release g b)) := by
  unfold gcs_onCameraOutput
  by_cases h1 : b.length = 0
  · simp [h1]
  · by_cases h2 : b.data = 0
    · simp [h1, h2]
    · have h3 : g.started = 0 := by tauto
      simp [h1, h2, h3]

/-- The camera-1 twin of `onCameraOutput_rejected`. -/
theorem onCameraOutput1_rejected (drv : Driver) (g : GCS) (b : Buffer)
    (h : b.length = 0 ∨ b.data = 0 ∨ g.started = 0) :
    gcs_onCameraOutput1 drv g b
      = Outcome.done () (signalReady1 (mmal_buffer_header_release g b)) := by
  unfold gcs_onCameraOutput1
  by_cases h1 : b.length = 0
  · simp [h1]
  · by_cases h2 : b.data = 0
    · simp [h1, h2]
    · have h3 : g.started = 0 := by tauto
      simp [h1, h2, h3]

/-- The frame-ready signal of camera 0 changes the two mutexes only. -/
theorem signalReady_fields (g : GCS) :
    (signalReady g).started = g.started ∧ (signalReady g).released = g.released ∧
    (signalReady g).curFrameBuffer = g.curFrameBuffer ∧
    (signalReady g).curFrameBuffer1 = g.curFrameBuffer1 ∧
    (signalReady g).processingFrameBuffer = g.processingFrameBuffer ∧
    (signalReady g).processingFrameBuffer1 = g.processingFrameBuffer1 ∧
    (signalReady g).watchdogTimer = g.watchdogTimer ∧
    (signalReady g).watchdogTimer1 = g.watchdogTimer1 ∧
    (signalReady g).bufferPool = g.bufferPool ∧ (signalReady g).bufferPool1 = g.bufferPool1 ∧
    (signalReady g).cameraOutput = g.cameraOutput ∧
    (signalReady g).cameraOutput1 = g.cameraOutput1 := by
  unfold signalReady
  split_ifs <;> simp

/-- The frame-ready signal of camera 1 changes `frameReadyMutex1` only. -/
theorem signalReady1_fields (g : GCS) :
    (signalReady1 g).started = g.started ∧ (signalReady1 g).released = g.released ∧
    (signalReady1 g).curFrameBuffer = g.curFrameBuffer ∧
    (signalReady1 g).curFrameBuffer1 = g.curFrameBuffer1 ∧
    (signalReady1 g).processingFrameBuffer = g.processingFrameBuffer ∧
    (signalReady1 g).processingFrameBuffer1 = g.processingFrameBuffer1 ∧
    (signalReady1 g).watchdogTimer = g.watchdogTimer ∧
    (signalReady1 g).watchdogTimer1 = g.watchdogTimer1 ∧
    (signalReady1 g).bufferPool = g.bufferPool ∧ (signalReady1 g).bufferPool1 = g.bufferPool1 ∧
    (signalReady1 g).cameraOutput = g.cameraOutput ∧
    (signalReady1 g).cameraOutput1 = g.cameraOutput1 := by
  unfold signalReady1
  split_ifs <;> simp

/-- A release records the buffer once, appends it to the free queue of its
owner's pool and touches no reference, flag, timer, mutex or port. -/
theorem release_fields (g : GCS) (b : Buffer) :
    (mmal_buffer_header_release g b).released = g.released ++ [b] ∧
    (mmal_buffer_header_release g b).started = g.started ∧
    (mmal_buffer_header_release g b).curFrameBuffer = g.curFrameBuffer ∧
    (mmal_buffer_header_release g b).curFrameBuffer1 = g.curFrameBuffer1 ∧
    (mmal_buffer_header_release g b).processingFrameBuffer = g.processingFrameBuffer ∧
    (mmal_buffer_header_release g b).processingFrameBuffer1 = g.processingFrameBuffer1 ∧
    (mmal_buffer_header_release g b).watchdogTimer = g.watchdogTimer ∧
    (mmal_buffer_header_release g b).watchdogTimer1 = g.watchdogTimer1 ∧
    (mmal_buffer_header_release g b).cameraOutput = g.cameraOutput ∧
    (mmal_buffer_header_release g b).cameraOutput1 = g.cameraOutput1 ∧
    (b.owner = PoolId.pool0 →
      (mmal_buffer_header_release g b).bufferPool = g.bufferPool.map (fun q => q ++ [b]) ∧
      (mmal_buffer_header_release g b).bufferPool1 = g.bufferPool1) ∧
    (b.owner = PoolId.pool1 →
      (mmal_buffer_header_release g b).bufferPool1 = g.bufferPool1.map (fun q => q ++ [b]) ∧
      (mmal_buffer_header_release g b).bufferPool = g.bufferPool) := by
  cases ho : b.owner <;> simp [mmal_buffer_header_release, ho]

/-- C11: a delivered buffer that has zero length, or a null payload, or that
arrives while the stream is not started, is released exactly once (one release
call, for that buffer, which appends it to its pool's free queue) and is not
published: the callback returns with the current references, the checked-out
references and the watchdogs as they were.  This holds for `gcs_onCameraOutput`
and for `gcs_onCameraOutput1`. -/
theorem rejected_delivery (drv : Driver) (g : GCS) (b : Buffer)
    (h : b.length = 0 ∨ b.data = 0 ∨ g.started = 0) :
    (∃ g1, gcs_onCameraOutput drv g b = Outcome.done () g1 ∧
      g1.released = g.released ++ [b] ∧
      g1.curFrameBuffer = g.curFrameBuffer ∧ g1.curFrameBuffer1 = g.curFrameBuffer1 ∧
      g1.processingFrameBuffer = g.processingFrameBuffer ∧
      g1.processingFrameBuffer1 = g.processingFrameBuffer1 ∧
      g1.watchdogTimer = g.watchdogTimer ∧ g1.watchdogTimer1 = g.watchdogTimer1 ∧
      (b.owner = PoolId.pool0 → g1.bufferPool = g.bufferPool.map (fun q => q ++ [b])) ∧
      (b.owner = PoolId.pool1 → g1.bufferPool1 = g.bufferPool1.map (fun q => q ++ [b]))) ∧
    (∃ g1, gcs_onCameraOutput1 drv g b = Outcome.done () g1 ∧
      g1.released = g.released ++ [b] ∧
      g1.curFrameBuffer = g.curFrameBuffer ∧ g1.curFrameBuffer1 = g.curFrameBuffer1 ∧
      g1.processingFrameBuffer = g.processingFrameBuffer ∧
      g1.processingFrameBuffer1 = g.processingFrameBuffer1 ∧
      g1.watchdogTimer = g.watchdogTimer ∧ g1.watchdogTimer1 = g.watchdogTimer1 ∧
      (b.owner = PoolId.pool0 → g1.bufferPool = g.bufferPool.map (fun q => q ++ [b])) ∧
      (b.owner = PoolId.pool1 → g1.bufferPool1 = g.bufferPool1.map (fun q => q ++ [b]))) := by
  obtain ⟨r1, -, r3, r4, r5, r6, r7, r8, -, -, r11, r12⟩ := release_fields g b
  constructor
  · obtain ⟨-, s2, s3, s4, s5, s6, s7, s8, s9, s10, -, -⟩ :=
      signalReady_fields (mmal_buffer_header_release g b)
    refine ⟨_, onCameraOutput_rejected drv g b h, s2.trans r1, s3.trans r3, s4.trans r4,
      s5.trans r5, s6.trans r6, s7.trans r7, s8.trans r8,
      fun ho => s9.trans (r11 ho).1, fun ho => s10.trans (r12 ho).1⟩
  · obtain ⟨-, s2, s3, s4, s5, s6, s7, s8, s9, s10, -, -⟩ :=
      signalReady1_fields (mmal_buffer_header_release g b)
    refine ⟨_, onCameraOutput1_rejected drv g b h, s2.trans r1, s3.trans r3, s4.trans r4,
      s5.trans r5, s6.trans r6, s7.trans r7, s8.trans r8,
      fun ho => s9.trans (r11 ho).1, fun ho => s10.trans (r12 ho).1⟩

/-- C11 (witness): an end-of-stream buffer (zero length) delivered to
`oneFrameStream` is released once into camera 0's pool and `frame 1` stays
current. -/
theorem rejected_delivery_witness :
    (poolHeader 2).length = 0 ∧
    ∃ g1, gcs_onCameraOutput acceptAll oneFrameStream (poolHeader 2) = Outcome.done () g1 ∧
      g1.released = oneFrameStream.released ++ [poolHeader 2] ∧
      g1.curFrameBuffer = oneFrameStream.curFrameBuffer ∧
      g1.curFrameBuffer1 = oneFrameStream.curFrameBuffer1 ∧
      g1.processingFrameBuffer = oneFrameStream.processingFrameBuffer ∧
      g1.processingFrameBuffer1 = oneFrameStream.processingFrameBuffer1 ∧
      g1.watchdogTimer = oneFrameStream.watchdogTimer ∧
      g1.watchdogTimer1 = oneFrameStream.watchdogTimer1 ∧
      ((poolHeader 2).owner = PoolId.pool0 →
        g1.bufferPool = oneFrameStream.bufferPool.map (fun q => q ++ [poolHeader 2])) ∧
      ((poolHeader 2).owner = PoolId.pool1 →
        g1.bufferPool1 = oneFrameStream.bufferPool1.map (fun q => q ++ [poolHeader 2])) :=
  ⟨rfl, (rejected_delivery acceptAll oneFrameStream (poolHeader 2) (Or.inl rfl)).1⟩

/-! ## C12: the watchdog callback -/

/-- When both port pointers of the structure are non-null, the watchdog
callback returns, having cleared the started flag and cancelled both timers;
it changes nothing else and does not start the stream. -/
theorem watchdog_trigger_both_ports (g : GCS) (p p1 : Port)
    (hp : g.cameraOutput = some p) (hp1 : g.cameraOutput1 = some p1) :
    gcs_onWatchdogTrigger g
      = Outcome.done () { g with started := 0, watchdogTimer := none, watchdogTimer1 := none } ∧
    gcs_onWatchdogTrigger1 g
      = Outcome.done () { g with started := 0, watchdogTimer := none, watchdogTimer1 := none } := by
  simp [gcs_onWatchdogTrigger, gcs_onWatchdogTrigger1, gcs_stop, gcs_stop1, hp, hp1]

/-- After the `gcs_stop` the watchdog callback makes, every delivery is
rejected: it is released and does not become current. -/
theorem delivery_after_stop_rejected (drv : Driver) (g : GCS) (b : Buffer) :
    gcs_onCameraOutput drv (gcs_stop g) b
      = Outcome.done () (signalReady (mmal_buffer_header_release (gcs_stop g) b)) ∧
    (signalReady (mmal_buffer_header_release (gcs_stop g) b)).curFrameBuffer
      = g.curFrameBuffer ∧
    (signalReady (mmal_buffer_header_release (gcs_stop g) b)).started = 0 := by
  have hs : (gcs_stop g).started = 0 := by simp [gcs_stop]
  refine ⟨onCameraOutput_rejected drv (gcs_stop g) b (Or.inr (Or.inr hs)), ?_, ?_⟩
  · rw [(signalReady_fields _).2.2.1, (release_fields _ _).2.2.1]
    simp [gcs_stop]
  · rw [(signalReady_fields _).1, (release_fields _ _).2.1, hs]

/-- C12 (the code at the failing input): on the camera-0 stream made by
`gcs_create` and `gcs_start`, the watchdog callback does not return: after its
`gcs_stop` it reads `gcs->cameraOutput1->name` (line 728) and `cameraOutput1`
is null.  On the camera-1 stream made by `gcs_create1` and `gcs_start1`,
`gcs_onWatchdogTrigger1` reads `gcs->cameraOutput->name` (line 737) through the
null `cameraOutput` before any stop. -/
theorem watchdog_trigger_faults :
    gcs_start acceptAll (gcs_create_ok pool4) = Outcome.done 0 startedStream ∧
    startedStream.cameraOutput1 = none ∧
    gcs_onWatchdogTrigger startedStream = Outcome.fault ∧
    gcs_start1 acceptAll (gcs_create1_ok pool41) = Outcome.done 0 startedStream1 ∧
    startedStream1.cameraOutput = none ∧
    gcs_onWatchdogTrigger1 startedStream1 = Outcome.fault := by
  refine ⟨rfl, rfl, rfl, rfl, rfl, rfl⟩

/-! ## C13: requests after a forced stop -/

/-- On a stream that is not started, with nothing current and nothing checked
out, no request of a run of requests and deliveries returns a frame. -/
theorem handedOut_stopped (drv : Driver) (evs : List ConsumerEvent) :
    ∀ g : GCS, g.started = 0 → g.curFrameBuffer = none → g.processingFrameBuffer = none →
      handedOut drv g evs = [] := by
  induction evs with
  | nil => intro g _ _ _; rfl
  | cons e es ih =>
    intro g hs hc hp
    cases e with
    | request =>
      cases hm : g.frameReadyMutex
      · have hr := request_free g hm hp
        rw [hc] at hr
        simp only [handedOut, hr]
        exact ih _ hs rfl rfl
      · simp only [handedOut, request_held g hm]
        exact ih _ hs hc hp
    | deliver b =>
      obtain ⟨hst, _, hcur, _, hproc, _⟩ :=
        signalReady_fields (mmal_buffer_header_release g b)
      obtain ⟨_, rst, rcur, _, rproc, _⟩ := release_fields g b
      simp only [handedOut, onCameraOutput_rejected drv g b (Or.inr (Or.inr hs))]
      exact ih _ (hst.trans (rst.trans hs)) (hcur.trans (rcur.trans hc))
        (hproc.trans (rproc.trans hp))

/-- C13 (counterexample): on the stream made by `gcs_create` and `gcs_start`,
after the `gcs_stop` that the watchdog callback performs and with no publish,
a request does not return `NULL`: it waits in `vcos_mutex_lock`.  After a
delivery (rejected, because the stream is stopped) has freed the mutex, a
first request returns `NULL` and the next one waits again. -/
theorem request_after_forced_stop_blocks :
    gcs_start acceptAll (gcs_create_ok pool4) = Outcome.done 0 startedStream ∧
    gcs_requestFrameBuffer (gcs_stop startedStream) = Outcome.blocked (gcs_stop startedStream) ∧
    (∃ g1 g2, gcs_onCameraOutput acceptAll (gcs_stop startedStream) (frame 1)
        = Outcome.done () g1 ∧
      g1.curFrameBuffer = none ∧ g1.started = 0 ∧
      gcs_requestFrameBuffer g1 = Outcome.done none g2 ∧
      gcs_requestFrameBuffer g2 = Outcome.blocked g2) := by
  refine ⟨rfl, rfl, ⟨_, _, rfl, rfl, rfl, rfl, rfl⟩⟩

/-- C13 (amended): after `gcs_start` on a created stream and the `gcs_stop`
of a watchdog-forced stop, the stream is not started and holds no frame, and
in every run of requests and deliveries that follows no request returns a
frame; on such a state a request returns `NULL`, keeping the frame-ready
mutex, when the mutex is free, and waits in `vcos_mutex_lock` when it is
held, so that a request following one that returned `NULL` waits. -/
theorem no_frame_after_forced_stop (drv drv2 : Driver) (pool : List Buffer) (ret : Nat)
    (g : GCS) (evs : List ConsumerEvent)
    (hstart : gcs_start drv (gcs_create_ok pool) = Outcome.done ret g) :
    (gcs_stop g).started = 0 ∧ (gcs_stop g).curFrameBuffer = none ∧
    (gcs_stop g).processingFrameBuffer = none ∧
    handedOut drv2 (gcs_stop g) evs = [] ∧
    (∀ s : GCS, s.curFrameBuffer = none → s.processingFrameBuffer = none →
      gcs_requestFrameBuffer s =
        (if s.frameReadyMutex then Outcome.blocked s
         else Outcome.done none { s with frameReadyMutex := true }) ∧
      gcs_requestFrameBuffer { s with frameReadyMutex := true }
        = Outcome.blocked { s with frameReadyMutex := true }) := by
  have hg : g.curFrameBuffer = none ∧ g.processingFrameBuffer = none := by
    cases he : drv.enable <;>
      simp [gcs_start, gcs_stop, gcs_create_ok, he] at hstart <;>
      obtain ⟨-, rfl⟩ := hstart <;> simp
  have h1 : (gcs_stop g).started = 0 := by simp [gcs_stop]
  have h2 : (gcs_stop g).curFrameBuffer = none := by simp [gcs_stop, hg.1]
  have h3 : (gcs_stop g).processingFrameBuffer = none := by simp [gcs_stop, hg.2]
  refine ⟨h1, h2, h3, handedOut_stopped drv2 evs _ h1 h2 h3, ?_⟩
  intro s hc hp
  constructor
  · cases hm : s.frameReadyMutex
    · rw [request_free s hm hp]
      simp [hc, hp]
    · rw [request_held s hm]
      simp
  · exact request_held _ rfl

/-- C13 (witness): the amended statement for the stream `startedStream` and a
run of a request, a delivery and two requests. -/
theorem no_frame_after_forced_stop_witness :
    gcs_start acceptAll (gcs_create_ok pool4) = Outcome.done 0 startedStream ∧
    (gcs_stop startedStream).started = 0 ∧
    handedOut acceptAll (gcs_stop startedStream)
      [ConsumerEvent.request, ConsumerEvent.deliver (frame 1), ConsumerEvent.request,
       ConsumerEvent.request] = [] :=
  ⟨rfl,
    (no_frame_after_forced_stop acceptAll acceptAll pool4 0 startedStream
      [ConsumerEvent.request, ConsumerEvent.deliver (frame 1), ConsumerEvent.request,
       ConsumerEvent.request] rfl).1,
    (no_frame_after_forced_stop acceptAll acceptAll pool4 0 startedStream
      [ConsumerEvent.request, ConsumerEvent.deliver (frame 1), ConsumerEvent.request,
       ConsumerEvent.request] rfl).2.2.2.1⟩

/-! ## C14: three deliveries with no request in between -/

/-- C14 (counterexample): on the camera-1 stream made by `gcs_create1` with
four headers and `gcs_start1`, after the three valid deliveries `frame1 1`,
`frame1 2`, `frame1 3` the third is current and is what the request returns,
but the buffers of the first two are not in the free queue: the queue is empty
and both are with the driver again. -/
theorem three_deliveries_free_queue_empty :
    gcs_start1 acceptAll (gcs_create1_ok pool41) = Outcome.done 0 startedStream1 ∧
    deliverAll1 acceptAll startedStream1 [frame1 1, frame1 2, frame1 3]
      = Outcome.done () threeFramesStream1 ∧
    threeFramesStream1.curFrameBuffer1 = some (frame1 3) ∧
    threeFramesStream1.bufferPool1 = some [] ∧
    threeFramesStream1.cameraOutput1
      = some { enabled := true, sent := pool41 ++ [frame1 1, frame1 2] } ∧
    (∀ q, threeFramesStream1.bufferPool1 = some q → frame1 1 ∉ q ∧ frame1 2 ∉ q) := by
  refine ⟨rfl, rfl, rfl, rfl, rfl, ?_⟩
  intro q hq
  have hq2 : some ([] : List Buffer) = some q := hq
  cases hq2
  simp

/-- C14 (amended): on a camera-1 stream made by `gcs_create1` and `gcs_start1`
with a driver that accepts everything, after three valid deliveries `f1`,
`f2`, `f3` of that stream's buffers with no request in between, `f3` is the
current frame and the one `gcs_requestFrameBuffer1` returns; `f1` and `f2`
have each been released once, and the refill loop of the same callbacks has
handed them back to the driver, so the free queue is empty. -/
theorem three_deliveries_camera1 (drv : Driver) (pool : List Buffer) (f1 f2 f3 : Buffer)
    (hen : drv.enable = true) (hacc : ∀ b, drv.accept b = true)
    (h1 : f1.length ≠ 0 ∧ f1.data ≠ 0 ∧ f1.owner = PoolId.pool1)
    (h2 : f2.length ≠ 0 ∧ f2.data ≠ 0 ∧ f2.owner = PoolId.pool1)
    (h3 : f3.length ≠ 0 ∧ f3.data ≠ 0) :
    ∃ g0 g3 g4, gcs_start1 drv (gcs_create1_ok pool) = Outcome.done 0 g0 ∧
      deliverAll1 drv g0 [f1, f2, f3] = Outcome.done () g3 ∧
      g3.curFrameBuffer1 = some f3 ∧
      gcs_requestFrameBuffer1 g3 = Outcome.done (some f3) g4 ∧
      g3.released = [f1, f2] ∧
      g3.bufferPool1 = some [] ∧
      g3.cameraOutput1 = some { enabled := true, sent := pool ++ [f1, f2] } := by
  obtain ⟨l1, d1, o1⟩ := h1
  obtain ⟨l2, d2, o2⟩ := h2
  obtain ⟨l3, d3⟩ := h3
  have hq : ∀ (p : Port) (q : List Buffer), sendQueue drv p q = { p with sent := p.sent ++ q } :=
    fun p q => sendQueue_accepted drv q p (fun b _ => hacc b)
  simp [gcs_start1, gcs_stop1, gcs_create1_ok, hen, hq, deliverAll1, gcs_onCameraOutput1,
    l1, d1, l2, d2, l3, d3, mmal_buffer_header_release, o1, o2, signalReady1,
    gcs_requestFrameBuffer1]

/-- C14 (witness): the amended statement for the pool `pool41`, the accepting
driver and the frames `frame1 1`, `frame1 2`, `frame1 3`. -/
theorem three_deliveries_camera1_witness :
    ∃ g0 g3 g4, gcs_start1 acceptAll (gcs_create1_ok pool41) = Outcome.done 0 g0 ∧
      deliverAll1 acceptAll g0 [frame1 1, frame1 2, frame1 3] = Outcome.done () g3 ∧
      g3.curFrameBuffer1 = some (frame1 3) ∧
      gcs_requestFrameBuffer1 g3 = Outcome.done (some (frame1 3)) g4 ∧
      g3.released = [frame1 1, frame1 2] ∧
      g3.bufferPool1 = some [] ∧
      g3.cameraOutput1 = some { enabled := true, sent := pool41 ++ [frame1 1, frame1 2] } :=
  three_deliveries_camera1 acceptAll pool41 (frame1 1) (frame1 2) (frame1 3) rfl (fun _ => rfl)
    ⟨by decide, by decide, rfl⟩ ⟨by decide, by decide, rfl⟩ ⟨by decide, by decide⟩

/-! ## C17: releases when a frame is dropped -/

/-- The accepted branch of `gcs_onCameraOutput` is: re-arm the watchdog, take
the mutex, run `dropOutdated`, install the new buffer, run the refill loop and
signal. -/
theorem onCameraOutput_accepted_eq (drv : Driver) (g : GCS) (b : Buffer)
    (hlen : b.length ≠ 0) (hdata : b.data ≠ 0) (hst : g.started ≠ 0) :
    gcs_onCameraOutput drv g b =
      match dropOutdated
          { g with watchdogTimer := some GCS_WATCHDOG_TIMEOUT_MS, frameReadyMutex := true } with
      | none => Outcome.fault
      | some g1 =>
        match g1.bufferPool with
        | none => Outcome.fault
        | some q =>
          match replenish drv
              { g1 with curFrameBuffer := some b, curFrameBuffer1 := some b } q with
          | none => Outcome.fault
          | some g2 => Outcome.done () (signalReady g2) := by
  unfold gcs_onCameraOutput dropOutdated
  simp only [hlen, hdata, hst, if_false]

/-- When `curFrameBuffer` and `curFrameBuffer1` hold the same header, as they
do after every accepted delivery of camera 0, dropping the outdated frame
releases that header twice. -/
theorem dropOutdated_alias (g : GCS) (c : Buffer)
    (hc : g.curFrameBuffer = some c) (hc1 : g.curFrameBuffer1 = some c) :
    ∃ g1, dropOutdated g = some g1 ∧ g1.released = g.released ++ [c, c] := by
  cases ho : c.owner <;> simp [dropOutdated, hc, hc1, mmal_buffer_header_release, ho]

/-- On camera 1 an accepted delivery over an unconsumed current frame releases
the dropped buffer exactly once and installs the new one. -/
theorem onCameraOutput1_drops_once (drv : Driver) (g : GCS) (b c : Buffer) (q : List Buffer)
    (port : Port) (hlen : b.length ≠ 0) (hdata : b.data ≠ 0) (hst : g.started ≠ 0)
    (hc : g.curFrameBuffer1 = some c) (hq : g.bufferPool1 = some q)
    (hp : g.cameraOutput1 = some port) :
    ∃ g1, gcs_onCameraOutput1 drv g b = Outcome.done () g1 ∧
      g1.released = g.released ++ [c] ∧ g1.curFrameBuffer1 = some b := by
  cases ho : c.owner <;> cases q <;>
    simp [gcs_onCameraOutput1, hlen, hdata, hst, hc, hq, hp, signalReady1,
      mmal_buffer_header_release, ho]

/-- C17 (the code at the failing input): on `oneFrameStream` (create, start,
delivery of `frame 1`) the valid `frame 2` is delivered over the unconsumed
`frame 1`.  The callback releases `frame 1` through `curFrameBuffer` and a
second time through `curFrameBuffer1` before anything is installed: the
release record holds it twice and so does the free queue.  The callback then
faults in its refill loop. -/
theorem overwrite_releases_twice :
    oneFrameStream.curFrameBuffer = some (frame 1) ∧
    oneFrameStream.curFrameBuffer1 = some (frame 1) ∧
    (∃ g1, dropOutdated { oneFrameStream with watchdogTimer := some GCS_WATCHDOG_TIMEOUT_MS,
                                              frameReadyMutex := true } = some g1 ∧
      g1.released = [frame 1, frame 1] ∧
      List.count (frame 1) g1.released = 2 ∧
      g1.bufferPool = some [frame 1, frame 1] ∧
      g1.curFrameBuffer = none) ∧
    gcs_onCameraOutput acceptAll oneFrameStream (frame 2) = Outcome.fault := by
  refine ⟨rfl, rfl, ⟨_, rfl, rfl, by decide, rfl, rfl⟩, rfl⟩

/-! ## C18: a failing constructor -/

/-- C18: whichever guarded step of `gcs_create` or `gcs_create1` fails, the
constructor returns `NULL`, and for each of the resources context memory,
mutex, timer and camera component the trace of calls has as many releases as
acquisitions, at most one of each, the release after the acquisition: what was
acquired before the failing step is released exactly once and nothing is
released that was not acquired. -/
theorem create_failure_unwinds (step : CreateStep) (pool : List Buffer) (r : Resource) :
    (gcs_create (some step) pool).1 = none ∧
    List.count (Action.release r) (gcs_create (some step) pool).2
      = List.count (Action.acquire r) (gcs_create (some step) pool).2 ∧
    List.count (Action.acquire r) (gcs_create (some step) pool).2 ≤ 1 ∧
    (Action.acquire r ∈ (gcs_create (some step) pool).2 →
      List.indexOf (Action.acquire r) (gcs_create (some step) pool).2
        < List.indexOf (Action.release r) (gcs_create (some step) pool).2) ∧
    (gcs_create1 (some step) pool).1 = none ∧
    List.count (Action.release r) (gcs_create1 (some step) pool).2
      = List.count (Action.acquire r) (gcs_create1 (some step) pool).2 ∧
    List.count (Action.acquire r) (gcs_create1 (some step) pool).2 ≤ 1 ∧
    (Action.acquire r ∈ (gcs_create1 (some step) pool).2 →
      List.indexOf (Action.acquire r) (gcs_create1 (some step) pool).2
        < List.indexOf (Action.release r) (gcs_create1 (some step) pool).2) := by
  cases step <;> cases r <;> simp only [gcs_create, gcs_create1] <;> decide

/-- C18 (witness): when the pool allocation fails, the camera component,
acquired before, is released once, after its acquisition. -/
theorem create_failure_unwinds_witness :
    (gcs_create (some CreateStep.pool) pool4).1 = none ∧
    List.count (Action.release Resource.component) (gcs_create (some CreateStep.pool) pool4).2
      = 1 ∧
    List.indexOf (Action.acquire Resource.component) (gcs_create (some CreateStep.pool) pool4).2
      < List.indexOf (Action.release Resource.component)
          (gcs_create (some CreateStep.pool) pool4).2 :=
  ⟨(create_failure_unwinds CreateStep.pool pool4 Resource.component).1, by decide,
    (create_failure_unwinds CreateStep.pool pool4 Resource.component).2.2.2.1 (by decide)⟩

/-- What each failing step has acquired when it fails: the context memory from
the mutex creation on, the mutex from the timer creation on, the timer from
the component creation on, the component from its enable on. -/
theorem create_acquired_before (step : CreateStep) (pool : List Buffer) :
    (Action.acquire Resource.context ∈ (gcs_create (some step) pool).2
      ↔ step ≠ CreateStep.allocate) ∧
    (Action.acquire Resource.mutex ∈ (gcs_create (some step) pool).2
      ↔ step ≠ CreateStep.allocate ∧ step ≠ CreateStep.mutex) ∧
    (Action.acquire Resource.timer ∈ (gcs_create (some step) pool).2
      ↔ step ≠ CreateStep.allocate ∧ step ≠ CreateStep.mutex ∧ step ≠ CreateStep.timer) ∧
    (Action.acquire Resource.component ∈ (gcs_create (some step) pool).2
      ↔ step ≠ CreateStep.allocate ∧ step ≠ CreateStep.mutex ∧ step ≠ CreateStep.timer ∧
        step ≠ CreateStep.cameraCreate) := by
  cases step <;> simp only [gcs_create] <;> decide

/-! ## C19: the control callback -/

/-- C19: on an error event `gcs_onCameraControl` leaves the stream with the
started flag cleared and the watchdog cancelled (both timers of the structure,
nothing else changed); on any other event it leaves the structure as it was;
in both cases it makes exactly one release call, for the event buffer. -/
theorem control_callback (g : GCS) (buf : EventBuffer) :
    (buf.cmd = MMAL_EVENT_ERROR →
      (gcs_onCameraControl g buf).1
        = { g with started := 0, watchdogTimer := none, watchdogTimer1 := none } ∧
      (gcs_onCameraControl g buf).1.started = 0 ∧
      (gcs_onCameraControl g buf).1.watchdogTimer = none ∧
      (gcs_onCameraControl g buf).1.watchdogTimer1 = none) ∧
    (buf.cmd ≠ MMAL_EVENT_ERROR → (gcs_onCameraControl g buf).1 = g) ∧
    (gcs_onCameraControl g buf).2 = [buf] ∧
    List.count buf (gcs_onCameraControl g buf).2 = 1 := by
  refine ⟨?_, ?_, rfl, ?_⟩
  · intro h
    simp [gcs_onCameraControl, h, gcs_stop, gcs_stop1]
  · intro h
    simp [gcs_onCameraControl, h]
  · simp [gcs_onCameraControl]

/-- C19 (witness): an error event on `startedStream` stops it; an event with
another command leaves it as it is. -/
theorem control_callback_witness :
    (gcs_onCameraControl startedStream { cmd := MMAL_EVENT_ERROR, status := 2 }).1
      = { startedStream with started := 0, watchdogTimer := none, watchdogTimer1 := none } ∧
    (gcs_onCameraControl startedStream { cmd := 7, status := 0 }).1 = startedStream :=
  ⟨((control_callback startedStream { cmd := MMAL_EVENT_ERROR, status := 2 }).1 rfl).1,
    (control_callback startedStream { cmd := 7, status := 0 }).2.1 (by decide)⟩

/-! ## C20: the frame probe -/

/-- C20 (counterexample): from `checkedOutSignalled` (`frame 1` checked out,
`frame 2` current, mutex free) a request is rejected and keeps the mutex, and
the return of `frame 1` leaves nothing checked out.  In that state
`gcs_hasFrameBuffer` is true, yet a request does not return a frame: it waits
in `vcos_mutex_lock`. -/
theorem has_frame_but_request_blocks :
    gcs_requestFrameBuffer checkedOutSignalled
      = Outcome.done none { checkedOutSignalled with frameReadyMutex := true } ∧
    (gcs_returnFrameBuffer
      { checkedOutSignalled with frameReadyMutex := true }).processingFrameBuffer = none ∧
    gcs_hasFrameBuffer
      (gcs_returnFrameBuffer { checkedOutSignalled with frameReadyMutex := true }) = true ∧
    gcs_requestFrameBuffer
      (gcs_returnFrameBuffer { checkedOutSignalled with frameReadyMutex := true })
      = Outcome.blocked
          (gcs_returnFrameBuffer { checkedOutSignalled with frameReadyMutex := true }) := by
  refine ⟨rfl, rfl, rfl, rfl⟩

/-- C20 (amended): `gcs_hasFrameBuffer` only reads the structure and is true
exactly when `curFrameBuffer` is non-null; when nothing is checked out and the
frame-ready mutex is free, that is exactly when a request returns a frame
rather than `NULL`; when the mutex is held a request waits whatever the probe
says.  The same holds for the camera-1 functions. -/
theorem has_frame_spec (g : GCS) :
    (gcs_hasFrameBuffer g = true ↔ ∃ b, g.curFrameBuffer = some b) ∧
    (g.processingFrameBuffer = none → g.frameReadyMutex = false →
      (gcs_hasFrameBuffer g = true ↔ ∃ b g1, gcs_requestFrameBuffer g = Outcome.done (some b) g1) ∧
      (gcs_hasFrameBuffer g = false ↔ ∃ g1, gcs_requestFrameBuffer g = Outcome.done none g1)) ∧
    (g.frameReadyMutex = true → gcs_requestFrameBuffer g = Outcome.blocked g) ∧
    (gcs_hasFrameBuffer1 g = true ↔ ∃ b, g.curFrameBuffer1 = some b) ∧
    (g.processingFrameBuffer1 = none → g.frameReadyMutex1 = false →
      (gcs_hasFrameBuffer1 g = true ↔
        ∃ b g1, gcs_requestFrameBuffer1 g = Outcome.done (some b) g1) ∧
      (gcs_hasFrameBuffer1 g = false ↔ ∃ g1, gcs_requestFrameBuffer1 g = Outcome.done none g1)) ∧
    (g.frameReadyMutex1 = true → gcs_requestFrameBuffer1 g = Outcome.blocked g) := by
  refine ⟨?_, ?_, request_held g, ?_, ?_, request1_held g⟩
  · simp [gcs_hasFrameBuffer, Option.isSome_iff_exists]
  · intro hp hm
    rw [request_free g hm hp]
    cases hc : g.curFrameBuffer <;> simp [gcs_hasFrameBuffer, hc]
  · simp [gcs_hasFrameBuffer1, Option.isSome_iff_exists]
  · intro hp hm
    rw [request1_free g hm hp]
    cases hc : g.curFrameBuffer1 <;> simp [gcs_hasFrameBuffer1, hc]

/-- C20 (witness): on `oneFrameStream` nothing is checked out, the mutex is
free, the probe is true and the request returns `frame 1`. -/
theorem has_frame_spec_witness :
    oneFrameStream.processingFrameBuffer = none ∧ oneFrameStream.frameReadyMutex = false ∧
    gcs_hasFrameBuffer oneFrameStream = true ∧
    ∃ b g1, gcs_requestFrameBuffer oneFrameStream = Outcome.done (some b) g1 :=
  ⟨rfl, rfl, rfl, (((has_frame_spec oneFrameStream).2.1 rfl rfl).1).mp rfl⟩

/-! ## C15: pool conservation -/

/-- A driver that accepts every buffer takes the whole queue. -/
theorem sendQueue_accepting (enable : Bool) (p : Port) (l : List Buffer) :
    sendQueue (acceptingDriver enable) p l = { p with sent := p.sent ++ l } :=
  sendQueue_accepted (acceptingDriver enable) l p (fun _ _ => rfl)

/-- The call `gcs_start` with an enabling driver that accepts every buffer, on
a stream whose frame-ready mutex is free. -/
theorem gcs_start_accepting (g : GCS) (p : Port) (q : List Buffer)
    (hm : g.frameReadyMutex = false) (hp : g.cameraOutput = some p)
    (hq : g.bufferPool = some q) :
    gcs_start (acceptingDriver true) g = Outcome.done 0
      { g with started := 1, error := 0, frameReadyMutex := true,
               cameraOutput := some { enabled := true, sent := p.sent ++ q },
               bufferPool := some [],
               watchdogTimer := some 4000 } := by
  have he : (acceptingDriver true).enable = true := rfl
  simp [gcs_start, gcs_stop, hm, hp, hq, he, sendQueue_accepting, GCS_WATCHDOG_TIMEOUT_MS]

/-- The camera-1 twin of `gcs_start_accepting`. -/
theorem gcs_start1_accepting (g : GCS) (p : Port) (q : List Buffer)
    (hm : g.frameReadyMutex1 = false) (hp : g.cameraOutput1 = some p)
    (hq : g.bufferPool1 = some q) :
    gcs_start1 (acceptingDriver true) g = Outcome.done 0
      { g with started := 1, error := 0, frameReadyMutex1 := true,
               cameraOutput1 := some { enabled := true, sent := p.sent ++ q },
               bufferPool1 := some [],
               watchdogTimer1 := some 4000 } := by
  have he : (acceptingDriver true).enable = true := rfl
  simp [gcs_start1, gcs_stop1, hm, hp, hq, he, sendQueue_accepting, GCS_WATCHDOG_TIMEOUT_MS]

/-- Erasing a present header from a list takes one occurrence of it away. -/
theorem count_erase_add (T : List Nat) (x a : Nat) (h : x ∈ T) :
    List.count a (T.erase x) + List.count a [x] = List.count a T := by
  have := (List.perm_cons_erase h).count_eq a
  simp only [List.count_cons, List.count_nil] at this ⊢
  omega

/-- The free headers when the pool pointer is known. -/
theorem freeHdrs_of (g : GCS) (q : List Buffer) (h : g.bufferPool = some q) :
    freeHdrs g = q.map Buffer.hdr := by
  simp [freeHdrs, h]

/-- The held headers when the two references are known. -/
theorem heldHdrs_of (g : GCS) (c p : Option Buffer) (hc : g.curFrameBuffer = c)
    (hp : g.processingFrameBuffer = p) :
    heldHdrs g = c.toList.map Buffer.hdr ++ p.toList.map Buffer.hdr := by
  simp [heldHdrs, hc, hp]

/-- A call that leaves `cameraOutput` as it is submits nothing. -/
theorem submitted_same (g g1 : GCS) (h : g1.cameraOutput = g.cameraOutput) :
    submitted g g1 = [] := by
  simp [submitted, sentOf, h]

/-- The created stream satisfies the accounting invariant: every header is
free. -/
theorem conserved_create (pool : List Buffer) :
    Conserved (pool.map Buffer.hdr) { g := gcs_create_ok pool, transit := [] } := by
  simp [Conserved, gcs_create_ok, freeHdrs, heldHdrs]

/-- The invariant passes to a new state whose pool, port and references are
known, when every header occurs as often in the new free, transit and held
lists together as in the old ones. -/
theorem conserved_core (init : List Nat) (s : Sys) (g1 : GCS) (T1 : List Nat)
    (q q1 : List Buffer) (c1 p1 : Option Buffer) (h : Conserved init s)
    (hq : s.g.bufferPool = some q) (hq1 : g1.bufferPool = some q1)
    (hport : ∃ p, g1.cameraOutput = some p) (hb1 : g1.bufferPool1 = none)
    (hc1 : g1.curFrameBuffer = c1) (hp1 : g1.processingFrameBuffer = p1)
    (hoc : ∀ c, c1 = some c → c.owner = PoolId.pool0)
    (hop : ∀ c, p1 = some c → c.owner = PoolId.pool0)
    (hcount : ∀ a, List.count a (q1.map Buffer.hdr) + List.count a T1
        + List.count a (c1.toList.map Buffer.hdr) + List.count a (p1.toList.map Buffer.hdr)
      = List.count a (q.map Buffer.hdr) + List.count a s.transit
        + List.count a (s.g.curFrameBuffer.toList.map Buffer.hdr)
        + List.count a (s.g.processingFrameBuffer.toList.map Buffer.hdr)) :
    Conserved init { g := g1, transit := T1 } := by
  obtain ⟨-, -, -, -, -, hperm⟩ := h
  refine ⟨⟨q1, hq1⟩, hport, hb1, fun c hc => hoc c (hc1 ▸ hc), fun c hc => hop c (hp1 ▸ hc), ?_⟩
  refine List.Perm.trans ?_ hperm
  show (freeHdrs g1 ++ T1 ++ heldHdrs g1).Perm _
  rw [freeHdrs_of g1 q1 hq1, heldHdrs_of g1 c1 p1 hc1 hp1, freeHdrs_of s.g q hq,
    heldHdrs_of s.g _ _ rfl rfl, List.perm_iff_count]
  intro a
  have := hcount a
  simp only [List.count_append]
  omega

/-- The invariant passes along a change that keeps pools, port and the two
references. -/
theorem conserved_same (init : List Nat) (s : Sys) (g1 : GCS) (h : Conserved init s)
    (h1 : g1.bufferPool = s.g.bufferPool) (h2 : g1.cameraOutput = s.g.cameraOutput)
    (h3 : g1.bufferPool1 = s.g.bufferPool1) (h4 : g1.curFrameBuffer = s.g.curFrameBuffer)
    (h5 : g1.processingFrameBuffer = s.g.processingFrameBuffer) :
    Conserved init { g := g1, transit := s.transit } := by
  obtain ⟨⟨q, hq⟩, hp, hb, hc, hpr, hperm⟩ := id h
  exact conserved_core init s g1 s.transit q q _ _ h hq (h1.trans hq) (h2 ▸ hp) (h3.trans hb)
    h4 h5 hc hpr (fun a => rfl)

/-- The call `gcs_stop` keeps the invariant. -/
theorem conserved_stop (init : List Nat) (s : Sys) (h : Conserved init s) :
    Conserved init { g := gcs_stop s.g, transit := s.transit } := by
  apply conserved_same init s _ h <;> simp [gcs_stop]

/-- The call `gcs_returnFrameBuffer` keeps the invariant: the checked-out
header moves to the free queue. -/
theorem conserved_giveBack (init : List Nat) (s : Sys) (h : Conserved init s) :
    Conserved init { g := gcs_returnFrameBuffer s.g, transit := s.transit } := by
  cases hproc : s.g.processingFrameBuffer with
  | none =>
    apply conserved_same init s _ h <;> simp [gcs_returnFrameBuffer, hproc]
  | some c =>
    obtain ⟨⟨q, hq⟩, ⟨p, hp⟩, h1, hc, hpr, hperm⟩ := id h
    have ho := hpr c hproc
    apply conserved_core init s _ _ q (q ++ [c]) s.g.curFrameBuffer none h hq
    · simp [gcs_returnFrameBuffer, hproc, mmal_buffer_header_release, ho, hq]
    · exact ⟨p, by simp [gcs_returnFrameBuffer, hproc, mmal_buffer_header_release, ho, hp]⟩
    · simp [gcs_returnFrameBuffer, hproc, mmal_buffer_header_release, ho, h1]
    · simp [gcs_returnFrameBuffer, hproc, mmal_buffer_header_release, ho]
    · simp [gcs_returnFrameBuffer, hproc, mmal_buffer_header_release, ho]
    · exact hc
    · intro d hd; cases hd
    · intro a
      simp only [hproc, List.count_append, List.map_append, Option.toList, List.map_cons,
        List.map_nil, List.count_nil]
      omega

/-- The call `gcs_requestFrameBuffer` keeps the invariant, whether it returns
or waits. -/
theorem conserved_request (init : List Nat) (s : Sys) (h : Conserved init s) (g1 : GCS)
    (hr : (∃ r, gcs_requestFrameBuffer s.g = Outcome.done r g1)
      ∨ gcs_requestFrameBuffer s.g = Outcome.blocked g1) :
    Conserved init { g := g1, transit := s.transit } := by
  cases hm : s.g.frameReadyMutex with
  | true =>
    rw [request_held s.g hm] at hr
    have : g1 = s.g := by
      rcases hr with ⟨r, hr⟩ | hr
      · cases hr
      · injection hr with e; exact e.symm
    subst this
    exact h
  | false =>
    cases hproc : s.g.processingFrameBuffer with
    | some c =>
      have hg : gcs_requestFrameBuffer s.g
          = Outcome.done none { s.g with frameReadyMutex := true } := by
        simp [gcs_requestFrameBuffer, hm, hproc]
      rw [hg] at hr
      have : g1 = { s.g with frameReadyMutex := true } := by
        rcases hr with ⟨r, hr⟩ | hr
        · injection hr with _ e; exact e.symm
        · cases hr
      subst this
      apply conserved_same init s _ h <;> rfl
    | none =>
      rw [request_free s.g hm hproc] at hr
      have : g1 = { s.g with frameReadyMutex := true,
                             processingFrameBuffer := s.g.curFrameBuffer,
                             curFrameBuffer := none } := by
        rcases hr with ⟨r, hr⟩ | hr
        · injection hr with _ e; exact e.symm
        · cases hr
      subst this
      obtain ⟨⟨q, hq⟩, hp, h1, hc, hpr, hperm⟩ := id h
      refine conserved_core init s _ _ q q none s.g.curFrameBuffer h hq ?_ ?_ ?_ ?_ ?_ ?_ ?_ ?_
      · exact hq
      · exact hp
      · exact h1
      · rfl
      · rfl
      · intro d hd; cases hd
      · exact hc
      · intro a
        simp only [hproc, Option.toList, List.map_nil, List.count_nil]
        omega

/-- The call `gcs_start` keeps the invariant when the driver accepts every
buffer: the free queue moves to the driver. -/
theorem conserved_start (init : List Nat) (s : Sys) (h : Conserved init s) (enable : Bool)
    (g1 : GCS)
    (hr : (∃ r, gcs_start (acceptingDriver enable) s.g = Outcome.done r g1)
      ∨ gcs_start (acceptingDriver enable) s.g = Outcome.blocked g1) :
    Conserved init { g := g1, transit := s.transit ++ submitted s.g g1 } := by
  obtain ⟨⟨q, hq⟩, ⟨p, hp⟩, h1, hc, hpr, hperm⟩ := id h
  cases hm : s.g.frameReadyMutex with
  | true =>
    have hg : gcs_start (acceptingDriver enable) s.g
        = Outcome.blocked { s.g with started := 1, error := 0, watchdogTimer := none } := by
      simp [gcs_start, gcs_stop, hm]
    rw [hg] at hr
    have hg1 : g1 = { s.g with started := 1, error := 0, watchdogTimer := none } := by
      rcases hr with ⟨r, hr⟩ | hr
      · cases hr
      · injection hr with e; exact e.symm
    have hsub : submitted s.g g1 = [] := submitted_same s.g g1 (by rw [hg1])
    rw [hsub, List.append_nil]
    apply conserved_same init s _ h <;> rw [hg1]
  | false =>
    cases enable with
    | false =>
      have hg : gcs_start (acceptingDriver false) s.g
          = Outcome.done 255 { s.g with started := 1, error := 0, watchdogTimer := none,
                                        frameReadyMutex := true } := by
        simp [gcs_start, gcs_stop, hm, hp, acceptingDriver]
      rw [hg] at hr
      have hg1 : g1 = { s.g with started := 1, error := 0, watchdogTimer := none,
                                 frameReadyMutex := true } := by
        rcases hr with ⟨r, hr⟩ | hr
        · injection hr with _ e; exact e.symm
        · cases hr
      have hsub : submitted s.g g1 = [] := submitted_same s.g g1 (by rw [hg1])
      rw [hsub, List.append_nil]
      apply conserved_same init s _ h <;> rw [hg1]
    | true =>
      rw [gcs_start_accepting s.g p q hm hp hq] at hr
      have hg1 : g1 = { s.g with started := 1, error := 0, frameReadyMutex := true,
                                 cameraOutput := some { enabled := true, sent := p.sent ++ q },
                                 bufferPool := some [],
                                 watchdogTimer := some 4000 } := by
        rcases hr with ⟨r, hr⟩ | hr
        · injection hr with _ e; exact e.symm
        · cases hr
      have hsub : submitted s.g g1 = q.map Buffer.hdr := by
        rw [hg1]
        simp [submitted, sentOf, hp]
      rw [hsub]
      refine conserved_core init s g1 _ q [] s.g.curFrameBuffer s.g.processingFrameBuffer h hq
        (by rw [hg1]) ⟨_, by rw [hg1]⟩ (by rw [hg1]; exact h1) (by rw [hg1]) (by rw [hg1])
        hc hpr ?_
      intro a
      simp only [List.count_append, List.map_nil, List.count_nil]
      omega

/-- A delivery of a header in transit that returns keeps the invariant: a
rejected buffer moves to the free queue, an accepted one becomes current. -/
theorem conserved_deliver (init : List Nat) (s : Sys) (h : Conserved init s) (b : Buffer)
    (g1 : GCS) (hmem : b.hdr ∈ s.transit) (hown : b.owner = PoolId.pool0)
    (hr : gcs_onCameraOutput (acceptingDriver true) s.g b = Outcome.done () g1) :
    Conserved init { g := g1, transit := s.transit.erase b.hdr ++ submitted s.g g1 } := by
  obtain ⟨⟨q, hq⟩, ⟨p, hp⟩, h1, hc, hpr, hperm⟩ := id h
  by_cases hrej : b.length = 0 ∨ b.data = 0 ∨ s.g.started = 0
  · rw [onCameraOutput_rejected _ _ _ hrej] at hr
    have hg1 : g1 = signalReady (mmal_buffer_header_release s.g b) := by
      injection hr with _ e; exact e.symm
    obtain ⟨-, -, s3, -, s5, -, -, -, s9, s10, s11, -⟩ :=
      signalReady_fields (mmal_buffer_header_release s.g b)
    obtain ⟨-, -, r3, -, r5, -, -, -, r9, -, r11, -⟩ := release_fields s.g b
    have hsub : submitted s.g g1 = [] := submitted_same s.g g1 (by rw [hg1, s11, r9])
    rw [hsub, List.append_nil]
    refine conserved_core init s g1 _ q (q ++ [b]) s.g.curFrameBuffer s.g.processingFrameBuffer
      h hq ?_ ⟨p, by rw [hg1, s11, r9, hp]⟩ (by rw [hg1, s10, (r11 hown).2, h1])
      (by rw [hg1, s3, r3]) (by rw [hg1, s5, r5]) hc hpr ?_
    · rw [hg1, s9, (r11 hown).1, hq]; rfl
    · intro a
      have := count_erase_add s.transit b.hdr a hmem
      simp only [List.count_append, List.map_append, List.map_cons, List.map_nil]
      omega
  · have hlen : b.length ≠ 0 := fun e => hrej (Or.inl e)
    have hdata : b.data ≠ 0 := fun e => hrej (Or.inr (Or.inl e))
    have hst : s.g.started ≠ 0 := fun e => hrej (Or.inr (Or.inr e))
    cases hcur : s.g.curFrameBuffer with
    | some c =>
      rw [onCameraOutput_overwrite_faults _ s.g b c q hlen hdata hst hcur (hc c hcur) hq h1] at hr
      cases hr
    | none =>
      cases q with
      | cons x q =>
        simp [gcs_onCameraOutput, hlen, hdata, hst, hcur, hq, h1, replenish] at hr
      | nil =>
        have hg : gcs_onCameraOutput (acceptingDriver true) s.g b
            = Outcome.done () { s.g with watchdogTimer := some 4000, frameReadyMutex := false,
                                         curFrameBuffer := some b, curFrameBuffer1 := some b,
                                         bufferPool := some [] } := by
          simp [gcs_onCameraOutput, hlen, hdata, hst, hcur, hq, replenish, signalReady,
            GCS_WATCHDOG_TIMEOUT_MS]
        rw [hg] at hr
        have hg1 : g1 = { s.g with watchdogTimer := some 4000, frameReadyMutex := false,
                                   curFrameBuffer := some b, curFrameBuffer1 := some b,
                                   bufferPool := some [] } := by
          injection hr with _ e; exact e.symm
        have hsub : submitted s.g g1 = [] := submitted_same s.g g1 (by rw [hg1])
        rw [hsub, List.append_nil]
        refine conserved_core init s g1 _ [] [] (some b) s.g.processingFrameBuffer h hq
          (by rw [hg1]) ⟨p, by rw [hg1]; exact hp⟩ (by rw [hg1]; exact h1) (by rw [hg1])
          (by rw [hg1]) ?_ hpr ?_
        · intro d hd
          cases hd
          exact hown
        · intro a
          have := count_erase_add s.transit b.hdr a hmem
          simp only [hcur, Option.toList, List.map_cons, List.map_nil, List.count_nil]
          omega

/-- Every call of a run keeps the invariant. -/
theorem conserved_step (init : List Nat) (s s1 : Sys) (e : Event) (h : Conserved init s)
    (hs : step s e = some s1) : Conserved init s1 := by
  cases e with
  | start enable =>
    simp only [step] at hs
    cases hr : gcs_start (acceptingDriver enable) s.g with
    | done r g1 =>
      rw [hr] at hs
      cases hs
      exact conserved_start init s h enable g1 (Or.inl ⟨r, hr⟩)
    | blocked g1 =>
      rw [hr] at hs
      cases hs
      exact conserved_start init s h enable g1 (Or.inr hr)
    | fault =>
      rw [hr] at hs
      cases hs
  | stop =>
    simp only [step] at hs
    cases hs
    exact conserved_stop init s h
  | deliver b =>
    simp only [step] at hs
    split_ifs at hs with hguard
    cases hr : gcs_onCameraOutput (acceptingDriver true) s.g b with
    | done r g1 =>
      rw [hr] at hs
      cases hs
      exact conserved_deliver init s h b g1 hguard.1 hguard.2 hr
    | blocked g1 =>
      rw [hr] at hs
      cases hs
    | fault =>
      rw [hr] at hs
      cases hs
  | request =>
    simp only [step] at hs
    cases hr : gcs_requestFrameBuffer s.g with
    | done r g1 =>
      rw [hr] at hs
      cases hs
      exact conserved_request init s h g1 (Or.inl ⟨r, hr⟩)
    | blocked g1 =>
      rw [hr] at hs
      cases hs
      exact conserved_request init s h g1 (Or.inr hr)
    | fault =>
      rw [hr] at hs
      cases hs
  | giveBack =>
    simp only [step] at hs
    cases hs
    exact conserved_giveBack init s h

/-- Every run keeps the invariant. -/
theorem conserved_run (init : List Nat) (evs : List Event) :
    ∀ s s1 : Sys, Conserved init s → run s evs = some s1 → Conserved init s1 := by
  induction evs with
  | nil =>
    intro s s1 h hr
    simp only [run] at hr
    cases hr
    exact h
  | cons e es ih =>
    intro s s1 h hr
    simp only [run] at hr
    cases hs : step s e with
    | none => rw [hs] at hr; cases hr
    | some s2 =>
      rw [hs] at hr
      exact ih s2 s1 (conserved_step init s s2 e h hs) hr

/-! ### Camera 1 -/

/-- The free headers of camera 1 when the pool pointer is known. -/
theorem freeHdrs1_of (g : GCS) (q : List Buffer) (h : g.bufferPool1 = some q) :
    freeHdrs1 g = q.map Buffer.hdr := by
  simp [freeHdrs1, h]

/-- The held headers of camera 1 when the two references are known. -/
theorem heldHdrs1_of (g : GCS) (c p : Option Buffer) (hc : g.curFrameBuffer1 = c)
    (hp : g.processingFrameBuffer1 = p) :
    heldHdrs1 g = c.toList.map Buffer.hdr ++ p.toList.map Buffer.hdr := by
  simp [heldHdrs1, hc, hp]

/-- A call that leaves `cameraOutput1` as it is submits nothing. -/
theorem submitted1_same (g g1 : GCS) (h : g1.cameraOutput1 = g.cameraOutput1) :
    submitted1 g g1 = [] := by
  simp [submitted1, sentOf1, h]

/-- A call that appends `l` to what `cameraOutput1` holds submits `l`. -/
theorem submitted1_append (g g1 : GCS) (p : Port) (l : List Buffer)
    (h : g.cameraOutput1 = some p)
    (h1 : g1.cameraOutput1 = some { enabled := true, sent := p.sent ++ l }) :
    submitted1 g g1 = l.map Buffer.hdr := by
  simp [submitted1, sentOf1, h, h1]

/-- The stream created by `gcs_create1` satisfies the accounting invariant. -/
theorem conserved1_create (pool : List Buffer) :
    Conserved1 (pool.map Buffer.hdr) { g := gcs_create1_ok pool, transit := [] } := by
  simp [Conserved1, gcs_create1_ok, freeHdrs1, heldHdrs1]

/-- The camera-1 twin of `conserved_core`. -/
theorem conserved1_core (init : List Nat) (s : Sys) (g1 : GCS) (T1 : List Nat)
    (q q1 : List Buffer) (c1 p1 : Option Buffer) (h : Conserved1 init s)
    (hq : s.g.bufferPool1 = some q) (hq1 : g1.bufferPool1 = some q1)
    (hport : ∃ p, g1.cameraOutput1 = some p)
    (hc1 : g1.curFrameBuffer1 = c1) (hp1 : g1.processingFrameBuffer1 = p1)
    (hoc : ∀ c, c1 = some c → c.owner = PoolId.pool1)
    (hop : ∀ c, p1 = some c → c.owner = PoolId.pool1)
    (hcount : ∀ a, List.count a (q1.map Buffer.hdr) + List.count a T1
        + List.count a (c1.toList.map Buffer.hdr) + List.count a (p1.toList.map Buffer.hdr)
      = List.count a (q.map Buffer.hdr) + List.count a s.transit
        + List.count a (s.g.curFrameBuffer1.toList.map Buffer.hdr)
        + List.count a (s.g.processingFrameBuffer1.toList.map Buffer.hdr)) :
    Conserved1 init { g := g1, transit := T1 } := by
  obtain ⟨-, -, -, -, hperm⟩ := h
  refine ⟨⟨q1, hq1⟩, hport, fun c hc => hoc c (hc1 ▸ hc), fun c hc => hop c (hp1 ▸ hc), ?_⟩
  refine List.Perm.trans ?_ hperm
  show (freeHdrs1 g1 ++ T1 ++ heldHdrs1 g1).Perm _
  rw [freeHdrs1_of g1 q1 hq1, heldHdrs1_of g1 c1 p1 hc1 hp1, freeHdrs1_of s.g q hq,
    heldHdrs1_of s.g _ _ rfl rfl, List.perm_iff_count]
  intro a
  have := hcount a
  simp only [List.count_append]
  omega

/-- The camera-1 twin of `conserved_same`. -/
theorem conserved1_same (init : List Nat) (s : Sys) (g1 : GCS) (h : Conserved1 init s)
    (h1 : g1.bufferPool1 = s.g.bufferPool1) (h2 : g1.cameraOutput1 = s.g.cameraOutput1)
    (h4 : g1.curFrameBuffer1 = s.g.curFrameBuffer1)
    (h5 : g1.processingFrameBuffer1 = s.g.processingFrameBuffer1) :
    Conserved1 init { g := g1, transit := s.transit } := by
  obtain ⟨⟨q, hq⟩, hp, hc, hpr, hperm⟩ := id h
  exact conserved1_core init s g1 s.transit q q _ _ h hq (h1.trans hq) (h2 ▸ hp)
    h4 h5 hc hpr (fun a => rfl)

/-- The call `gcs_stop1` keeps the invariant. -/
theorem conserved1_stop (init : List Nat) (s : Sys) (h : Conserved1 init s) :
    Conserved1 init { g := gcs_stop1 s.g, transit := s.transit } := by
  apply conserved1_same init s _ h <;> simp [gcs_stop1]

/-- The call `gcs_returnFrameBuffer1` keeps the invariant. -/
theorem conserved1_giveBack (init : List Nat) (s : Sys) (h : Conserved1 init s) :
    Conserved1 init { g := gcs_returnFrameBuffer1 s.g, transit := s.transit } := by
  cases hproc : s.g.processingFrameBuffer1 with
  | none =>
    apply conserved1_same init s _ h <;> simp [gcs_returnFrameBuffer1, hproc]
  | some c =>
    obtain ⟨⟨q, hq⟩, ⟨p, hp⟩, hc, hpr, hperm⟩ := id h
    have ho := hpr c hproc
    apply conserved1_core init s _ _ q (q ++ [c]) s.g.curFrameBuffer1 none h hq
    · simp [gcs_returnFrameBuffer1, hproc, mmal_buffer_header_release, ho, hq]
    · exact ⟨p, by simp [gcs_returnFrameBuffer1, hproc, mmal_buffer_header_release, ho, hp]⟩
    · simp [gcs_returnFrameBuffer1, hproc, mmal_buffer_header_release, ho]
    · simp [gcs_returnFrameBuffer1, hproc, mmal_buffer_header_release, ho]
    · exact hc
    · intro d hd; cases hd
    · intro a
      simp only [hproc, List.count_append, List.map_append, Option.toList, List.map_cons,
        List.map_nil, List.count_nil]
      omega

/-- The call `gcs_requestFrameBuffer1` keeps the invariant. -/
theorem conserved1_request (init : List Nat) (s : Sys) (h : Conserved1 init s) (g1 : GCS)
    (hr : (∃ r, gcs_requestFrameBuffer1 s.g = Outcome.done r g1)
      ∨ gcs_requestFrameBuffer1 s.g = Outcome.blocked g1) :
    Conserved1 init { g := g1, transit := s.transit } := by
  cases hm : s.g.frameReadyMutex1 with
  | true =>
    rw [request1_held s.g hm] at hr
    have : g1 = s.g := by
      rcases hr with ⟨r, hr⟩ | hr
      · cases hr
      · injection hr with e; exact e.symm
    subst this
    exact h
  | false =>
    cases hproc : s.g.processingFrameBuffer1 with
    | some c =>
      have hg : gcs_requestFrameBuffer1 s.g
          = Outcome.done none { s.g with frameReadyMutex1 := true } := by
        simp [gcs_requestFrameBuffer1, hm, hproc]
      rw [hg] at hr
      have : g1 = { s.g with frameReadyMutex1 := true } := by
        rcases hr with ⟨r, hr⟩ | hr
        · injection hr with _ e; exact e.symm
        · cases hr
      subst this
      apply conserved1_same init s _ h <;> rfl
    | none =>
      rw [request1_free s.g hm hproc] at hr
      have : g1 = { s.g with frameReadyMutex1 := true,
                             processingFrameBuffer1 := s.g.curFrameBuffer1,
                             curFrameBuffer1 := none } := by
        rcases hr with ⟨r, hr⟩ | hr
        · injection hr with _ e; exact e.symm
        · cases hr
      subst this
      obtain ⟨⟨q, hq⟩, hp, hc, hpr, hperm⟩ := id h
      refine conserved1_core init s _ _ q q none s.g.curFrameBuffer1 h hq ?_ ?_ ?_ ?_ ?_ ?_ ?_
      · exact hq
      · exact hp
      · rfl
      · rfl
      · intro d hd; cases hd
      · exact hc
      · intro a
        simp only [hproc, Option.toList, List.map_nil, List.count_nil]
        omega

/-- The call `gcs_start1` keeps the invariant when the driver accepts every
buffer. -/
theorem conserved1_start (init : List Nat) (s : Sys) (h : Conserved1 init s) (enable : Bool)
    (g1 : GCS)
    (hr : (∃ r, gcs_start1 (acceptingDriver enable) s.g = Outcome.done r g1)
      ∨ gcs_start1 (acceptingDriver enable) s.g = Outcome.blocked g1) :
    Conserved1 init { g := g1, transit := s.transit ++ submitted1 s.g g1 } := by
  obtain ⟨⟨q, hq⟩, ⟨p, hp⟩, hc, hpr, hperm⟩ := id h
  cases hm : s.g.frameReadyMutex1 with
  | true =>
    have hg : gcs_start1 (acceptingDriver enable) s.g
        = Outcome.blocked { s.g with started := 1, error := 0, watchdogTimer1 := none } := by
      simp [gcs_start1, gcs_stop1, hm]
    rw [hg] at hr
    have hg1 : g1 = { s.g with started := 1, error := 0, watchdogTimer1 := none } := by
      rcases hr with ⟨r, hr⟩ | hr
      · cases hr
      · injection hr with e; exact e.symm
    have hsub : submitted1 s.g g1 = [] := submitted1_same s.g g1 (by rw [hg1])
    rw [hsub, List.append_nil]
    apply conserved1_same init s _ h <;> rw [hg1]
  | false =>
    cases enable with
    | false =>
      have hg : gcs_start1 (acceptingDriver false) s.g
          = Outcome.done 255 { s.g with started := 1, error := 0, watchdogTimer1 := none,
                                        frameReadyMutex1 := true } := by
        simp [gcs_start1, gcs_stop1, hm, hp, acceptingDriver]
      rw [hg] at hr
      have hg1 : g1 = { s.g with started := 1, error := 0, watchdogTimer1 := none,
                                 frameReadyMutex1 := true } := by
        rcases hr with ⟨r, hr⟩ | hr
        · injection hr with _ e; exact e.symm
        · cases hr
      have hsub : submitted1 s.g g1 = [] := submitted1_same s.g g1 (by rw [hg1])
      rw [hsub, List.append_nil]
      apply conserved1_same init s _ h <;> rw [hg1]
    | true =>
      rw [gcs_start1_accepting s.g p q hm hp hq] at hr
      have hg1 : g1 = { s.g with started := 1, error := 0, frameReadyMutex1 := true,
                                 cameraOutput1 := some { enabled := true, sent := p.sent ++ q },
                                 bufferPool1 := some [],
                                 watchdogTimer1 := some 4000 } := by
        rcases hr with ⟨r, hr⟩ | hr
        · injection hr with _ e; exact e.symm
        · cases hr
      have hsub : submitted1 s.g g1 = q.map Buffer.hdr :=
        submitted1_append s.g g1 p q hp (by rw [hg1])
      rw [hsub]
      refine conserved1_core init s g1 _ q [] s.g.curFrameBuffer1 s.g.processingFrameBuffer1 h hq
        (by rw [hg1]) ⟨_, by rw [hg1]⟩ (by rw [hg1]) (by rw [hg1])
        hc hpr ?_
      intro a
      simp only [List.count_append, List.map_nil, List.count_nil]
      omega

/-- A delivery on camera 1 keeps the invariant: a rejected buffer moves to the
free queue; an accepted one becomes current, the dropped frame and the free
queue go to the driver. -/
theorem conserved1_deliver (init : List Nat) (s : Sys) (h : Conserved1 init s) (b : Buffer)
    (g1 : GCS) (hmem : b.hdr ∈ s.transit) (hown : b.owner = PoolId.pool1)
    (hr : gcs_onCameraOutput1 (acceptingDriver true) s.g b = Outcome.done () g1) :
    Conserved1 init { g := g1, transit := s.transit.erase b.hdr ++ submitted1 s.g g1 } := by
  obtain ⟨⟨q, hq⟩, ⟨p, hp⟩, hc, hpr, hperm⟩ := id h
  by_cases hrej : b.length = 0 ∨ b.data = 0 ∨ s.g.started = 0
  · rw [onCameraOutput1_rejected _ _ _ hrej] at hr
    have hg1 : g1 = signalReady1 (mmal_buffer_header_release s.g b) := by
      injection hr with _ e; exact e.symm
    obtain ⟨-, -, -, s4, -, s6, -, -, -, s10, -, s12⟩ :=
      signalReady1_fields (mmal_buffer_header_release s.g b)
    obtain ⟨-, -, -, r4, -, r6, -, -, -, r10, -, r12⟩ := release_fields s.g b
    have hsub : submitted1 s.g g1 = [] := submitted1_same s.g g1 (by rw [hg1, s12, r10])
    rw [hsub, List.append_nil]
    refine conserved1_core init s g1 _ q (q ++ [b]) s.g.curFrameBuffer1
      s.g.processingFrameBuffer1 h hq ?_ ⟨p, by rw [hg1, s12, r10, hp]⟩
      (by rw [hg1, s4, r4]) (by rw [hg1, s6, r6]) hc hpr ?_
    · rw [hg1, s10, (r12 hown).1, hq]; rfl
    · intro a
      have := count_erase_add s.transit b.hdr a hmem
      simp only [List.count_append, List.map_append, List.map_cons, List.map_nil]
      omega
  · have hlen : b.length ≠ 0 := fun e => hrej (Or.inl e)
    have hdata : b.data ≠ 0 := fun e => hrej (Or.inr (Or.inl e))
    have hst : s.g.started ≠ 0 := fun e => hrej (Or.inr (Or.inr e))
    cases hcur : s.g.curFrameBuffer1 with
    | some c =>
      have ho := hc c hcur
      have hg : gcs_onCameraOutput1 (acceptingDriver true) s.g b
          = Outcome.done () { s.g with watchdogTimer1 := some 4000, frameReadyMutex1 := false,
                                       curFrameBuffer1 := some b,
                                       cameraOutput1 := some { enabled := p.enabled,
                                                               sent := p.sent ++ (q ++ [c]) },
                                       bufferPool1 := some [],
                                       released := s.g.released ++ [c] } := by
        cases q <;>
          simp [gcs_onCameraOutput1, hlen, hdata, hst, hcur, hq, hp, signalReady1,
            mmal_buffer_header_release, ho, sendQueue_accepting, GCS_WATCHDOG_TIMEOUT_MS]
      rw [hg] at hr
      have hg1 : g1 = { s.g with watchdogTimer1 := some 4000, frameReadyMutex1 := false,
                                 curFrameBuffer1 := some b,
                                 cameraOutput1 := some { enabled := p.enabled,
                                                         sent := p.sent ++ (q ++ [c]) },
                                 bufferPool1 := some [],
                                 released := s.g.released ++ [c] } := by
        injection hr with _ e; exact e.symm
      have hsub : submitted1 s.g g1 = (q ++ [c]).map Buffer.hdr := by
        rw [hg1]
        simp [submitted1, sentOf1, hp]
      rw [hsub]
      refine conserved1_core init s g1 _ q [] (some b) s.g.processingFrameBuffer1 h hq
        (by rw [hg1]) ⟨_, by rw [hg1]⟩ (by rw [hg1]) (by rw [hg1]) ?_ hpr ?_
      · intro d hd
        cases hd
        exact hown
      · intro a
        have := count_erase_add s.transit b.hdr a hmem
        simp only [hcur, Option.toList, List.map_cons, List.map_nil, List.count_nil,
          List.count_append, List.map_append]
        omega
    | none =>
      have hg : gcs_onCameraOutput1 (acceptingDriver true) s.g b
          = Outcome.done () { s.g with watchdogTimer1 := some 4000, frameReadyMutex1 := false,
                                       curFrameBuffer1 := some b,
                                       cameraOutput1 := some { enabled := p.enabled,
                                                               sent := p.sent ++ q },
                                       bufferPool1 := some [] } := by
        cases q <;>
          simp [gcs_onCameraOutput1, hlen, hdata, hst, hcur, hq, hp, signalReady1,
            sendQueue_accepting, GCS_WATCHDOG_TIMEOUT_MS]
      rw [hg] at hr
      have hg1 : g1 = { s.g with watchdogTimer1 := some 4000, frameReadyMutex1 := false,
                                 curFrameBuffer1 := some b,
                                 cameraOutput1 := some { enabled := p.enabled,
                                                         sent := p.sent ++ q },
                                 bufferPool1 := some [] } := by
        injection hr with _ e; exact e.symm
      have hsub : submitted1 s.g g1 = q.map Buffer.hdr := by
        rw [hg1]
        simp [submitted1, sentOf1, hp]
      rw [hsub]
      refine conserved1_core init s g1 _ q [] (some b) s.g.processingFrameBuffer1 h hq
        (by rw [hg1]) ⟨_, by rw [hg1]⟩ (by rw [hg1]) (by rw [hg1]) ?_ hpr ?_
      · intro d hd
        cases hd
        exact hown
      · intro a
        have := count_erase_add s.transit b.hdr a hmem
        simp only [hcur, Option.toList, List.map_cons, List.map_nil, List.count_nil,
          List.count_append]
        omega

/-- Every call of a camera-1 run keeps the invariant. -/
theorem conserved1_step (init : List Nat) (s s1 : Sys) (e : Event) (h : Conserved1 init s)
    (hs : step1 s e = some s1) : Conserved1 init s1 := by
  cases e with
  | start enable =>
    simp only [step1] at hs
    cases hr : gcs_start1 (acceptingDriver enable) s.g with
    | done r g1 =>
      rw [hr] at hs
      cases hs
      exact conserved1_start init s h enable g1 (Or.inl ⟨r, hr⟩)
    | blocked g1 =>
      rw [hr] at hs
      cases hs
      exact conserved1_start init s h enable g1 (Or.inr hr)
    | fault =>
      rw [hr] at hs
      cases hs
  | stop =>
    simp only [step1] at hs
    cases hs
    exact conserved1_stop init s h
  | deliver b =>
    simp only [step1] at hs
    split_ifs at hs with hguard
    cases hr : gcs_onCameraOutput1 (acceptingDriver true) s.g b with
    | done r g1 =>
      rw [hr] at hs
      cases hs
      exact conserved1_deliver init s h b g1 hguard.1 hguard.2 hr
    | blocked g1 =>
      rw [hr] at hs
      cases hs
    | fault =>
      rw [hr] at hs
      cases hs
  | request =>
    simp only [step1] at hs
    cases hr : gcs_requestFrameBuffer1 s.g with
    | done r g1 =>
      rw [hr] at hs
      cases hs
      exact conserved1_request init s h g1 (Or.inl ⟨r, hr⟩)
    | blocked g1 =>
      rw [hr] at hs
      cases hs
      exact conserved1_request init s h g1 (Or.inr hr)
    | fault =>
      rw [hr] at hs
      cases hs
  | giveBack =>
    simp only [step1] at hs
    cases hs
    exact conserved1_giveBack init s h

/-- Every camera-1 run keeps the invariant. -/
theorem conserved1_run (init : List Nat) (evs : List Event) :
    ∀ s s1 : Sys, Conserved1 init s → run1 s evs = some s1 → Conserved1 init s1 := by
  induction evs with
  | nil =>
    intro s s1 h hr
    simp only [run1] at hr
    cases hr
    exact h
  | cons e es ih =>
    intro s s1 h hr
    simp only [run1] at hr
    cases hs : step1 s e with
    | none => rw [hs] at hr; cases hr
    | some s2 =>
      rw [hs] at hr
      exact ih s2 s1 (conserved1_step init s s2 e h hs) hr

/-- C15 (counterexample): when the driver enables the port but refuses the
submitted buffers, `gcs_start` on the freshly created stream returns 0 with
the four headers taken from the free queue and held by nobody: the free queue
is empty, the port holds nothing, nothing is current or checked out, so the
sizes of the three sets sum to 0. -/
theorem refused_submission_loses_buffers :
    ∃ g, gcs_start refuseBuffers (gcs_create_ok pool4) = Outcome.done 0 g ∧
      freeHdrs g = [] ∧ sentOf g = [] ∧ heldHdrs g = [] ∧
      (freeHdrs g).length + (sentOf g).length + (heldHdrs g).length ≠ GCS_SIMUL_BUFFERS := by
  refine ⟨_, rfl, rfl, rfl, rfl, by decide⟩

/-- C15 (amended): for a stream built by `gcs_create` (resp. `gcs_create1`)
with a pool of 4 buffers and a driver that accepts every submitted buffer and
delivers only headers it holds, in every state reached from create by a
sequence of start, stop, deliveries, request and return calls (none of which
faults), the free queue, the headers in transit and the headers held through
`curFrameBuffer` or `processingFrameBuffer` (resp. the camera-1 fields) are
together a rearrangement of the pool's headers: their sizes sum to 4 and, the
headers being distinct, each one is in exactly one of the three, once. -/
theorem pool_conservation (pool : List Buffer) (evs : List Event) (s : Sys)
    (hlen : pool.length = GCS_SIMUL_BUFFERS) :
    (run { g := gcs_create_ok pool, transit := [] } evs = some s →
      (freeHdrs s.g ++ s.transit ++ heldHdrs s.g).Perm (pool.map Buffer.hdr) ∧
      (freeHdrs s.g).length + s.transit.length + (heldHdrs s.g).length = 4 ∧
      ((pool.map Buffer.hdr).Nodup → ∀ h ∈ pool.map Buffer.hdr,
        List.count h (freeHdrs s.g) + List.count h s.transit
          + List.count h (heldHdrs s.g) = 1)) ∧
    (run1 { g := gcs_create1_ok pool, transit := [] } evs = some s →
      (freeHdrs1 s.g ++ s.transit ++ heldHdrs1 s.g).Perm (pool.map Buffer.hdr) ∧
      (freeHdrs1 s.g).length + s.transit.length + (heldHdrs1 s.g).length = 4 ∧
      ((pool.map Buffer.hdr).Nodup → ∀ h ∈ pool.map Buffer.hdr,
        List.count h (freeHdrs1 s.g) + List.count h s.transit
          + List.count h (heldHdrs1 s.g) = 1)) := by
  constructor
  · intro hrun
    have hperm :=
      (conserved_run (pool.map Buffer.hdr) evs _ s (conserved_create pool) hrun).2.2.2.2.2
    refine ⟨hperm, ?_, ?_⟩
    · have := hperm.length_eq
      simp only [List.length_append, List.length_map] at this
      rw [this, hlen]
      rfl
    · intro hnd h hh
      have := hperm.count_eq h
      simp only [List.count_append] at this
      rw [this]
      exact List.count_eq_one_of_mem hnd hh
  · intro hrun
    have hperm :=
      (conserved1_run (pool.map Buffer.hdr) evs _ s (conserved1_create pool) hrun).2.2.2.2
    refine ⟨hperm, ?_, ?_⟩
    · have := hperm.length_eq
      simp only [List.length_append, List.length_map] at this
      rw [this, hlen]
      rfl
    · intro hnd h hh
      have := hperm.count_eq h
      simp only [List.count_append] at this
      rw [this]
      exact List.count_eq_one_of_mem hnd hh

/-- C15 (witness): the amended statement for the pool of four headers of
camera 0 and the run start, delivery of `frame 1`, request, delivery of
`frame 2`, return, stop; and for the pool of camera 1 and the run start,
deliveries of `frame1 1` and `frame1 2`, request. -/
theorem pool_conservation_witness :
    (∃ s, run { g := gcs_create_ok pool4, transit := [] }
        [Event.start true, Event.deliver (frame 1), Event.request, Event.deliver (frame 2),
         Event.giveBack, Event.stop] = some s ∧
      (freeHdrs s.g).length + s.transit.length + (heldHdrs s.g).length = 4 ∧
      freeHdrs s.g = [1] ∧ s.transit = [3, 4] ∧ heldHdrs s.g = [2]) ∧
    (∃ s, run1 { g := gcs_create1_ok pool41, transit := [] }
        [Event.start true, Event.deliver (frame1 1), Event.deliver (frame1 2),
         Event.request] = some s ∧
      (freeHdrs1 s.g).length + s.transit.length + (heldHdrs1 s.g).length = 4 ∧
      freeHdrs1 s.g = [] ∧ s.transit = [3, 4, 1] ∧ heldHdrs1 s.g = [2]) :=
  ⟨⟨_, rfl,
    ((pool_conservation pool4
      [Event.start true, Event.deliver (frame 1), Event.request, Event.deliver (frame 2),
       Event.giveBack, Event.stop] _ rfl).1 rfl).2.1, rfl, rfl, rfl⟩,
   ⟨_, rfl,
    ((pool_conservation pool41
      [Event.start true, Event.deliver (frame1 1), Event.deliver (frame1 2),
       Event.request] _ rfl).2 rfl).2.1, rfl, rfl, rfl⟩⟩

/-! ## C16: single ownership -/

/-- Along every run of a stream built by `gcs_create` with distinct headers,
no header is at the same time in the free queue and held through
`curFrameBuffer` or `processingFrameBuffer`. -/
theorem free_and_own_slot_disjoint (pool : List Buffer) (evs : List Event) (s : Sys)
    (hnd : (pool.map Buffer.hdr).Nodup)
    (hrun : run { g := gcs_create_ok pool, transit := [] } evs = some s) :
    ∀ h, h ∈ freeHdrs s.g → h ∉ heldHdrs s.g := by
  have hperm := (conserved_run (pool.map Buffer.hdr) evs _ s (conserved_create pool) hrun).2.2.2.2.2
  have hnd2 : (freeHdrs s.g ++ s.transit ++ heldHdrs s.g).Nodup := hperm.nodup_iff.mpr hnd
  intro h hf hh
  exact (List.disjoint_of_nodup_append hnd2) (List.mem_append_left _ hf) hh

/-- The camera-1 twin of `free_and_own_slot_disjoint`, on which no other field
refers to the buffers either. -/
theorem free_and_own_slot_disjoint1 (pool : List Buffer) (evs : List Event) (s : Sys)
    (hnd : (pool.map Buffer.hdr).Nodup)
    (hrun : run1 { g := gcs_create1_ok pool, transit := [] } evs = some s) :
    ∀ h, h ∈ freeHdrs1 s.g → h ∉ heldHdrs1 s.g := by
  have hperm :=
    (conserved1_run (pool.map Buffer.hdr) evs _ s (conserved1_create pool) hrun).2.2.2.2
  have hnd2 : (freeHdrs1 s.g ++ s.transit ++ heldHdrs1 s.g).Nodup := hperm.nodup_iff.mpr hnd
  intro h hf hh
  exact (List.disjoint_of_nodup_append hnd2) (List.mem_append_left _ hf) hh

/-- C16 (the code at the failing input): on the camera-0 stream, after create,
start, the delivery of `frame 1`, a request and the return of the frame,
`frame 1` is in the free queue of the pool and is still referenced by the
current-frame field `curFrameBuffer1`, which `gcs_onCameraOutput` set together
with `curFrameBuffer` and through which it releases (line 640). -/
theorem returned_buffer_still_referenced :
    gcs_start acceptAll (gcs_create_ok pool4) = Outcome.done 0 startedStream ∧
    gcs_onCameraOutput acceptAll startedStream (frame 1) = Outcome.done () oneFrameStream ∧
    gcs_requestFrameBuffer oneFrameStream = Outcome.done (some (frame 1)) checkedOutStream ∧
    (gcs_returnFrameBuffer checkedOutStream).bufferPool = some [frame 1] ∧
    (gcs_returnFrameBuffer checkedOutStream).curFrameBuffer1 = some (frame 1) ∧
    (gcs_returnFrameBuffer checkedOutStream).released = [frame 1] := by
  refine ⟨rfl, rfl, rfl, rfl, rfl, rfl⟩

/-! ## Frame lemmas for the accepted branch of the output callbacks -/

/-- The refill loop of camera 0 changes pools and ports only. -/
theorem replenish_fields (drv : Driver) (q : List Buffer) :
    ∀ g g2 : GCS, replenish drv g q = some g2 →
      g2.started = g.started ∧ g2.error = g.error ∧
      g2.curFrameBuffer = g.curFrameBuffer ∧ g2.curFrameBuffer1 = g.curFrameBuffer1 ∧
      g2.processingFrameBuffer = g.processingFrameBuffer ∧
      g2.processingFrameBuffer1 = g.processingFrameBuffer1 ∧
      g2.watchdogTimer = g.watchdogTimer ∧ g2.watchdogTimer1 = g.watchdogTimer1 ∧
      g2.frameReadyMutex = g.frameReadyMutex ∧ g2.frameReadyMutex1 = g.frameReadyMutex1 ∧
      g2.released = g.released := by
  induction q with
  | nil =>
    intro g g2 h
    simp only [replenish, Option.some.injEq] at h
    subst h
    simp
  | cons b q ih =>
    intro g g2 h
    simp only [replenish] at h
    cases hq1 : g.bufferPool1 with
    | none => rw [hq1] at h; cases h
    | some q1 =>
      rw [hq1] at h
      simp only at h
      cases hr : resendBoth drv g.cameraOutput g.cameraOutput1 q1 with
      | none => rw [hr] at h; cases h
      | some pp =>
        rw [hr] at h
        obtain ⟨p, p1⟩ := pp
        simp only at h
        have := ih _ _ h
        simpa using this

/-- Dropping the outdated frame changes the two current references, the pools
and the release record only. -/
theorem dropOutdated_fields (g g1 : GCS) (h : dropOutdated g = some g1) :
    g1.started = g.started ∧ g1.watchdogTimer = g.watchdogTimer ∧
    g1.watchdogTimer1 = g.watchdogTimer1 ∧ g1.frameReadyMutex = g.frameReadyMutex ∧
    g1.frameReadyMutex1 = g.frameReadyMutex1 ∧
    g1.processingFrameBuffer = g.processingFrameBuffer ∧
    g1.processingFrameBuffer1 = g.processingFrameBuffer1 := by
  unfold dropOutdated at h
  cases hc : g.curFrameBuffer with
  | none =>
    rw [hc] at h
    simp only [Option.some.injEq] at h
    subst h
    simp
  | some c =>
    cases hc1 : g.curFrameBuffer1 with
    | none =>
      cases ho : c.owner <;> simp [hc, hc1, mmal_buffer_header_release, ho] at h
    | some c1 =>
      cases ho : c.owner <;> cases ho1 : c1.owner <;>
        simp [hc, hc1, mmal_buffer_header_release, ho, ho1] at h <;>
        subst h <;> simp

/-- After the closing lines of `gcs_onCameraOutput` the frame-ready mutex is
free. -/
theorem signalReady_mutex (g : GCS) : (signalReady g).frameReadyMutex = false := by
  unfold signalReady
  split_ifs with h1 h2 <;> simp_all

/-- After the closing lines of `gcs_onCameraOutput1` the mutex
`frameReadyMutex1` is free. -/
theorem signalReady1_mutex (g : GCS) : (signalReady1 g).frameReadyMutex1 = false := by
  unfold signalReady1
  split_ifs with h1 <;> simp_all

/-- What an accepted delivery on camera 0 leaves when it returns: the watchdog
armed with the full timeout, the mutex free, and the started flag, the
checked-out references, the camera-1 timer and the camera-1 mutex as they
were (the latter unless the closing lines free it). -/
theorem onCameraOutput_accepted_fields (drv : Driver) (g g1 : GCS) (b : Buffer)
    (hlen : b.length ≠ 0) (hdata : b.data ≠ 0) (hst : g.started ≠ 0)
    (h : gcs_onCameraOutput drv g b = Outcome.done () g1) :
    g1.watchdogTimer = some GCS_WATCHDOG_TIMEOUT_MS ∧ g1.watchdogTimer1 = g.watchdogTimer1 ∧
    g1.frameReadyMutex = false ∧ g1.started = g.started ∧
    g1.curFrameBuffer = some b ∧ g1.curFrameBuffer1 = some b ∧
    g1.processingFrameBuffer = g.processingFrameBuffer := by
  rw [onCameraOutput_accepted_eq drv g b hlen hdata hst] at h
  split at h
  next => cases h
  next g2 hd =>
    obtain ⟨d1, d2, d3, -, -, d6, -⟩ := dropOutdated_fields _ _ hd
    split at h
    next => cases h
    next q hq =>
      split at h
      next => cases h
      next g3 hr =>
        injection h with _ h
        subst h
        obtain ⟨r1, -, r3, r4, r5, -, r7, r8, -, -, -⟩ := replenish_fields drv q _ _ hr
        obtain ⟨s1, -, s3, s4, s5, -, s7, s8, -, -, -, -⟩ := signalReady_fields g3
        refine ⟨?_, ?_, signalReady_mutex g3, ?_, ?_, ?_, ?_⟩
        · rw [s7, r7]; exact d2
        · rw [s8, r8]; exact d3
        · rw [s1, r1]; exact d1
        · rw [s3, r3]
        · rw [s4, r4]
        · rw [s5, r5]; exact d6

/-- What an accepted delivery on camera 1 leaves when it returns. -/
theorem onCameraOutput1_accepted_fields (drv : Driver) (g g1 : GCS) (b : Buffer)
    (hlen : b.length ≠ 0) (hdata : b.data ≠ 0) (hst : g.started ≠ 0)
    (h : gcs_onCameraOutput1 drv g b = Outcome.done () g1) :
    g1.watchdogTimer1 = some GCS_WATCHDOG_TIMEOUT_MS ∧ g1.watchdogTimer = g.watchdogTimer ∧
    g1.frameReadyMutex1 = false ∧ g1.started = g.started ∧
    g1.curFrameBuffer1 = some b ∧
    g1.curFrameBuffer = g.curFrameBuffer ∧ g1.frameReadyMutex = g.frameReadyMutex ∧
    g1.processingFrameBuffer1 = g.processingFrameBuffer1 := by
  cases hc : g.curFrameBuffer1 with
  | none =>
    cases hq : g.bufferPool1 with
    | none => simp [gcs_onCameraOutput1, hlen, hdata, hst, hc, hq] at h
    | some q =>
      cases q with
      | nil =>
        simp [gcs_onCameraOutput1, hlen, hdata, hst, hc, hq, signalReady1] at h
        subst h
        simp
      | cons x q =>
        cases hp : g.cameraOutput1 with
        | none => simp [gcs_onCameraOutput1, hlen, hdata, hst, hc, hq, hp] at h
        | some port =>
          simp [gcs_onCameraOutput1, hlen, hdata, hst, hc, hq, hp, signalReady1] at h
          subst h
          simp
  | some c =>
    cases ho : c.owner <;> cases hq : g.bufferPool1 with
    | none =>
      simp [gcs_onCameraOutput1, hlen, hdata, hst, hc, hq, mmal_buffer_header_release, ho] at h
    | some q =>
      cases q with
      | nil =>
        cases hp : g.cameraOutput1 with
        | none =>
          simp [gcs_onCameraOutput1, hlen, hdata, hst, hc, hq, hp, signalReady1,
            mmal_buffer_header_release, ho] at h
          try (subst h; simp)
        | some port =>
          simp [gcs_onCameraOutput1, hlen, hdata, hst, hc, hq, hp, signalReady1,
            mmal_buffer_header_release, ho] at h
          subst h
          simp
      | cons x q =>
        cases hp : g.cameraOutput1 with
        | none =>
          simp [gcs_onCameraOutput1, hlen, hdata, hst, hc, hq, hp, signalReady1,
            mmal_buffer_header_release, ho] at h
        | some port =>
          simp [gcs_onCameraOutput1, hlen, hdata, hst, hc, hq, hp, signalReady1,
            mmal_buffer_header_release, ho] at h
          subst h
          simp

/-! ## C21: the pool at destruction -/

/-- At the point where `gcs_destroy` destroys the pool, the current and the
checked-out reference are what they were when it was called, and nothing has
been released. -/
theorem destroy_keeps_references (g : GCS) :
    ∃ s calls, gcs_destroy (some g) = some (s, calls) ∧
      DestroyCall.poolDestroy ∈ calls ∧
      s.curFrameBuffer = g.curFrameBuffer ∧
      s.processingFrameBuffer = g.processingFrameBuffer ∧
      s.released = g.released ∧ s.bufferPool = g.bufferPool := by
  refine ⟨_, _, rfl, by decide, ?_, ?_, ?_, ?_⟩ <;> simp [gcs_stop]

/-- C21 (the code at the failing input): `gcs_destroy` called on the started
stream `checkedOutSignalled`, which holds `frame 2` as current and `frame 1`
as checked-out frame, both of camera 0's pool.  When it reaches
`mmal_pool_destroy` both references are still set and no release has been
made: its `gcs_stop` released nothing. -/
theorem destroy_pool_with_held_frames :
    checkedOutSignalled.started = 1 ∧
    (∃ s calls, gcs_destroy (some checkedOutSignalled) = some (s, calls) ∧
      DestroyCall.poolDestroy ∈ calls ∧
      s.curFrameBuffer = some (frame 2) ∧ (frame 2).owner = PoolId.pool0 ∧
      s.processingFrameBuffer = some (frame 1) ∧ (frame 1).owner = PoolId.pool0 ∧
      s.released = []) := by
  refine ⟨rfl, ⟨_, _, rfl, by decide, rfl, rfl, rfl, rfl, rfl⟩⟩

/-! ## C22: re-arming the watchdog -/

/-- C22: when an output callback returns from an accepted delivery (valid
buffer, stream started) the watchdog of its camera is armed with the full
`GCS_WATCHDOG_TIMEOUT_MS` = 4000 ms, whatever it was before; when it returns
from a rejected delivery the watchdog is as it was; and in no case does it
touch the timer of the other camera.  This holds for `gcs_onCameraOutput` with
`watchdogTimer` and for `gcs_onCameraOutput1` with `watchdogTimer1`; and on a
camera-1 stream (pool and port set) every accepted delivery does return, with
the watchdog armed. -/
theorem accepted_delivery_rearms_watchdog (drv : Driver) (g g1 : GCS) (b : Buffer) :
    GCS_WATCHDOG_TIMEOUT_MS = 4000 ∧
    (gcs_onCameraOutput drv g b = Outcome.done () g1 →
      ((b.length ≠ 0 ∧ b.data ≠ 0 ∧ g.started ≠ 0) → g1.watchdogTimer = some 4000) ∧
      ((b.length = 0 ∨ b.data = 0 ∨ g.started = 0) → g1.watchdogTimer = g.watchdogTimer) ∧
      g1.watchdogTimer1 = g.watchdogTimer1) ∧
    (gcs_onCameraOutput1 drv g b = Outcome.done () g1 →
      ((b.length ≠ 0 ∧ b.data ≠ 0 ∧ g.started ≠ 0) → g1.watchdogTimer1 = some 4000) ∧
      ((b.length = 0 ∨ b.data = 0 ∨ g.started = 0) → g1.watchdogTimer1 = g.watchdogTimer1) ∧
      g1.watchdogTimer = g.watchdogTimer) ∧
    (b.length ≠ 0 → b.data ≠ 0 → g.started ≠ 0 → g.bufferPool1.isSome = true →
      g.cameraOutput1.isSome = true →
      ∃ g2, gcs_onCameraOutput1 drv g b = Outcome.done () g2 ∧
        g2.watchdogTimer1 = some 4000) := by
  refine ⟨rfl, ?_, ?_, ?_⟩
  · intro h
    have hrejected : (b.length = 0 ∨ b.data = 0 ∨ g.started = 0) →
        g1.watchdogTimer = g.watchdogTimer ∧ g1.watchdogTimer1 = g.watchdogTimer1 := by
      intro hr
      rw [onCameraOutput_rejected drv g b hr] at h
      injection h with _ h
      subst h
      obtain ⟨-, -, -, -, -, -, s7, s8, -⟩ := signalReady_fields (mmal_buffer_header_release g b)
      obtain ⟨-, -, -, -, -, -, r7, r8, -⟩ := release_fields g b
      exact ⟨s7.trans r7, s8.trans r8⟩
    refine ⟨fun ha => (onCameraOutput_accepted_fields drv g g1 b ha.1 ha.2.1 ha.2.2 h).1,
      fun hr => (hrejected hr).1, ?_⟩
    by_cases hr : b.length = 0 ∨ b.data = 0 ∨ g.started = 0
    · exact (hrejected hr).2
    · exact (onCameraOutput_accepted_fields drv g g1 b (fun e => hr (Or.inl e))
        (fun e => hr (Or.inr (Or.inl e))) (fun e => hr (Or.inr (Or.inr e))) h).2.1
  · intro h
    have hrejected : (b.length = 0 ∨ b.data = 0 ∨ g.started = 0) →
        g1.watchdogTimer = g.watchdogTimer ∧ g1.watchdogTimer1 = g.watchdogTimer1 := by
      intro hr
      rw [onCameraOutput1_rejected drv g b hr] at h
      injection h with _ h
      subst h
      obtain ⟨-, -, -, -, -, -, s7, s8, -⟩ := signalReady1_fields (mmal_buffer_header_release g b)
      obtain ⟨-, -, -, -, -, -, r7, r8, -⟩ := release_fields g b
      exact ⟨s7.trans r7, s8.trans r8⟩
    refine ⟨fun ha => (onCameraOutput1_accepted_fields drv g g1 b ha.1 ha.2.1 ha.2.2 h).1,
      fun hr => (hrejected hr).2, ?_⟩
    by_cases hr : b.length = 0 ∨ b.data = 0 ∨ g.started = 0
    · exact (hrejected hr).1
    · exact (onCameraOutput1_accepted_fields drv g g1 b (fun e => hr (Or.inl e))
        (fun e => hr (Or.inr (Or.inl e))) (fun e => hr (Or.inr (Or.inr e))) h).2.1
  · intro hlen hdata hst hpool hport
    obtain ⟨g2, h, -⟩ := onCameraOutput1_accepted drv g b hlen hdata hst hpool hport
    exact ⟨g2, h, (onCameraOutput1_accepted_fields drv g g2 b hlen hdata hst h).1⟩

/-- C22 (witness): the delivery of `frame 2` to `checkedOutStream`, on which
the watchdog is running, is accepted and leaves it armed with 4000 ms. -/
theorem accepted_delivery_rearms_watchdog_witness :
    gcs_onCameraOutput acceptAll checkedOutStream (frame 2)
      = Outcome.done () checkedOutSignalled ∧
    checkedOutSignalled.watchdogTimer = some 4000 :=
  ⟨rfl,
    ((accepted_delivery_rearms_watchdog acceptAll checkedOutStream checkedOutSignalled
      (frame 2)).2.1 rfl).1 ⟨by decide, by decide, by decide⟩⟩

/-! ## C26: the frame-ready signal after a callback -/

/-- C26: whenever an output callback returns, after an accepted or after a
rejected delivery, the frame-ready mutex of its camera is free; and after a
rejected delivery on a stream with no current frame, a request (which can now
take the mutex) returns `NULL`.  This holds for `gcs_onCameraOutput` with
`gcs_requestFrameBuffer` and for `gcs_onCameraOutput1` with
`gcs_requestFrameBuffer1`; and a rejected delivery always returns. -/
theorem callback_leaves_mutex_free (drv : Driver) (g g1 : GCS) (b : Buffer) :
    (gcs_onCameraOutput drv g b = Outcome.done () g1 →
      g1.frameReadyMutex = false ∧
      ((b.length = 0 ∨ b.data = 0 ∨ g.started = 0) → g.curFrameBuffer = none →
        ∃ g2, gcs_requestFrameBuffer g1 = Outcome.done none g2)) ∧
    (gcs_onCameraOutput1 drv g b = Outcome.done () g1 →
      g1.frameReadyMutex1 = false ∧
      ((b.length = 0 ∨ b.data = 0 ∨ g.started = 0) → g.curFrameBuffer1 = none →
        ∃ g2, gcs_requestFrameBuffer1 g1 = Outcome.done none g2)) ∧
    ((b.length = 0 ∨ b.data = 0 ∨ g.started = 0) →
      (∃ g2, gcs_onCameraOutput drv g b = Outcome.done () g2) ∧
      (∃ g2, gcs_onCameraOutput1 drv g b = Outcome.done () g2)) := by
  refine ⟨?_, ?_, ?_⟩
  · intro h
    have hm : g1.frameReadyMutex = false := by
      by_cases hr : b.length = 0 ∨ b.data = 0 ∨ g.started = 0
      · rw [onCameraOutput_rejected drv g b hr] at h
        injection h with _ h
        subst h
        exact signalReady_mutex _
      · exact (onCameraOutput_accepted_fields drv g g1 b (fun e => hr (Or.inl e))
          (fun e => hr (Or.inr (Or.inl e))) (fun e => hr (Or.inr (Or.inr e))) h).2.2.1
    refine ⟨hm, ?_⟩
    intro hr hc
    have hc1 : g1.curFrameBuffer = none := by
      rw [onCameraOutput_rejected drv g b hr] at h
      injection h with _ h
      subst h
      rw [(signalReady_fields _).2.2.1, (release_fields g b).2.2.1, hc]
    cases hp : g1.processingFrameBuffer with
    | none =>
      refine ⟨{ g1 with frameReadyMutex := true, processingFrameBuffer := g1.curFrameBuffer,
                        curFrameBuffer := none }, ?_⟩
      rw [request_free g1 hm hp, hc1]
    | some c =>
      exact ⟨{ g1 with frameReadyMutex := true }, by simp [gcs_requestFrameBuffer, hm, hp]⟩
  · intro h
    have hm : g1.frameReadyMutex1 = false := by
      by_cases hr : b.length = 0 ∨ b.data = 0 ∨ g.started = 0
      · rw [onCameraOutput1_rejected drv g b hr] at h
        injection h with _ h
        subst h
        exact signalReady1_mutex _
      · exact (onCameraOutput1_accepted_fields drv g g1 b (fun e => hr (Or.inl e))
          (fun e => hr (Or.inr (Or.inl e))) (fun e => hr (Or.inr (Or.inr e))) h).2.2.1
    refine ⟨hm, ?_⟩
    intro hr hc
    have hc1 : g1.curFrameBuffer1 = none := by
      rw [onCameraOutput1_rejected drv g b hr] at h
      injection h with _ h
      subst h
      rw [(signalReady1_fields _).2.2.2.1, (release_fields g b).2.2.2.1, hc]
    cases hp : g1.processingFrameBuffer1 with
    | none =>
      refine ⟨{ g1 with frameReadyMutex1 := true, processingFrameBuffer1 := g1.curFrameBuffer1,
                        curFrameBuffer1 := none }, ?_⟩
      rw [request1_free g1 hm hp, hc1]
    | some c =>
      exact ⟨{ g1 with frameReadyMutex1 := true }, by simp [gcs_requestFrameBuffer1, hm, hp]⟩
  · intro hr
    exact ⟨⟨_, onCameraOutput_rejected drv g b hr⟩, ⟨_, onCameraOutput1_rejected drv g b hr⟩⟩

/-- C26 (witness): on `startedStream`, whose mutex `gcs_start` holds and which
has no current frame, the delivery of an empty buffer is rejected, frees the
mutex, and the request then returns `NULL`. -/
theorem callback_leaves_mutex_free_witness :
    startedStream.frameReadyMutex = true ∧ startedStream.curFrameBuffer = none ∧
    ∃ g1, gcs_onCameraOutput acceptAll startedStream (poolHeader 1) = Outcome.done () g1 ∧
      g1.frameReadyMutex = false ∧
      ∃ g2, gcs_requestFrameBuffer g1 = Outcome.done none g2 :=
  ⟨rfl, rfl, _, rfl,
    ((callback_leaves_mutex_free acceptAll startedStream _ (poolHeader 1)).1 rfl).1,
    ((callback_leaves_mutex_free acceptAll startedStream _ (poolHeader 1)).1 rfl).2
      (Or.inl rfl) rfl⟩

/-! ## C23: the refill loop -/

/-- The submission loop offers every buffer of the queue once, in order: the
port gains exactly those the driver accepts. -/
theorem sendQueue_filter (drv : Driver) (q : List Buffer) :
    ∀ p : Port, sendQueue drv p q = { p with sent := p.sent ++ q.filter drv.accept } := by
  induction q with
  | nil => intro p; simp [sendQueue]
  | cons b q ih =>
    intro p
    cases hb : drv.accept b <;> simp [sendQueue, mmal_port_send_buffer, hb, ih]

/-- On camera 1, after an accepted delivery every buffer that was in the free
queue, and the frame just dropped, has been offered to `cameraOutput1` once
(the port holds in addition those of them the driver accepted) and the free
queue is empty. -/
theorem refill_camera1 (drv : Driver) (g : GCS) (b : Buffer) (q : List Buffer) (port : Port)
    (hlen : b.length ≠ 0) (hdata : b.data ≠ 0) (hst : g.started ≠ 0)
    (hq : g.bufferPool1 = some q) (hp : g.cameraOutput1 = some port)
    (ho : ∀ c, g.curFrameBuffer1 = some c → c.owner = PoolId.pool1) :
    ∃ g1, gcs_onCameraOutput1 drv g b = Outcome.done () g1 ∧
      g1.bufferPool1 = some [] ∧
      g1.cameraOutput1 = some
        { port with sent := port.sent ++ (q ++ g.curFrameBuffer1.toList).filter drv.accept } := by
  cases hc : g.curFrameBuffer1 with
  | none =>
    cases q <;>
      simp [gcs_onCameraOutput1, hlen, hdata, hst, hc, hq, hp, signalReady1, sendQueue_filter]
  | some c =>
    have hco := ho c hc
    cases q <;>
      simp [gcs_onCameraOutput1, hlen, hdata, hst, hc, hq, hp, signalReady1, sendQueue_filter,
        mmal_buffer_header_release, hco]

/-- On a stream built by `gcs_create` (camera-1 pool null), an accepted
delivery that finds a buffer in the free queue never returns: the refill loop
takes it from `bufferPool` and then reads `gcs->bufferPool1->queue`. -/
theorem onCameraOutput_refill_faults (drv : Driver) (g : GCS) (b x : Buffer)
    (q : List Buffer) (hlen : b.length ≠ 0) (hdata : b.data ≠ 0) (hst : g.started ≠ 0)
    (hcur : g.curFrameBuffer = none) (hpool : g.bufferPool = some (x :: q))
    (hpool1 : g.bufferPool1 = none) :
    gcs_onCameraOutput drv g b = Outcome.fault := by
  simp [gcs_onCameraOutput, hlen, hdata, hst, hcur, hpool, hpool1, replenish]

/-- C23 (the code at the failing input): on the camera-0 stream, after create,
start, the delivery of `frame 1`, a request and the return of the frame,
`frame 1` is in the free queue.  The delivery of the valid `frame 2` is then
accepted, but the callback does not submit `frame 1` to `cameraOutput`: its
refill loop takes it from the queue and faults on `gcs->bufferPool1->queue`
(line 650), `bufferPool1` being null. -/
theorem refill_camera0_faults :
    gcs_start acceptAll (gcs_create_ok pool4) = Outcome.done 0 startedStream ∧
    gcs_onCameraOutput acceptAll startedStream (frame 1) = Outcome.done () oneFrameStream ∧
    gcs_requestFrameBuffer oneFrameStream = Outcome.done (some (frame 1)) checkedOutStream ∧
    gcs_returnFrameBuffer checkedOutStream = returnedStream ∧
    returnedStream.started = 1 ∧ returnedStream.curFrameBuffer = none ∧
    returnedStream.bufferPool = some [frame 1] ∧ returnedStream.bufferPool1 = none ∧
    (frame 2).length ≠ 0 ∧ (frame 2).data ≠ 0 ∧
    gcs_onCameraOutput acceptAll returnedStream (frame 2) = Outcome.fault := by
  refine ⟨rfl, rfl, rfl, rfl, rfl, rfl, rfl, rfl, by decide, by decide, rfl⟩

/-! ## C24: instance isolation -/

/-- C24 (the code at the failing input): on the camera-0 stream
`startedStream` the camera-1 field `curFrameBuffer1` is null; the accepted
delivery of `frame 1` by `gcs_onCameraOutput` sets it to `frame 1`.  The
watchdog callback of the stream calls `gcs_stop` and then goes on to camera
1's port and stop, where it faults. -/
theorem camera0_callback_writes_camera1_fields :
    startedStream.curFrameBuffer1 = none ∧
    gcs_onCameraOutput acceptAll startedStream (frame 1) = Outcome.done () oneFrameStream ∧
    oneFrameStream.curFrameBuffer1 = some (frame 1) ∧
    oneFrameStream.curFrameBuffer1 ≠ startedStream.curFrameBuffer1 ∧
    gcs_onWatchdogTrigger startedStream = Outcome.fault := by
  refine ⟨rfl, rfl, rfl, by decide, rfl⟩

/-- Every accepted delivery from which `gcs_onCameraOutput` returns has
written the delivered buffer into the camera-1 field `curFrameBuffer1`. -/
theorem onCameraOutput_sets_curFrameBuffer1 (drv : Driver) (g g1 : GCS) (b : Buffer)
    (hlen : b.length ≠ 0) (hdata : b.data ≠ 0) (hst : g.started ≠ 0)
    (h : gcs_onCameraOutput drv g b = Outcome.done () g1) :
    g1.curFrameBuffer1 = some b :=
  (onCameraOutput_accepted_fields drv g g1 b hlen hdata hst h).2.2.2.2.2.1

/-- The camera-1 callback leaves the camera-0 slot, timer and mutex fields as
they were when it returns from an accepted delivery. -/
theorem onCameraOutput1_isolated (drv : Driver) (g g1 : GCS) (b : Buffer)
    (hlen : b.length ≠ 0) (hdata : b.data ≠ 0) (hst : g.started ≠ 0)
    (h : gcs_onCameraOutput1 drv g b = Outcome.done () g1) :
    g1.curFrameBuffer = g.curFrameBuffer ∧ g1.watchdogTimer = g.watchdogTimer ∧
    g1.frameReadyMutex = g.frameReadyMutex := by
  obtain ⟨-, h2, -, -, -, h6, h7, -⟩ := onCameraOutput1_accepted_fields drv g g1 b hlen hdata hst h
  exact ⟨h6, h2, h7⟩

/-! ## C25: null handle fields -/

/-- C25 (the code at the failing input): the structure `gcs_create` returns
has `cameraOutput1` and `bufferPool1` null, and `gcs_start` leaves them so.
On it the watchdog callback faults reading `gcs->cameraOutput1->name`, and an
accepted delivery that finds a free buffer faults reading
`gcs->bufferPool1->queue`.  The structure `gcs_create1` returns has
`cameraOutput` null, and its watchdog callback faults reading
`gcs->cameraOutput->name`. -/
theorem callbacks_dereference_null_fields :
    (gcs_create none pool4).1 = some (gcs_create_ok pool4) ∧
    (gcs_create_ok pool4).cameraOutput1 = none ∧ (gcs_create_ok pool4).bufferPool1 = none ∧
    gcs_start acceptAll (gcs_create_ok pool4) = Outcome.done 0 startedStream ∧
    startedStream.cameraOutput1 = none ∧ startedStream.bufferPool1 = none ∧
    gcs_onWatchdogTrigger startedStream = Outcome.fault ∧
    returnedStream.bufferPool1 = none ∧
    gcs_onCameraOutput acceptAll returnedStream (frame 2) = Outcome.fault ∧
    (gcs_create1 none pool41).1 = some (gcs_create1_ok pool41) ∧
    (gcs_create1_ok pool41).cameraOutput = none ∧
    gcs_start1 acceptAll (gcs_create1_ok pool41) = Outcome.done 0 startedStream1 ∧
    gcs_onWatchdogTrigger1 startedStream1 = Outcome.fault := by
  refine ⟨rfl, rfl, rfl, rfl, rfl, rfl, rfl, rfl, rfl, rfl, rfl, rfl, rfl⟩

/-! ## C27: the column-splitting loop of `main_qpu.cpp` -/

/-- A value inside the range of `int` is not changed by the wrap-around. -/
theorem wrap32_id (x : Int) (h1 : -2147483648 ≤ x) (h2 : x < 2147483648) : wrap32 x = x := by
  unfold wrap32
  norm_num
  omega

/-- With no program column the loop condition `0 * (splitCols+1) <= qpusUsed`
is true at every test, whatever `splitCols` has become: the loop is never
left. -/
theorem splitColsLoop_zero (used : Int) (h : 0 ≤ used) :
    ∀ (fuel : Nat) (splitCols : Int), splitColsLoop 0 used fuel splitCols = none := by
  intro fuel
  induction fuel with
  | zero => intro s; rfl
  | succ n ih =>
    intro s
    have h0 : wrap32 (0 * wrap32 (s + 1)) = 0 := by
      rw [Int.zero_mul]; rfl
    simp only [splitColsLoop, h0, h, if_true]
    exact ih _

/-- With at least one program column (and at most 2^25, the most a 32-bit line
width gives) and at most 12 QPUs, the loop is left after at most `qpusUsed`
increments, with a value `r` between 1 and 13 for which the condition is
false; and either nothing was split or `numProgCols * r <= qpusUsed`. -/
theorem splitColsLoop_terminates (progCols used : Int) (hp : 1 ≤ progCols)
    (hp2 : progCols ≤ 33554432) (hu : used ≤ 12) :
    ∀ (fuel : Nat) (splitCols : Int), 1 ≤ splitCols → splitCols ≤ 13 → 1 ≤ fuel →
      used + 2 ≤ fuel + splitCols →
      ∃ r, splitColsLoop progCols used fuel splitCols = some r ∧ splitCols ≤ r ∧ r ≤ 13 ∧
        used < progCols * (r + 1) ∧ (r = splitCols ∨ progCols * r ≤ used) := by
  intro fuel
  induction fuel with
  | zero => intro s _ _ h; omega
  | succ n ih =>
    intro s hs1 hs2 _ hf
    have hw1 : wrap32 (s + 1) = s + 1 := wrap32_id _ (by omega) (by omega)
    have hprod1 : 0 ≤ progCols * (s + 1) := by positivity
    have hprod2 : progCols * (s + 1) ≤ 33554432 * 14 := by
      apply mul_le_mul hp2 (by omega) (by omega) (by omega)
    have hw2 : wrap32 (progCols * (s + 1)) = progCols * (s + 1) :=
      wrap32_id _ (by omega) (by omega)
    simp only [splitColsLoop, hw1, hw2]
    by_cases hc : progCols * (s + 1) ≤ used
    · have hle : s + 1 ≤ progCols * (s + 1) := le_mul_of_one_le_left (by omega) hp
      simp only [hc, if_true]
      obtain ⟨r, hr, h1, h2, h3, h4⟩ := ih (s + 1) (by omega) (by omega) (by omega) (by omega)
      refine ⟨r, hr, by omega, h2, h3, ?_⟩
      rcases h4 with h4 | h4
      · right; rw [h4]; exact hc
      · right; exact h4
    · simp only [hc, if_false]
      exact ⟨s, rfl, le_refl _, hs2, by omega, Or.inl rfl⟩

/-- The number of program columns computed from a 32-bit line width and any
padding is between 0 and 2^25. -/
theorem numProgCols_range (lineWidth : Nat) (padding : Int) :
    0 ≤ numProgCols (numTileCols lineWidth padding) ∧
    numProgCols (numTileCols lineWidth padding) ≤ 33554432 := by
  unfold numProgCols numTileCols
  omega

/-- The count of enabled QPUs is between 0 and 12. -/
theorem qpusUsed_range (enableQPU : List Bool) :
    0 ≤ qpusUsed enableQPU ∧ qpusUsed enableQPU ≤ 12 := by
  unfold qpusUsed
  have h1 : (enableQPU.take 12).count true ≤ (enableQPU.take 12).length := List.count_le_length _ _
  have h2 : (enableQPU.take 12).length ≤ 12 := by simp
  omega

/-- For every line width, padding and set of enabled QPUs, the loop is left
(within 14 tests of its condition) exactly when there is at least one program
column. -/
theorem split_loop_terminates_iff (lineWidth : Nat) (padding : Int) (enableQPU : List Bool) :
    (∃ r, splitColsLoop (numProgCols (numTileCols lineWidth padding)) (qpusUsed enableQPU) 14 1
        = some r)
      ↔ numProgCols (numTileCols lineWidth padding) ≠ 0 := by
  obtain ⟨hp0, hp1⟩ := numProgCols_range lineWidth padding
  obtain ⟨hu0, hu1⟩ := qpusUsed_range enableQPU
  constructor
  · rintro ⟨r, hr⟩ h0
    rw [h0, splitColsLoop_zero _ hu0] at hr
    cases hr
  · intro hne
    obtain ⟨r, hr, -⟩ :=
      splitColsLoop_terminates _ _ (by omega) hp1 hu1 14 1 (by omega) (by omega) (by omega)
        (by omega)
    exact ⟨r, hr⟩

/-- C27 (the code at the failing input): for a line width of 64 pixels with no
padding and all 12 QPUs enabled, `numTileCols` is 8 and `numProgCols` is 0, so
the loop that increments `splitCols` is still running after any number of
tests of its condition. -/
theorem split_loop_zero_columns :
    numTileCols 64 0 = 8 ∧ numProgCols (numTileCols 64 0) = 0 ∧
    qpusUsed (List.replicate 12 true) = 12 ∧
    (∀ fuel : Nat,
      splitColsLoop (numProgCols (numTileCols 64 0)) (qpusUsed (List.replicate 12 true)) fuel 1
        = none) := by
  refine ⟨by decide, by decide, by decide, ?_⟩
  intro fuel
  have h1 : numProgCols (numTileCols 64 0) = 0 := by decide
  have h2 : qpusUsed (List.replicate 12 true) = 12 := by decide
  rw [h1, h2]
  exact splitColsLoop_zero 12 (by decide) fuel 1

/-! ## C28: the uniform indices of the tiled mode -/

/-- Every written index is below the allocated size. -/
theorem uniformIndex_lt (N S c r k : Nat) (hc : c < N) (hr : r < S) (hk : k < 6) :
    uniformIndex S c r k < tiledUniformsSize N S := by
  unfold uniformIndex tiledUniformsSize
  have h1 : (c + 1) * S ≤ N * S := Nat.mul_le_mul_right S hc
  rw [Nat.succ_mul] at h1
  generalize c * S = x at *
  generalize N * S = y at *
  omega

/-- Distinct triples give distinct indices. -/
theorem uniformIndex_inj (S c r k c2 r2 k2 : Nat) (hr : r < S) (hk : k < 6) (hr2 : r2 < S)
    (hk2 : k2 < 6) (h : uniformIndex S c r k = uniformIndex S c2 r2 k2) :
    c = c2 ∧ r = r2 ∧ k = k2 := by
  unfold uniformIndex at h
  have hxk : c * S + r = c2 * S + r2 ∧ k = k2 := by
    generalize c * S = x at *
    generalize c2 * S = y at *
    omega
  obtain ⟨hx, hkk⟩ := hxk
  have hcc : c = c2 := by
    rcases Nat.lt_trichotomy c c2 with hlt | heq | hgt
    · have : (c + 1) * S ≤ c2 * S := Nat.mul_le_mul_right S hlt
      rw [Nat.succ_mul] at this
      omega
    · exact heq
    · have : (c2 + 1) * S ≤ c * S := Nat.mul_le_mul_right S hgt
      rw [Nat.succ_mul] at this
      omega
  subst hcc
  exact ⟨rfl, by omega, hkk⟩

/-- Every allocated index is written. -/
theorem uniformIndex_surj (N S i : Nat) (h : i < tiledUniformsSize N S) :
    ∃ c r k, c < N ∧ r < S ∧ k < 6 ∧ uniformIndex S c r k = i := by
  unfold tiledUniformsSize at h
  have hS : 0 < S := by
    rcases Nat.eq_zero_or_pos S with h0 | h0
    · subst h0; simp at h
    · exact h0
  refine ⟨i / 6 / S, i / 6 % S, i % 6, ?_, Nat.mod_lt _ hS, Nat.mod_lt _ (by norm_num), ?_⟩
  · rw [Nat.div_lt_iff_lt_mul hS, Nat.div_lt_iff_lt_mul (by norm_num)]
    exact h
  · unfold uniformIndex
    have h1 := Nat.div_add_mod (i / 6) S
    have h2 := Nat.div_add_mod i 6
    have h3 : i / 6 / S * S = S * (i / 6 / S) := Nat.mul_comm _ _
    rw [h3]
    generalize S * (i / 6 / S) = x at *
    omega

/-- The index arithmetic stays inside `int`: for the `splitCols` the loop
computes from at least one program column, `numInstances * 6` is below
2^31. -/
theorem tiled_size_fits_int (progCols used r : Int) (hp : 1 ≤ progCols)
    (hp2 : progCols ≤ 33554432) (hu : used ≤ 12)
    (h : splitColsLoop progCols used 14 1 = some r) :
    1 ≤ r ∧ progCols * r * 6 < 2147483648 := by
  obtain ⟨r1, hr1, h1, h2, -, h4⟩ :=
    splitColsLoop_terminates progCols used hp hp2 hu 14 1 (by omega) (by omega) (by omega)
      (by omega)
  rw [hr1] at h
  injection h with h
  subst h
  refine ⟨h1, ?_⟩
  rcases h4 with h4 | h4
  · rw [h4]; omega
  · omega

/-- C28: in tiled mode, for every number of program columns and every
`splitCols`, each written index `c*splitCols*6 + r*6 + k` (with `c` below
`numProgCols`, `r` below `splitCols`, `k` below 6) is smaller than the
allocated `uniformsSize = numProgCols*splitCols*6`; two such indices are equal
only for the same `c`, `r` and `k`; and every index below `uniformsSize` is
written. -/
theorem uniform_indices (progCols splitCols : Nat) :
    (∀ c r k, c < progCols → r < splitCols → k < 6 →
      uniformIndex splitCols c r k < tiledUniformsSize progCols splitCols) ∧
    (∀ c r k c2 r2 k2, r < splitCols → k < 6 → r2 < splitCols → k2 < 6 →
      uniformIndex splitCols c r k = uniformIndex splitCols c2 r2 k2 →
      c = c2 ∧ r = r2 ∧ k = k2) ∧
    (∀ i, i < tiledUniformsSize progCols splitCols →
      ∃ c r k, c < progCols ∧ r < splitCols ∧ k < 6 ∧ uniformIndex splitCols c r k = i) :=
  ⟨fun c r k hc hr hk => uniformIndex_lt progCols splitCols c r k hc hr hk,
   fun c r k c2 r2 k2 hr hk hr2 hk2 h => uniformIndex_inj splitCols c r k c2 r2 k2 hr hk hr2 hk2 h,
   fun i hi => uniformIndex_surj progCols splitCols i hi⟩

/-- C28 (witness): for the default 1280 pixels (10 program columns, no split)
the last uniform of the last column has index 59, below the size 60; with 3
columns split in 4 the size is 72 and index 71 is the last uniform of the last
instance. -/
theorem uniform_indices_witness :
    uniformIndex 1 9 0 5 < tiledUniformsSize 10 1 ∧
    (∃ c r k, c < 3 ∧ r < 4 ∧ k < 6 ∧ uniformIndex 4 c r k = 71) :=
  ⟨(uniform_indices 10 1).1 9 0 5 (by decide) (by decide) (by decide),
   (uniform_indices 3 4).2.2 71 (by decide)⟩

/-! ## C29: the fields read from the serial text -/

/-- The number of fields is the number of commas plus one. -/
theorem splitAux_length (s : List Char) :
    ∀ cur, (splitAux cur s).length = s.count (Char.ofNat 44) + 1 := by
  induction s with
  | nil => intro cur; simp [splitAux]
  | cons c rest ih =>
    intro cur
    by_cases hc : c = Char.ofNat 44
    · subst hc
      simp [splitAux, ih]
    · have hne : ¬ (c == Char.ofNat 44) = true := by simpa using hc
      simp [splitAux, hc, ih, List.count_cons, hne]

/-- The three reads are all inside `result` exactly when the text does not
hold exactly one comma. -/
theorem field_accesses_in_bounds_iff (str : List Char) :
    (∀ i ∈ fieldAccesses (splitFields str), i < (splitFields str).length)
      ↔ str.count (Char.ofNat 44) ≠ 1 := by
  have hl : (splitFields str).length = str.count (Char.ofNat 44) + 1 := splitAux_length str []
  unfold fieldAccesses
  rw [hl]
  by_cases h : str.count (Char.ofNat 44) + 1 > 1
  · simp only [h, if_true]
    constructor
    · intro hall
      have := hall 2 (by simp)
      omega
    · intro hne i hi
      simp at hi
      omega
  · simp only [h, if_false]
    constructor
    · intro _; omega
    · intro _ i hi; cases hi

/-- C29 (the code at the failing input): the received text `72,36` is split
into the two fields `72` and `36`; `result.size() > 1` holds, so `result[0]`,
`result[1]` and `result[2]` are read, and index 2 is not below the size 2. -/
theorem third_field_out_of_bounds :
    splitFields ['7', '2', Char.ofNat 44, '3', '6'] = [['7', '2'], ['3', '6']] ∧
    (splitFields ['7', '2', Char.ofNat 44, '3', '6']).length = 2 ∧
    fieldAccesses (splitFields ['7', '2', Char.ofNat 44, '3', '6']) = [0, 1, 2] ∧
    ¬ (2 < (splitFields ['7', '2', Char.ofNat 44, '3', '6']).length) := by
  refine ⟨by decide, by decide, by decide, by decide⟩

/-! ## C30: the terminator written after the serial read -/

/-- C30 (the code at the failing input): `read` can return -1 (error, or no
data on the non-blocking port) and 64 (buffer filled); in both cases the index
written by `buff[rc] = 0` is outside the 64 bytes of `buff`.  For the other
results, 0 to 63, it is inside. -/
theorem terminator_index_out_of_buffer :
    readResult (-1) ∧ ¬ inBuff (terminatorIndex (-1)) ∧
    readResult 64 ∧ ¬ inBuff (terminatorIndex 64) ∧
    (∀ rc, readResult rc → (inBuff (terminatorIndex rc) ↔ 0 ≤ rc ∧ rc ≤ 63)) := by
  unfold readResult inBuff terminatorIndex BUFF_SIZE
  refine ⟨Or.inl rfl, by omega, Or.inr (by omega), by omega, ?_⟩
  intro rc _
  omega

end Vc4cv
